import Mathlib

/-!
# Flow-statistics differencing engine of the 5G DDoS dataset generators

Shallow embedding of `SampleAndWrite` and the parts of `main` it depends on, from
`nr_ddos_dataset.cc` and `simple_ddos_dataset.cc`.

Modelling conventions

* `uint64_t` values are natural numbers; every 64-bit operation of the source is written
  with an explicit reduction modulo `2 ^ 64` (`add64`, `sub64`).
* `double` values are rational numbers: the arithmetic of the source is idealised as exact,
  without rounding. A quotient by zero, which is an infinity or a NaN in the source, is `0` in
  the model, so the rates of a row are those of the source for a non-zero window size only.
  The window clock is the one place where a sum is accumulated from tick to tick:
  `SampleAndWriteRounded` takes the addition of two `double` values as a parameter for it, and
  `addDouble` is the addition of IEEE 754 binary64.
* `std::map<FlowKey, FlowSnapshot>` is a list of entries kept strictly increasing for
  `FlowKey::operator<`; `std::set<uint32_t>` is a duplicate-free increasing list.
* The output stream `g_out` is the list of the lines written so far.
-/

namespace FlowEngine

/-! ## Data model -/

/-- The five-tuple key of a flow (`struct FlowKey`); an `Ipv4Address` is its 32-bit value. -/
structure FlowKey where
  src : Nat
  dst : Nat
  srcPort : Nat
  dstPort : Nat
  protocol : Nat
deriving DecidableEq

/-- `FlowKey::operator<`. -/
def FlowKey.lt (a other : FlowKey) : Bool :=
  if a.src ≠ other.src then decide (a.src < other.src)
  else if a.dst ≠ other.dst then decide (a.dst < other.dst)
  else if a.srcPort ≠ other.srcPort then decide (a.srcPort < other.srcPort)
  else if a.dstPort ≠ other.dstPort then decide (a.dstPort < other.dstPort)
  else decide (a.protocol < other.protocol)

/-- Cumulative counters of one flow (`struct FlowSnapshot`); the default value is all zero. -/
structure FlowSnapshot where
  txPackets : Nat := 0
  rxPackets : Nat := 0
  txBytes : Nat := 0
  rxBytes : Nat := 0
  lostPackets : Nat := 0
  delaySum : ℚ := 0
  jitterSum : ℚ := 0
deriving DecidableEq

/-- The modulus of `uint64_t` arithmetic. -/
def U64 : Nat := 2 ^ 64

/-- Addition of two `uint64_t` values. -/
def add64 (a b : Nat) : Nat := (a + b) % U64

/-- Subtraction of two `uint64_t` values: `a` plus the two's complement of `b`. -/
def sub64 (a b : Nat) : Nat := (a + (U64 - b % U64)) % U64

/-- A snapshot whose five counters are `uint64_t` values. -/
def FlowSnapshot.WF (s : FlowSnapshot) : Prop :=
  s.txPackets < U64 ∧ s.rxPackets < U64 ∧ s.txBytes < U64 ∧ s.rxBytes < U64 ∧
    s.lostPackets < U64

/-- A `std::map<FlowKey, FlowSnapshot>`: its entries in increasing key order. -/
abbrev FlowMap := List (FlowKey × FlowSnapshot)

/-- The assignment `m[key] = snap` of `std::map`: a new entry is placed at its position in the
key order, an entry with an equivalent key keeps its key and takes the new value. -/
def mapInsert (key : FlowKey) (snap : FlowSnapshot) : FlowMap → FlowMap
  | [] => [(key, snap)]
  | (k, v) :: rest =>
    if key.lt k then (key, snap) :: (k, v) :: rest
    else if k.lt key then (k, v) :: mapInsert key snap rest
    else (k, snap) :: rest

/-- Lookup in a `std::map`: the value of the entry whose key is equivalent to `key`
(neither is less than the other). -/
def mapFind (m : FlowMap) (key : FlowKey) : Option FlowSnapshot :=
  match m with
  | [] => none
  | (k, v) :: rest => if !key.lt k && !k.lt key then some v else mapFind rest key

/-- The expression `m.count(key) ? m[key] : FlowSnapshot{}` of `SampleAndWrite`. -/
def lookupOrZero (m : FlowMap) (key : FlowKey) : FlowSnapshot :=
  match mapFind m key with
  | some v => v
  | none => {}

/-- One entry of the polled statistics: the five-tuple the classifier gives for a flow id and
the fields of `FlowMonitor::FlowStats` that `SampleAndWrite` reads (times in seconds). -/
structure FlowStats where
  sourceAddress : Nat
  destinationAddress : Nat
  sourcePort : Nat
  destinationPort : Nat
  protocol : Nat
  txPackets : Nat
  rxPackets : Nat
  txBytes : Nat
  rxBytes : Nat
  lostPackets : Nat
  delaySum : ℚ
  jitterSum : ℚ
deriving DecidableEq

/-- The statistics of one poll, in flow-id order. -/
abbrev Poll := List FlowStats

/-- The key built from the five-tuple of a polled flow. -/
def keyOf (st : FlowStats) : FlowKey :=
  { src := st.sourceAddress, dst := st.destinationAddress, srcPort := st.sourcePort,
    dstPort := st.destinationPort, protocol := st.protocol }

/-- The snapshot copied from the statistics of a polled flow; the counters are stored in
`uint64_t` fields. -/
def snapOf (st : FlowStats) : FlowSnapshot :=
  { txPackets := st.txPackets % U64, rxPackets := st.rxPackets % U64,
    txBytes := st.txBytes % U64, rxBytes := st.rxBytes % U64,
    lostPackets := st.lostPackets % U64, delaySum := st.delaySum, jitterSum := st.jitterSum }

/-- The first loop of `SampleAndWrite`: the map `current` built from the polled statistics. -/
def buildCurrent (stats : Poll) : FlowMap :=
  stats.foldl (fun current st => mapInsert (keyOf st) (snapOf st) current) []

/-- The reverse key `revKey` of a forward key. -/
def revKey (fwdKey : FlowKey) : FlowKey :=
  { src := fwdKey.dst, dst := fwdKey.src, srcPort := fwdKey.dstPort, dstPort := fwdKey.srcPort,
    protocol := fwdKey.protocol }

/-! ## Engine state and output -/

/-- One data row of the CSV file: its columns in the order of the header. -/
structure Row where
  time_start : ℚ
  time_end : ℚ
  scenario_id : String
  ue_total : Nat
  attackers : Nat
  src_ip : Nat
  dst_ip : Nat
  src_port : Nat
  dst_port : Nat
  protocol : Nat
  packet_size : ℚ
  flow_duration : ℚ
  total_bytes_fwd : Nat
  total_bytes_bwd : Nat
  total_pkts_fwd : Nat
  total_pkts_bwd : Nat
  pkts_per_sec : ℚ
  bytes_per_sec : ℚ
  flow_pkts_per_sec : ℚ
  flow_bytes_per_sec : ℚ
  jitter_ms : ℚ
  delay_ms : ℚ
  label_binary : Nat
  label_intensity : Int
deriving DecidableEq

/-- The key printed in the columns `src_ip .. protocol` of a row. -/
def Row.key (r : Row) : FlowKey :=
  { src := r.src_ip, dst := r.dst_ip, srcPort := r.src_port, dstPort := r.dst_port,
    protocol := r.protocol }

/-- One line of the output file: the header written by `WriteCsvHeader` or a data row. -/
inductive Line where
  | header
  | data (r : Row)
deriving DecidableEq

/-- The global variables read and written by `SampleAndWrite`. -/
structure State where
  g_prev : FlowMap := []
  g_out : List Line := []
  g_windowStart : ℚ := 0
  g_windowSize : ℚ := 1
  g_scenarioId : String := ""
  g_ueTotal : Nat := 0
  g_attackers : List Nat := []

/-- The two programs that contain the engine. -/
inductive Generator where
  | nr
  | simple
deriving DecidableEq

/-- The eight `uint64_t` deltas computed for one forward key. -/
structure Deltas where
  dTxPktsF : Nat
  dRxPktsF : Nat
  dTxBytesF : Nat
  dRxBytesF : Nat
  dTxPktsB : Nat
  dRxPktsB : Nat
  dTxBytesB : Nat
  dRxBytesB : Nat
deriving DecidableEq

/-- The deltas of `SampleAndWrite` for the entry `(fwdKey, curFwd)` of `current`. -/
def flowDeltas (g_prev current : FlowMap) (fwdKey : FlowKey) (curFwd : FlowSnapshot) : Deltas :=
  let curBwd := lookupOrZero current (revKey fwdKey)
  let prevFwd := lookupOrZero g_prev fwdKey
  let prevBwd := lookupOrZero g_prev (revKey fwdKey)
  { dTxPktsF := sub64 curFwd.txPackets prevFwd.txPackets
    dRxPktsF := sub64 curFwd.rxPackets prevFwd.rxPackets
    dTxBytesF := sub64 curFwd.txBytes prevFwd.txBytes
    dRxBytesF := sub64 curFwd.rxBytes prevFwd.rxBytes
    dTxPktsB := sub64 curBwd.txPackets prevBwd.txPackets
    dRxPktsB := sub64 curBwd.rxPackets prevBwd.rxPackets
    dTxBytesB := sub64 curBwd.txBytes prevBwd.txBytes
    dRxBytesB := sub64 curBwd.rxBytes prevBwd.rxBytes }

/-- The flag `attackBinary`: the nr generator labels by rate only, the simple generator also
looks the lowest octet of the source address up in `g_attackers`. -/
def attackBinary (gen : Generator) (g_attackers : List Nat) (fwdKey : FlowKey)
    (flowPktsPerSec : ℚ) : Bool :=
  match gen with
  | .nr => decide (flowPktsPerSec > 5000)
  | .simple =>
    let srcNodeId := fwdKey.src &&& 0xFF
    let isAttacker := decide (srcNodeId ∈ g_attackers)
    isAttacker || decide (flowPktsPerSec > 5000)

/-- The body of the second loop of `SampleAndWrite`: the row written for the entry
`(fwdKey, curFwd)` of `current`. -/
def flowRow (gen : Generator) (s : State) (current : FlowMap) (fwdKey : FlowKey)
    (curFwd : FlowSnapshot) : Row :=
  let curBwd := lookupOrZero current (revKey fwdKey)
  let prevFwd := lookupOrZero s.g_prev fwdKey
  let prevBwd := lookupOrZero s.g_prev (revKey fwdKey)
  let d := flowDeltas s.g_prev current fwdKey curFwd
  let totalPktsFwd := add64 d.dTxPktsF d.dRxPktsF
  let totalPktsBwd := add64 d.dTxPktsB d.dRxPktsB
  let totalBytesFwd := add64 d.dTxBytesF d.dRxBytesF
  let totalBytesBwd := add64 d.dTxBytesB d.dRxBytesB
  let duration := s.g_windowSize
  let pktsPerSec : ℚ := (add64 totalPktsFwd totalPktsBwd : ℚ) / duration
  let bytesPerSec : ℚ := (add64 totalBytesFwd totalBytesBwd : ℚ) / duration
  let flowPktsPerSec : ℚ := (totalPktsFwd : ℚ) / duration
  let flowBytesPerSec : ℚ := (totalBytesFwd : ℚ) / duration
  let dRxPktsAll := add64 d.dRxPktsF d.dRxPktsB
  let dDelay : ℚ := (curFwd.delaySum + curBwd.delaySum) - (prevFwd.delaySum + prevBwd.delaySum)
  let dJitter : ℚ :=
    (curFwd.jitterSum + curBwd.jitterSum) - (prevFwd.jitterSum + prevBwd.jitterSum)
  let avgDelayMs : ℚ := if dRxPktsAll > 0 then 1000 * dDelay / (dRxPktsAll : ℚ) else 0
  let avgJitterMs : ℚ := if dRxPktsAll > 0 then 1000 * dJitter / (dRxPktsAll : ℚ) else 0
  let attack := attackBinary gen s.g_attackers fwdKey flowPktsPerSec
  let attackIntensity : Int := if attack then 3 else 0
  let pktsAll := add64 totalPktsFwd totalPktsBwd
  let avgPktSize : ℚ :=
    if pktsAll > 0 then (add64 totalBytesFwd totalBytesBwd : ℚ) / (pktsAll : ℚ) else 0
  let timeEnd := s.g_windowStart + s.g_windowSize
  { time_start := s.g_windowStart
    time_end := timeEnd
    scenario_id := s.g_scenarioId
    ue_total := s.g_ueTotal
    attackers := s.g_attackers.length
    src_ip := fwdKey.src
    dst_ip := fwdKey.dst
    src_port := fwdKey.srcPort
    dst_port := fwdKey.dstPort
    protocol := fwdKey.protocol
    packet_size := avgPktSize
    flow_duration := duration
    total_bytes_fwd := totalBytesFwd
    total_bytes_bwd := totalBytesBwd
    total_pkts_fwd := totalPktsFwd
    total_pkts_bwd := totalPktsBwd
    pkts_per_sec := pktsPerSec
    bytes_per_sec := bytesPerSec
    flow_pkts_per_sec := flowPktsPerSec
    flow_bytes_per_sec := flowBytesPerSec
    jitter_ms := avgJitterMs
    delay_ms := avgDelayMs
    label_binary := if attack then 1 else 0
    label_intensity := attackIntensity }

/-- The rows one call of `SampleAndWrite` writes: one pass over `current` in key order. -/
def tickRows (gen : Generator) (s : State) (stats : Poll) : List Row :=
  (buildCurrent stats).map (fun kv => flowRow gen s (buildCurrent stats) kv.1 kv.2)

/-- One tick: `SampleAndWrite` of the generator `gen` on the statistics `stats` of the poll. -/
def SampleAndWrite (gen : Generator) (s : State) (stats : Poll) : State :=
  { s with
    g_out := s.g_out ++ (tickRows gen s stats).map Line.data
    g_prev := buildCurrent stats
    g_windowStart := s.g_windowStart + s.g_windowSize }

/-! ## Configuration and start-up (`main`) -/

/-- An ns-3 `Time`, in its default resolution of one nanosecond. -/
structure Time where
  ns : Int
deriving DecidableEq

/-- `Time::GetSeconds`. -/
def Time.GetSeconds (t : Time) : ℚ := (t.ns : ℚ) / 1000000000

/-- `IntensityToLabel` of `nr_ddos_dataset.cc`. -/
def IntensityToLabel (attackInterval : Time) : Int :=
  let us := attackInterval.GetSeconds * 1000000
  if us ≤ 200 then 3
  else if us ≤ 500 then 2
  else 1

/-- The command-line options of `main` that reach the engine, with their defaults. -/
structure Config where
  ueTotal : Nat := 25
  enableAttack : Bool := true
  attackInterval : Time := { ns := 200000 }
  window : ℚ := 1
  scenarioTag : String := "default"

/-- `std::set<uint32_t>::insert`. -/
def setInsert (x : Nat) : List Nat → List Nat
  | [] => [x]
  | y :: rest =>
    if x < y then x :: y :: rest
    else if y < x then y :: setInsert x rest
    else y :: rest

/-- The attacker set `main` builds: the last five node ids when attacks are enabled and there
are at least five nodes, the empty set otherwise. -/
def mainAttackers (cfg : Config) : List Nat :=
  if cfg.enableAttack && decide (cfg.ueTotal ≥ 5) then
    (List.range' (cfg.ueTotal - 5) (cfg.ueTotal - (cfg.ueTotal - 5))).foldl
      (fun acc i => setInsert i acc) []
  else []

/-- The globals as `main` leaves them when it schedules the first tick: the header is written,
the registry is empty and the window clock is at zero. -/
def mainInit (cfg : Config) : State :=
  { g_prev := []
    g_out := [Line.header]
    g_windowStart := 0
    g_windowSize := cfg.window
    g_scenarioId := cfg.scenarioTag
    g_ueTotal := cfg.ueTotal
    g_attackers := mainAttackers cfg }

/-- A run: `main` followed by one tick per poll. -/
def run (gen : Generator) (cfg : Config) (polls : List Poll) : State :=
  polls.foldl (SampleAndWrite gen) (mainInit cfg)

/-- The address `main` of `simple_ddos_dataset.cc` gives to node `i`: the helper starts at
base `10.1.1.0` with host part `0.0.0.1` and hands out consecutive addresses in node order. -/
def nodeAddress (i : Nat) : Nat := 0x0A010100 + (i + 1)


/-! ## Invariant of the map model -/

/-- The keys of a map are strictly increasing for `FlowKey::operator<`. -/
def KeysSorted (m : FlowMap) : Prop := m.Pairwise (fun a b => a.1.lt b.1 = true)

/-! ## Concrete scenarios -/

/-- The statistics of a UDP flow with the given endpoints and counters, without delay or
jitter. -/
def udpStats (src dst sport dport tx rx txb rxb : Nat) : FlowStats :=
  { sourceAddress := src, destinationAddress := dst, sourcePort := sport,
    destinationPort := dport, protocol := 17, txPackets := tx, rxPackets := rx,
    txBytes := txb, rxBytes := rxb, lostPackets := 0, delaySum := 0, jitterSum := 0 }

/-- The flow from the client on node 1 (10.1.1.2) to the server on node 3 (10.1.1.4). -/
def upStats (tx rx txb rxb : Nat) : FlowStats :=
  udpStats (nodeAddress 1) (nodeAddress 3) 49153 1003 tx rx txb rxb

/-- The flow in the opposite direction, from the server on node 3 to the client on node 1. -/
def downStats (tx rx txb rxb : Nat) : FlowStats :=
  udpStats (nodeAddress 3) (nodeAddress 1) 1003 49153 tx rx txb rxb

/-- The key of the client-to-server flow. -/
def upKey : FlowKey := keyOf (upStats 0 0 0 0)

/-- The state after a first tick of a default run that observed both directions. -/
def afterPair (gen : Generator) : State :=
  run gen {} [[upStats 10 8 500 400, downStats 3 3 100 100]]

/-- A first poll whose only flow has sent and received `2 ^ 63` bytes. -/
def hugePoll : Poll := [upStats 2 2 (2 ^ 63) (2 ^ 63)]

/-- The snapshot of the flow of `hugePoll`. -/
def hugeSnap : FlowSnapshot := snapOf (upStats 2 2 (2 ^ 63) (2 ^ 63))

/-- The second poll of the pair scenario: every counter of both directions has grown. -/
def pairPoll2 : Poll := [upStats 12 10 600 500, downStats 4 4 150 150]

/-- The state after a first tick of a default run that observed the client-to-server flow
only. -/
def afterUp (gen : Generator) : State := run gen {} [[upStats 10 8 500 400]]

/-- A second poll in which the transmit packet counter of the flow went back from 10 to 5. -/
def regressPoll : Poll := [upStats 5 8 500 400]

/-- A first poll that observes both directions of one conversation. -/
def pairPoll : Poll := [upStats 10 8 500 400, downStats 3 3 100 100]

/-- A second poll of the pair scenario in which the monitor no longer reports the
server-to-client flow. -/
def vanishPoll : Poll := [upStats 20 18 900 800]

/-- A first poll in which the client-to-server flow counts 120 packets and the reverse flow 80
packets. -/
def ratePoll : Poll := [upStats 100 20 60000 12000, downStats 50 30 5000 3000]

/-- The statistics of a flow of 10 packets of 512 bytes from node `i` to the server on
node 3. -/
def nodeStats (i : Nat) : FlowStats :=
  udpStats (nodeAddress i) (nodeAddress 3) 49153 1003 10 10 5120 5120

/-- A configuration whose attackers send one packet per millisecond. -/
def slowAttackCfg : Config := { attackInterval := { ns := 1000000 } }

/-- A first poll whose only flow, from the client on node 1, counts 6000 packets. -/
def fastPoll : Poll := [upStats 6000 0 3072000 0]

/-- The statistics of a UDP flow between node 1 and node 3 (`up` for client to server) with
the given packet counters, delay sum and jitter sum, 50 bytes per packet. -/
def timedStats (up : Bool) (tx rx : Nat) (delay jitter : ℚ) : FlowStats :=
  { (if up then upStats tx rx (50 * tx) (50 * rx) else downStats tx rx (50 * tx) (50 * rx)) with
    delaySum := delay, jitterSum := jitter }

/-- A first poll with delay and jitter sums for both directions. -/
def timedPoll : Poll := [timedStats true 10 8 16 8, timedStats false 3 3 6 3]

/-- A second poll after a reset of the monitor: every counter and sum restarted from zero. -/
def resetPoll : Poll := [timedStats true 2 1 2 1, timedStats false 1 1 2 1]

/-- A second poll in which both directions have grown. -/
def timedPoll2 : Poll := [timedStats true 14 12 26 13, timedStats false 5 5 10 5]

/-- The state after a first tick of a default run on `timedPoll`. -/
def afterTimed (gen : Generator) : State := run gen {} [timedPoll]

/-- A second poll of the client-to-server flow alone: 12 packets and 600 bytes sent, 10 packets
and 500 bytes received. -/
def growPoll : Poll := [upStats 12 10 600 500]

/-- The first poll of the pair scenario with 2 lost packets on the client-to-server flow. -/
def lossyPoll : Poll := [{ upStats 10 8 500 400 with lostPackets := 2 }, downStats 3 3 100 100]

/-- The second poll of the pair scenario with 7 lost packets on the client-to-server flow and
1 on the reverse flow. -/
def lossyPoll2 : Poll :=
  [{ upStats 12 10 600 500 with lostPackets := 7 },
    { downStats 4 4 150 150 with lostPackets := 1 }]

/-- A configuration with the option `window` set to 0.1: the `double` nearest to one tenth. -/
def tenthWindowCfg : Config := { window := 3602879701896397 / 36028797018963968 }

/-- The statistics of a flow from node `i` to the server on node 3 that counts 5000 packets of
512 bytes, 2500 sent and 2500 received. -/
def boundaryStats (i : Nat) : FlowStats :=
  udpStats (nodeAddress i) (nodeAddress 3) 49153 1003 2500 2500 1280000 1280000

/-! ## The guarded lookups of the resolver, with their effect on the map -/

/-- `std::map::count`: 1 if the map has an entry with a key equivalent to `key`, else 0. -/
def mapCount (m : FlowMap) (key : FlowKey) : Nat :=
  match mapFind m key with
  | some _ => 1
  | none => 0

/-- `std::map::operator[]`: the value found at `key` and the map after the access; the access
to an absent key inserts a default-constructed snapshot. -/
def mapIndex (m : FlowMap) (key : FlowKey) : FlowSnapshot × FlowMap :=
  match mapFind m key with
  | some v => (v, m)
  | none => ({}, mapInsert key {} m)

/-- The expression `m.count(key) ? m[key] : FlowSnapshot{}` of `SampleAndWrite` together with
its effect on the map `m`. -/
def guardedLookup (m : FlowMap) (key : FlowKey) : FlowSnapshot × FlowMap :=
  if mapCount m key ≠ 0 then mapIndex m key else ({}, m)

/-! ## The text of the output file -/

/-- `WriteCsvHeader`: the text it writes to `g_out`. -/
def WriteCsvHeader : String :=
  "time_start,time_end,scenario_id,ue_total,attackers," ++
  "src_ip,dst_ip,src_port,dst_port,protocol,packet_size," ++
  "flow_duration,total_bytes_fwd,total_bytes_bwd,total_pkts_fwd,total_pkts_bwd," ++
  "pkts_per_sec,bytes_per_sec,flow_pkts_per_sec,flow_bytes_per_sec," ++
  "jitter_ms,delay_ms,label_binary,label_intensity\n"

/-- The `operator<<` of the output stream for the types of the values of a row: `double`,
unsigned integers, `int` and `Ipv4Address`. They belong to the C++ and ns-3 libraries and are
parameters of the model. -/
structure Formatters where
  fmtDouble : ℚ → String
  fmtUnsigned : Nat → String
  fmtInt : Int → String
  fmtAddress : Nat → String

/-- No formatter writes a comma (the stream has the classic locale). -/
def Formatters.CommaFree (F : Formatters) : Prop :=
  (∀ x, ',' ∉ (F.fmtDouble x).data) ∧ (∀ n, ',' ∉ (F.fmtUnsigned n).data) ∧
    (∀ i, ',' ∉ (F.fmtInt i).data) ∧ (∀ a, ',' ∉ (F.fmtAddress a).data)

/-- The text `SampleAndWrite` writes to `g_out` for one row. -/
def rowText (F : Formatters) (r : Row) : String :=
  F.fmtDouble r.time_start ++ "," ++ F.fmtDouble r.time_end ++ "," ++ r.scenario_id ++ "," ++
    F.fmtUnsigned r.ue_total ++ "," ++ F.fmtUnsigned r.attackers ++ "," ++
  F.fmtAddress r.src_ip ++ "," ++ F.fmtAddress r.dst_ip ++ "," ++ F.fmtUnsigned r.src_port ++
    "," ++ F.fmtUnsigned r.dst_port ++ "," ++ F.fmtUnsigned r.protocol ++ "," ++
    F.fmtDouble r.packet_size ++ "," ++
  F.fmtDouble r.flow_duration ++ "," ++ F.fmtUnsigned r.total_bytes_fwd ++ "," ++
    F.fmtUnsigned r.total_bytes_bwd ++ "," ++ F.fmtUnsigned r.total_pkts_fwd ++ "," ++
    F.fmtUnsigned r.total_pkts_bwd ++ "," ++
  F.fmtDouble r.pkts_per_sec ++ "," ++ F.fmtDouble r.bytes_per_sec ++ "," ++
    F.fmtDouble r.flow_pkts_per_sec ++ "," ++ F.fmtDouble r.flow_bytes_per_sec ++ "," ++
  F.fmtDouble r.jitter_ms ++ "," ++ F.fmtDouble r.delay_ms ++ "," ++
    F.fmtInt (r.label_binary : Int) ++ "," ++ F.fmtInt r.label_intensity ++ "\n"

/-- The comma-separated fields of a line of text that ends with its line terminator. -/
def csvFields (line : String) : List String :=
  (line.data.dropLast.splitOn ',').map String.mk

/-- The values of the columns of a row as the formatters write them, in the order in which
`SampleAndWrite` writes them. -/
def rowValues (F : Formatters) (r : Row) : List String :=
  [F.fmtDouble r.time_start, F.fmtDouble r.time_end, r.scenario_id, F.fmtUnsigned r.ue_total,
    F.fmtUnsigned r.attackers, F.fmtAddress r.src_ip, F.fmtAddress r.dst_ip,
    F.fmtUnsigned r.src_port, F.fmtUnsigned r.dst_port, F.fmtUnsigned r.protocol,
    F.fmtDouble r.packet_size, F.fmtDouble r.flow_duration, F.fmtUnsigned r.total_bytes_fwd,
    F.fmtUnsigned r.total_bytes_bwd, F.fmtUnsigned r.total_pkts_fwd,
    F.fmtUnsigned r.total_pkts_bwd, F.fmtDouble r.pkts_per_sec, F.fmtDouble r.bytes_per_sec,
    F.fmtDouble r.flow_pkts_per_sec, F.fmtDouble r.flow_bytes_per_sec, F.fmtDouble r.jitter_ms,
    F.fmtDouble r.delay_ms, F.fmtInt (r.label_binary : Int), F.fmtInt r.label_intensity]

/-- Formatters for worked examples: an unsigned integer in decimal digits, an `int` with a
minus sign when negative, an address as a dotted quad and, standing in for the rendering of a
`double`, a rational as its numerator and denominator. -/
def decimalFormatters : Formatters :=
  { fmtDouble := fun q =>
      (if q < 0 then "-" else "") ++ Nat.repr q.num.natAbs ++ "/" ++ Nat.repr q.den
    fmtUnsigned := Nat.repr
    fmtInt := fun i => (if i < 0 then "-" else "") ++ Nat.repr i.natAbs
    fmtAddress := fun a =>
      Nat.repr (a / 16777216 % 256) ++ "." ++ Nat.repr (a / 65536 % 256) ++ "." ++
        Nat.repr (a / 256 % 256) ++ "." ++ Nat.repr (a % 256) }

/-! ## Start-up checks of `main` -/

/-- The start-up path of `main`, from the parsing of the options to the call that schedules the
first tick; `none` stands for a configuration that `main` rejects. The only use of
`g_windowSize` on this path is as the delay of that call: no statement tests it, and `main` has
no return before `Simulator::Run`, so every parsed configuration reaches the scheduling of the
first tick with the globals of `mainInit`. -/
def mainStartup (cfg : Config) : Option State := some (mainInit cfg)

/-- A configuration with the option `window` set to zero. -/
def zeroWindowCfg : Config := { window := 0 }

/-! ## The rows of the output file -/

/-- The data rows of an output file, in the order written. -/
def dataRows (out : List Line) : List Row :=
  out.filterMap (fun l => match l with
    | .data r => some r
    | .header => none)

/-- The data rows of an output file that were written for the key `k`. -/
def rowsOfKey (out : List Line) (k : FlowKey) : List Row :=
  (dataRows out).filter (fun r => decide (r.key = k))

/-! ## States up to the `lostPackets` counters -/

/-- A snapshot with its `lostPackets` counter set to zero. -/
def clearLost (v : FlowSnapshot) : FlowSnapshot := { v with lostPackets := 0 }

/-- A map with the `lostPackets` counter of every snapshot set to zero. -/
def clearLostMap (m : FlowMap) : FlowMap := m.map (fun kv => (kv.1, clearLost kv.2))

/-- Two engine states that differ at most in the `lostPackets` counters of the snapshots of
their registries. -/
def LostEquiv (s s' : State) : Prop :=
  s.g_out = s'.g_out ∧ clearLostMap s.g_prev = clearLostMap s'.g_prev ∧
  s.g_windowStart = s'.g_windowStart ∧ s.g_windowSize = s'.g_windowSize ∧
  s.g_scenarioId = s'.g_scenarioId ∧ s.g_ueTotal = s'.g_ueTotal ∧
  s.g_attackers = s'.g_attackers

/-! ## The window clock in `double` arithmetic -/

/-- The position of the leading binary digit of `n` (0 for `n < 2`), by repeated halving;
`fuel` bounds the number of halvings and `n` itself is always enough. -/
def log2Floor : Nat → Nat → Nat
  | 0, _ => 0
  | fuel + 1, n => if n < 2 then 0 else log2Floor fuel (n / 2) + 1

/-- Rounding of a rational number to the nearest value with a 53-bit significand, ties to the
even significand: the rounding of IEEE 754 binary64 (`double`) in its default mode, for a
result in the normal range (the exponent is not bounded here, so there is neither overflow
nor a subnormal result). For `x = ± n / d`, the scaled value `N / D = |x| * 2 ^ (s + 1)` lies
in `[2 ^ 52, 2 ^ 54)`; `k` is 0 or 1 so that the quotient `q` of `N` by `D' = D * 2 ^ k` has
exactly 53 bits; the significand `m` is `q`, or `q + 1` when the remainder `r` is more than
half of `D'`, or exactly half of it with `q` odd; the result is `± m * 2 ^ k / 2 ^ (s + 1)`. -/
def roundDouble (x : ℚ) : ℚ :=
  if x = 0 then 0 else
    let n := x.num.natAbs
    let d := x.den
    let s : Int := (52 : Int) + (log2Floor d d : Int) - (log2Floor n n : Int)
    let N := n * 2 ^ (s + 1).toNat
    let D := d * 2 ^ (-(s + 1)).toNat
    let k := if N / D < 2 ^ 53 then 0 else 1
    let D' := D * 2 ^ k
    let q := N / D'
    let r := N % D'
    let m := if 2 * r > D' ∨ (2 * r = D' ∧ q % 2 = 1) then q + 1 else q
    let v : ℚ :=
      ((m * 2 ^ k * 2 ^ (-(s + 1)).toNat : Nat) : ℚ) / ((2 ^ (s + 1).toNat : Nat) : ℚ)
    if x < 0 then -v else v

/-- The sum of two `double` values in IEEE 754 arithmetic: the exact sum, rounded. -/
def addDouble (x y : ℚ) : ℚ := roundDouble (x + y)

/-- The rows of one call of `SampleAndWrite` when the sum `g_windowStart + g_windowSize` of
`timeEnd` is computed by `add`, the addition of two `double` values, instead of exactly. -/
def tickRowsRounded (add : ℚ → ℚ → ℚ) (gen : Generator) (s : State) (stats : Poll) :
    List Row :=
  (tickRows gen s stats).map
    (fun r => { r with time_end := add s.g_windowStart s.g_windowSize })

/-- One tick of `SampleAndWrite` when the two sums of the window clock, `timeEnd =
g_windowStart + g_windowSize` and `g_windowStart += g_windowSize`, are computed by `add`, the
addition of two `double` values. With the exact addition it is `SampleAndWrite`. -/
def SampleAndWriteRounded (add : ℚ → ℚ → ℚ) (gen : Generator) (s : State) (stats : Poll) :
    State :=
  { s with
    g_out := s.g_out ++ (tickRowsRounded add gen s stats).map Line.data
    g_prev := buildCurrent stats
    g_windowStart := add s.g_windowStart s.g_windowSize }

/-- A run whose window clock is advanced by `add`: `main` followed by one tick per poll. -/
def runRounded (add : ℚ → ℚ → ℚ) (gen : Generator) (cfg : Config) (polls : List Poll) :
    State :=
  polls.foldl (SampleAndWriteRounded add gen) (mainInit cfg)

/-! ## Order and map lemmas -/

theorem FlowKey.lt_iff (a b : FlowKey) :
    a.lt b = true ↔
      a.src < b.src ∨ (a.src = b.src ∧ (a.dst < b.dst ∨ (a.dst = b.dst ∧
        (a.srcPort < b.srcPort ∨ (a.srcPort = b.srcPort ∧
          (a.dstPort < b.dstPort ∨ (a.dstPort = b.dstPort ∧ a.protocol < b.protocol))))))) := by
  unfold FlowKey.lt
  split_ifs <;> simp <;> omega

theorem FlowKey.lt_irrefl (a : FlowKey) : a.lt a = false := by
  simp [FlowKey.lt]

theorem FlowKey.lt_trans {a b c : FlowKey} (h1 : a.lt b = true) (h2 : b.lt c = true) :
    a.lt c = true := by
  rw [FlowKey.lt_iff] at h1 h2 ⊢
  omega

theorem FlowKey.lt_asymm {a b : FlowKey} (h : a.lt b = true) : b.lt a = false := by
  rw [← Bool.not_eq_true, FlowKey.lt_iff]
  rw [FlowKey.lt_iff] at h
  omega

theorem FlowKey.eq_of_not_lt {a b : FlowKey} (h1 : a.lt b = false) (h2 : b.lt a = false) :
    a = b := by
  rw [← Bool.not_eq_true, FlowKey.lt_iff] at h1 h2
  obtain ⟨a1, a2, a3, a4, a5⟩ := a
  obtain ⟨b1, b2, b3, b4, b5⟩ := b
  simp only [FlowKey.mk.injEq]
  simp only at h1 h2
  omega

theorem mem_mapInsert {key : FlowKey} {snap : FlowSnapshot} {m : FlowMap}
    {x : FlowKey × FlowSnapshot} (h : x ∈ mapInsert key snap m) : x = (key, snap) ∨ x ∈ m := by
  induction m with
  | nil => simpa [mapInsert] using h
  | cons e rest ih =>
    obtain ⟨k, v⟩ := e
    unfold mapInsert at h
    split_ifs at h with h1 h2
    · rcases List.mem_cons.1 h with h | h
      · exact Or.inl h
      · exact Or.inr h
    · rcases List.mem_cons.1 h with h | h
      · exact Or.inr (h ▸ List.mem_cons_self _ _)
      · rcases ih h with h | h
        · exact Or.inl h
        · exact Or.inr (List.mem_cons_of_mem _ h)
    · have hk : key = k :=
        FlowKey.eq_of_not_lt (by simpa using h1) (by simpa using h2)
      rcases List.mem_cons.1 h with h | h
      · exact Or.inl (by rw [h, hk])
      · exact Or.inr (List.mem_cons_of_mem _ h)

theorem keysSorted_mapInsert {key : FlowKey} {snap : FlowSnapshot} {m : FlowMap}
    (hm : KeysSorted m) : KeysSorted (mapInsert key snap m) := by
  induction m with
  | nil => simp [mapInsert, KeysSorted]
  | cons e rest ih =>
    obtain ⟨k, v⟩ := e
    have hm' := List.pairwise_cons.1 hm
    unfold mapInsert
    split_ifs with h1 h2
    · refine List.pairwise_cons.2 ⟨?_, hm⟩
      intro y hy
      rcases List.mem_cons.1 hy with hy | hy
      · rw [hy]; exact h1
      · exact FlowKey.lt_trans h1 (hm'.1 y hy)
    · refine List.pairwise_cons.2 ⟨?_, ih hm'.2⟩
      intro y hy
      rcases mem_mapInsert hy with hy | hy
      · rw [hy]; exact h2
      · exact hm'.1 y hy
    · exact List.pairwise_cons.2 ⟨hm'.1, hm'.2⟩

theorem foldl_mapInsert_inv (P : FlowMap → Prop)
    (hstep : ∀ m st, P m → P (mapInsert (keyOf st) (snapOf st) m)) (stats : Poll) :
    ∀ acc, P acc →
      P (stats.foldl (fun current st => mapInsert (keyOf st) (snapOf st) current) acc) := by
  induction stats with
  | nil => intro acc h; exact h
  | cons st rest ih => intro acc h; exact ih _ (hstep _ _ h)

theorem keysSorted_buildCurrent (stats : Poll) : KeysSorted (buildCurrent stats) :=
  foldl_mapInsert_inv KeysSorted (fun _ _ h => keysSorted_mapInsert h) stats []
    List.Pairwise.nil

theorem snapOf_WF (st : FlowStats) : (snapOf st).WF := by
  have h : 0 < U64 := by decide
  exact ⟨Nat.mod_lt _ h, Nat.mod_lt _ h, Nat.mod_lt _ h, Nat.mod_lt _ h, Nat.mod_lt _ h⟩

theorem wf_buildCurrent (stats : Poll) :
    ∀ x ∈ buildCurrent stats, x.2.WF :=
  foldl_mapInsert_inv (fun m => ∀ x ∈ m, x.2.WF)
    (fun m st h x hx => by
      rcases mem_mapInsert hx with hx | hx
      · rw [hx]; exact snapOf_WF st
      · exact h x hx) stats [] (by simp)

theorem mapFind_of_mem {m : FlowMap} (hm : KeysSorted m) {k : FlowKey} {v : FlowSnapshot}
    (hx : (k, v) ∈ m) : mapFind m k = some v := by
  induction m with
  | nil => simp at hx
  | cons e rest ih =>
    obtain ⟨k', v'⟩ := e
    have hm' := List.pairwise_cons.1 hm
    unfold mapFind
    rcases List.mem_cons.1 hx with hx | hx
    · obtain ⟨rfl, rfl⟩ := Prod.mk.inj hx
      simp [FlowKey.lt_irrefl]
    · have hlt : k'.lt k = true := hm'.1 _ hx
      simp [hlt, ih hm'.2 hx]

theorem mem_of_mapFind {m : FlowMap} {k : FlowKey} {v : FlowSnapshot}
    (h : mapFind m k = some v) : (k, v) ∈ m := by
  induction m with
  | nil => simp [mapFind] at h
  | cons e rest ih =>
    obtain ⟨k', v'⟩ := e
    unfold mapFind at h
    split_ifs at h with h1
    · simp only [Bool.and_eq_true, Bool.not_eq_true'] at h1
      have hk : k = k' := FlowKey.eq_of_not_lt h1.1 h1.2
      simp only [Option.some.injEq] at h
      rw [hk, h]; exact List.mem_cons_self _ _
    · exact List.mem_cons_of_mem _ (ih h)

theorem lookupOrZero_of_none {m : FlowMap} {k : FlowKey} (h : mapFind m k = none) :
    lookupOrZero m k = {} := by
  simp [lookupOrZero, h]

theorem lookupOrZero_of_some {m : FlowMap} {k : FlowKey} {v : FlowSnapshot}
    (h : mapFind m k = some v) : lookupOrZero m k = v := by
  simp [lookupOrZero, h]

/-! ## Arithmetic and row lemmas -/

theorem sub64_zero {a : Nat} (h : a < U64) : sub64 a 0 = a := by
  unfold sub64 U64 at *; omega

theorem sub64_of_le {a b : Nat} (h : b ≤ a) (ha : a < U64) : sub64 a b = a - b := by
  unfold sub64 U64 at *; omega

theorem sub64_of_lt {a b : Nat} (h : a < b) (hb : b < U64) :
    sub64 a b = U64 - (b - a) := by
  unfold sub64 U64 at *; omega

theorem sub64_lt (a b : Nat) : sub64 a b < U64 := Nat.mod_lt _ (by decide)

theorem add64_lt (a b : Nat) : add64 a b < U64 := Nat.mod_lt _ (by decide)

theorem sub64_modEq (a b : Nat) :
    ((sub64 a b : Nat) : ℤ) % 18446744073709551616 = ((a : ℤ) - b) % 18446744073709551616 := by
  unfold sub64 U64; omega

theorem mem_tickRows {gen : Generator} {s : State} {stats : Poll} {r : Row} :
    r ∈ tickRows gen s stats ↔
      ∃ k v, (k, v) ∈ buildCurrent stats ∧ r = flowRow gen s (buildCurrent stats) k v := by
  unfold tickRows
  constructor
  · intro h
    obtain ⟨⟨k, v⟩, hkv, rfl⟩ := List.mem_map.1 h
    exact ⟨k, v, hkv, rfl⟩
  · rintro ⟨k, v, hkv, rfl⟩
    exact List.mem_map.2 ⟨(k, v), hkv, rfl⟩

theorem flowRow_key (gen : Generator) (s : State) (current : FlowMap) (k : FlowKey)
    (v : FlowSnapshot) : (flowRow gen s current k v).key = k := rfl

theorem flowRow_total_pkts_fwd (gen : Generator) (s : State) (current : FlowMap) (k : FlowKey)
    (v : FlowSnapshot) :
    (flowRow gen s current k v).total_pkts_fwd
      = ((flowDeltas s.g_prev current k v).dTxPktsF
          + (flowDeltas s.g_prev current k v).dRxPktsF) % 2 ^ 64 := rfl

theorem flowRow_total_pkts_bwd (gen : Generator) (s : State) (current : FlowMap) (k : FlowKey)
    (v : FlowSnapshot) :
    (flowRow gen s current k v).total_pkts_bwd
      = ((flowDeltas s.g_prev current k v).dTxPktsB
          + (flowDeltas s.g_prev current k v).dRxPktsB) % 2 ^ 64 := rfl

theorem flowRow_total_bytes_fwd (gen : Generator) (s : State) (current : FlowMap) (k : FlowKey)
    (v : FlowSnapshot) :
    (flowRow gen s current k v).total_bytes_fwd
      = ((flowDeltas s.g_prev current k v).dTxBytesF
          + (flowDeltas s.g_prev current k v).dRxBytesF) % 2 ^ 64 := rfl

theorem flowRow_total_bytes_bwd (gen : Generator) (s : State) (current : FlowMap) (k : FlowKey)
    (v : FlowSnapshot) :
    (flowRow gen s current k v).total_bytes_bwd
      = ((flowDeltas s.g_prev current k v).dTxBytesB
          + (flowDeltas s.g_prev current k v).dRxBytesB) % 2 ^ 64 := rfl

theorem flowRow_pkts_per_sec (gen : Generator) (s : State) (current : FlowMap) (k : FlowKey)
    (v : FlowSnapshot) :
    (flowRow gen s current k v).pkts_per_sec
      = ((((flowRow gen s current k v).total_pkts_fwd
          + (flowRow gen s current k v).total_pkts_bwd) % 2 ^ 64 : Nat) : ℚ)
        / s.g_windowSize := rfl

theorem flowRow_bytes_per_sec (gen : Generator) (s : State) (current : FlowMap) (k : FlowKey)
    (v : FlowSnapshot) :
    (flowRow gen s current k v).bytes_per_sec
      = ((((flowRow gen s current k v).total_bytes_fwd
          + (flowRow gen s current k v).total_bytes_bwd) % 2 ^ 64 : Nat) : ℚ)
        / s.g_windowSize := rfl

theorem flowRow_flow_pkts_per_sec (gen : Generator) (s : State) (current : FlowMap)
    (k : FlowKey) (v : FlowSnapshot) :
    (flowRow gen s current k v).flow_pkts_per_sec
      = ((flowRow gen s current k v).total_pkts_fwd : ℚ) / s.g_windowSize := rfl

theorem flowRow_flow_bytes_per_sec (gen : Generator) (s : State) (current : FlowMap)
    (k : FlowKey) (v : FlowSnapshot) :
    (flowRow gen s current k v).flow_bytes_per_sec
      = ((flowRow gen s current k v).total_bytes_fwd : ℚ) / s.g_windowSize := rfl

theorem nat_div_nonneg (n : Nat) {w : ℚ} (hw : 0 < w) : 0 ≤ (n : ℚ) / w :=
  div_nonneg (Nat.cast_nonneg n) (le_of_lt hw)

theorem tickRows_keys (gen : Generator) (s : State) (stats : Poll) :
    (tickRows gen s stats).map Row.key = (buildCurrent stats).map Prod.fst := by
  unfold tickRows
  rw [List.map_map]
  exact List.map_congr_left (fun kv _ => rfl)

theorem keys_nodup_of_sorted {m : FlowMap} (hm : KeysSorted m) : (m.map Prod.fst).Nodup := by
  unfold List.Nodup
  rw [List.pairwise_map]
  refine List.Pairwise.imp ?_ hm
  intro a b hab heq
  rw [heq, FlowKey.lt_irrefl] at hab
  exact Bool.false_ne_true hab

theorem countP_key_eq (rows : List Row) (k : FlowKey) :
    rows.countP (fun r => decide (r.key = k)) = (rows.map Row.key).count k := by
  induction rows with
  | nil => rfl
  | cons r rest ih =>
    rw [List.map_cons, List.countP_cons, List.count_cons, ih]
    by_cases h : r.key = k <;> simp [h]

theorem countP_key_pair (rows : List Row) {a b : FlowKey} (hab : a ≠ b) :
    rows.countP (fun r => decide (r.key = a) || decide (r.key = b))
      = (rows.map Row.key).count a + (rows.map Row.key).count b := by
  induction rows with
  | nil => rfl
  | cons r rest ih =>
    rw [List.map_cons, List.countP_cons, List.count_cons, List.count_cons, ih]
    by_cases h1 : r.key = a
    · have h2 : ¬ r.key = b := fun h => hab (h1.symm.trans h)
      have h3 : ¬ a = b := hab
      simp [h1, h3]; omega
    · by_cases h2 : r.key = b
      · have h3 : ¬ b = a := fun h => hab h.symm
        simp [h2, h3]; omega
      · simp [h1, h2]

theorem lookupOrZero_buildCurrent_WF (stats : Poll) (k : FlowKey) :
    (lookupOrZero (buildCurrent stats) k).WF := by
  unfold lookupOrZero
  cases h : mapFind (buildCurrent stats) k with
  | none => exact ⟨by decide, by decide, by decide, by decide, by decide⟩
  | some v => exact wf_buildCurrent stats (k, v) (mem_of_mapFind h)

theorem total_modEq (a b c d a' b' c' d' : Nat) :
    ((((a + (U64 - a' % U64)) % U64 + (b + (U64 - b' % U64)) % U64) % U64
        + ((c + (U64 - c' % U64)) % U64 + (d + (U64 - d' % U64)) % U64) % U64 : Nat) : ℤ)
        % 18446744073709551616
      = (((a : ℤ) - a') + ((b : ℤ) - b') + ((c : ℤ) - c') + ((d : ℤ) - d'))
        % 18446744073709551616 := by
  unfold U64; omega

theorem total_exact (a b c d a' b' c' d' : Nat) (ha : a < U64) (hb : b < U64) (hc : c < U64)
    (_hd : d < U64) (h1 : a' ≤ a) (h2 : b' ≤ b) (h3 : c' ≤ c) (h4 : d' ≤ d)
    (hf : (a - a') + (b - b') < 2 ^ 64) (hg : (c - c') + (d - d') < 2 ^ 64) :
    ((((a + (U64 - a' % U64)) % U64 + (b + (U64 - b' % U64)) % U64) % U64
        + ((c + (U64 - c' % U64)) % U64 + (d + (U64 - d' % U64)) % U64) % U64 : Nat) : ℤ)
      = ((a : ℤ) - a') + ((b : ℤ) - b') + ((c : ℤ) - c') + ((d : ℤ) - d') := by
  unfold U64 at *; omega

theorem flowRow_label_binary (gen : Generator) (s : State) (current : FlowMap) (k : FlowKey)
    (v : FlowSnapshot) :
    (flowRow gen s current k v).label_binary
      = if attackBinary gen s.g_attackers k (flowRow gen s current k v).flow_pkts_per_sec
        then 1 else 0 := rfl

theorem flowRow_label_intensity (gen : Generator) (s : State) (current : FlowMap) (k : FlowKey)
    (v : FlowSnapshot) :
    (flowRow gen s current k v).label_intensity
      = if attackBinary gen s.g_attackers k (flowRow gen s current k v).flow_pkts_per_sec
        then 3 else 0 := rfl

theorem attackBinary_of_not_attacker (gen : Generator) (attackers : List Nat) (k : FlowKey)
    (rate : ℚ) (h : gen = .simple → (k.src &&& 0xFF) ∉ attackers) :
    attackBinary gen attackers k rate = true ↔ rate > 5000 := by
  cases gen with
  | nr => simp [attackBinary]
  | simple =>
    have h' := h rfl
    simp [attackBinary, h']

theorem nodeAddress_low_octet (i : Nat) (h : i < 255) : nodeAddress i &&& 0xFF = i + 1 := by
  have h8 : nodeAddress i &&& 0xFF = nodeAddress i % 2 ^ 8 :=
    Nat.and_pow_two_sub_one_eq_mod (nodeAddress i) 8
  rw [h8]
  unfold nodeAddress
  omega

theorem attackBinary_simple (attackers : List Nat) (k : FlowKey) (rate : ℚ)
    (hrate : rate ≤ 5000) :
    attackBinary .simple attackers k rate = decide ((k.src &&& 0xFF) ∈ attackers) := by
  have h : ¬ rate > 5000 := not_lt.2 hrate
  simp [attackBinary, h]

theorem mainInit_attackInterval (cfg : Config) (t : Time) :
    mainInit { cfg with attackInterval := t } = mainInit cfg := rfl

theorem run_attackInterval (gen : Generator) (cfg : Config) (t : Time) (polls : List Poll) :
    run gen { cfg with attackInterval := t } polls = run gen cfg polls := by
  unfold run
  rw [mainInit_attackInterval]

theorem label_intensity_of_label_binary (gen : Generator) (s : State) (current : FlowMap)
    (k : FlowKey) (v : FlowSnapshot) (h : (flowRow gen s current k v).label_binary = 1) :
    (flowRow gen s current k v).label_intensity = 3 := by
  rw [flowRow_label_binary] at h
  rw [flowRow_label_intensity]
  by_cases hb : attackBinary gen s.g_attackers k (flowRow gen s current k v).flow_pkts_per_sec
      = true
  · rw [if_pos hb]
  · rw [if_neg hb] at h; exact absurd h (by decide)

theorem flowRow_delay_ms (gen : Generator) (s : State) (current : FlowMap) (k : FlowKey)
    (v : FlowSnapshot) :
    (flowRow gen s current k v).delay_ms
      = if ((flowDeltas s.g_prev current k v).dRxPktsF
            + (flowDeltas s.g_prev current k v).dRxPktsB) % 2 ^ 64 > 0 then
          1000 * ((v.delaySum + (lookupOrZero current (revKey k)).delaySum)
              - ((lookupOrZero s.g_prev k).delaySum
                + (lookupOrZero s.g_prev (revKey k)).delaySum))
            / ((((flowDeltas s.g_prev current k v).dRxPktsF
                + (flowDeltas s.g_prev current k v).dRxPktsB) % 2 ^ 64 : Nat) : ℚ)
        else 0 := rfl

theorem flowRow_jitter_ms (gen : Generator) (s : State) (current : FlowMap) (k : FlowKey)
    (v : FlowSnapshot) :
    (flowRow gen s current k v).jitter_ms
      = if ((flowDeltas s.g_prev current k v).dRxPktsF
            + (flowDeltas s.g_prev current k v).dRxPktsB) % 2 ^ 64 > 0 then
          1000 * ((v.jitterSum + (lookupOrZero current (revKey k)).jitterSum)
              - ((lookupOrZero s.g_prev k).jitterSum
                + (lookupOrZero s.g_prev (revKey k)).jitterSum))
            / ((((flowDeltas s.g_prev current k v).dRxPktsF
                + (flowDeltas s.g_prev current k v).dRxPktsB) % 2 ^ 64 : Nat) : ℚ)
        else 0 := rfl

theorem rx_sum_exact (a c a' c' : Nat) (ha : a < U64) (hc : c < U64) (h1 : a' ≤ a)
    (h2 : c' ≤ c) (hs : (a - a') + (c - c') < 2 ^ 64) :
    ((a + (U64 - a' % U64)) % U64 + (c + (U64 - c' % U64)) % U64) % 2 ^ 64
      = (a - a') + (c - c') := by
  unfold U64 at *; omega

theorem flowRow_packet_size (gen : Generator) (s : State) (current : FlowMap) (k : FlowKey)
    (v : FlowSnapshot) :
    (flowRow gen s current k v).packet_size
      = if ((flowRow gen s current k v).total_pkts_fwd
            + (flowRow gen s current k v).total_pkts_bwd) % 2 ^ 64 > 0 then
          ((((flowRow gen s current k v).total_bytes_fwd
              + (flowRow gen s current k v).total_bytes_bwd) % 2 ^ 64 : Nat) : ℚ)
            / ((((flowRow gen s current k v).total_pkts_fwd
              + (flowRow gen s current k v).total_pkts_bwd) % 2 ^ 64 : Nat) : ℚ)
        else 0 := rfl

theorem mapFind_singleton_self (k : FlowKey) (v : FlowSnapshot) :
    mapFind [(k, v)] k = some v := by
  simp [mapFind, FlowKey.lt_irrefl]

theorem mapFind_singleton_ne {k k' : FlowKey} (v : FlowSnapshot) (h : k' ≠ k) :
    mapFind [(k, v)] k' = none := by
  have hc : (!k'.lt k && !k.lt k') = false := by
    cases h1 : k'.lt k with
    | true => rfl
    | false =>
      cases h2 : k.lt k' with
      | true => rfl
      | false => exact absurd (FlowKey.eq_of_not_lt h1 h2) h
  simp [mapFind, hc]

theorem buildCurrent_singleton (a : FlowStats) : buildCurrent [a] = [(keyOf a, snapOf a)] := rfl

theorem run_singleton_prev (gen : Generator) (cfg : Config) (a : FlowStats) :
    (run gen cfg [[a]]).g_prev = [(keyOf a, snapOf a)] := rfl

theorem guardedLookup_eq (m : FlowMap) (key : FlowKey) :
    guardedLookup m key = (lookupOrZero m key, m) := by
  unfold guardedLookup mapCount mapIndex lookupOrZero
  cases mapFind m key <;> simp

theorem mapFind_mapInsert_self (k : FlowKey) (v : FlowSnapshot) (m : FlowMap) :
    mapFind (mapInsert k v m) k = some v := by
  induction m with
  | nil => simp [mapInsert, mapFind, FlowKey.lt_irrefl]
  | cons e rest ih =>
    obtain ⟨k0, v0⟩ := e
    unfold mapInsert
    split_ifs with h1 h2
    · simp [mapFind, FlowKey.lt_irrefl]
    · unfold mapFind
      simp [h2, ih]
    · unfold mapFind
      simp [h1, h2]

theorem mapFind_cons_ne {k k0 : FlowKey} (v0 : FlowSnapshot) (rest : FlowMap) (h : k ≠ k0) :
    mapFind ((k0, v0) :: rest) k = mapFind rest k := by
  have hc : (!k.lt k0 && !k0.lt k) = false := by
    cases h1 : k.lt k0 with
    | true => rfl
    | false =>
      cases h2 : k0.lt k with
      | true => rfl
      | false => exact absurd (FlowKey.eq_of_not_lt h1 h2) h
  rw [mapFind, hc]
  rfl

theorem mapFind_mapInsert_ne {k k' : FlowKey} (v : FlowSnapshot) (m : FlowMap) (h : k' ≠ k) :
    mapFind (mapInsert k v m) k' = mapFind m k' := by
  induction m with
  | nil => simp only [mapInsert]; exact mapFind_cons_ne v [] h
  | cons e rest ih =>
    obtain ⟨k0, v0⟩ := e
    unfold mapInsert
    split_ifs with h1 h2
    · exact mapFind_cons_ne v _ h
    · by_cases hk : k' = k0
      · subst hk
        simp [mapFind, FlowKey.lt_irrefl]
      · rw [mapFind_cons_ne _ _ hk, mapFind_cons_ne _ _ hk, ih]
    · have hk : k = k0 := FlowKey.eq_of_not_lt (by simpa using h1) (by simpa using h2)
      have hk' : k' ≠ k0 := hk ▸ h
      rw [mapFind_cons_ne _ _ hk', mapFind_cons_ne _ _ hk']

theorem mapFind_foldl_mapInsert (k : FlowKey) (stats : Poll) :
    ∀ acc : FlowMap,
      mapFind (stats.foldl (fun current st => mapInsert (keyOf st) (snapOf st) current) acc) k
        = match stats.reverse.find? (fun st => decide (keyOf st = k)) with
          | some st => some (snapOf st)
          | none => mapFind acc k := by
  induction stats with
  | nil => intro acc; rfl
  | cons st rest ih =>
    intro acc
    rw [List.foldl_cons, ih, List.reverse_cons, List.find?_append]
    cases hfind : rest.reverse.find? (fun st => decide (keyOf st = k)) with
    | some st' => simp
    | none =>
      by_cases hk : keyOf st = k
      · subst hk
        simp [mapFind_mapInsert_self]
      · have hk' : k ≠ keyOf st := fun h => hk h.symm
        simp [hk, mapFind_mapInsert_ne _ _ hk']

theorem mapFind_buildCurrent (stats : Poll) (k : FlowKey) :
    mapFind (buildCurrent stats) k
      = (stats.reverse.find? (fun st => decide (keyOf st = k))).map snapOf := by
  unfold buildCurrent
  rw [mapFind_foldl_mapInsert]
  cases stats.reverse.find? (fun st => decide (keyOf st = k)) <;> rfl

theorem run_append (gen : Generator) (cfg : Config) (polls : List Poll) (stats : Poll) :
    run gen cfg (polls ++ [stats]) = SampleAndWrite gen (run gen cfg polls) stats := by
  unfold run
  rw [List.foldl_append]
  rfl

theorem foldl_windowSize (gen : Generator) (polls : List Poll) :
    ∀ s : State, (polls.foldl (SampleAndWrite gen) s).g_windowSize = s.g_windowSize := by
  induction polls with
  | nil => intro s; rfl
  | cons p rest ih => intro s; rw [List.foldl_cons, ih]; rfl

theorem foldl_windowStart (gen : Generator) (polls : List Poll) :
    ∀ s : State, (polls.foldl (SampleAndWrite gen) s).g_windowStart
      = s.g_windowStart + (polls.length : ℚ) * s.g_windowSize := by
  induction polls with
  | nil => intro s; simp
  | cons p rest ih =>
    intro s
    rw [List.foldl_cons, ih]
    have h1 : (SampleAndWrite gen s p).g_windowStart = s.g_windowStart + s.g_windowSize := rfl
    have h2 : (SampleAndWrite gen s p).g_windowSize = s.g_windowSize := rfl
    rw [h1, h2, List.length_cons]
    push_cast
    ring

theorem run_windowSize (gen : Generator) (cfg : Config) (polls : List Poll) :
    (run gen cfg polls).g_windowSize = cfg.window :=
  foldl_windowSize gen polls (mainInit cfg)

theorem run_windowStart (gen : Generator) (cfg : Config) (polls : List Poll) :
    (run gen cfg polls).g_windowStart = (polls.length : ℚ) * cfg.window := by
  unfold run
  rw [foldl_windowStart]
  show (0 : ℚ) + (polls.length : ℚ) * cfg.window = _
  rw [zero_add]

theorem flowRow_times (gen : Generator) (s : State) (current : FlowMap) (k : FlowKey)
    (v : FlowSnapshot) :
    (flowRow gen s current k v).time_start = s.g_windowStart ∧
    (flowRow gen s current k v).time_end = s.g_windowStart + s.g_windowSize ∧
    (flowRow gen s current k v).flow_duration = s.g_windowSize := ⟨rfl, rfl, rfl⟩

theorem rowText_data (F : Formatters) (r : Row) :
    (rowText F r).data
      = [','].intercalate ((rowValues F r).map String.data) ++ ['\n'] := by
  simp [rowText, rowValues, List.intercalate, List.intersperse, String.data_append]

theorem csvFields_rowText (F : Formatters) (r : Row)
    (h : ∀ f ∈ rowValues F r, ',' ∉ f.data) : csvFields (rowText F r) = rowValues F r := by
  unfold csvFields
  rw [rowText_data, List.dropLast_concat, List.splitOn_intercalate]
  · rw [List.map_map]
    exact (List.map_congr_left (fun _ _ => rfl)).trans (List.map_id _)
  · intro l hl
    obtain ⟨f, hf, rfl⟩ := List.mem_map.1 hl
    exact h f hf
  · simp [rowValues]

theorem digitChar_ne_comma {d : Nat} (h : d < 10) : Nat.digitChar d ≠ ',' := by
  interval_cases d <;> decide

theorem toDigitsCore_comma_free (fuel : Nat) :
    ∀ (n : Nat) (ds : List Char), ',' ∉ ds → ',' ∉ Nat.toDigitsCore 10 fuel n ds := by
  induction fuel with
  | zero => intro n ds h; simpa [Nat.toDigitsCore] using h
  | succ fuel ih =>
    intro n ds h
    have hcons : ',' ∉ Nat.digitChar (n % 10) :: ds := by
      intro hm
      rcases List.mem_cons.1 hm with hm | hm
      · exact digitChar_ne_comma (Nat.mod_lt _ (by decide)) hm.symm
      · exact h hm
    simp only [Nat.toDigitsCore]
    split_ifs
    · exact hcons
    · exact ih _ _ hcons

theorem repr_comma_free (n : Nat) : ',' ∉ (Nat.repr n).data := by
  unfold Nat.repr Nat.toDigits
  exact toDigitsCore_comma_free _ _ _ (by simp)

theorem sign_comma_free (b : Prop) [Decidable b] : ',' ∉ (if b then "-" else "").data := by
  split_ifs <;> decide

theorem decimalFormatters_commaFree : decimalFormatters.CommaFree := by
  refine ⟨?_, ?_, ?_, ?_⟩
  · intro q
    have h1 := sign_comma_free (q < 0)
    have h2 := repr_comma_free q.num.natAbs
    have h3 := repr_comma_free q.den
    have h4 : ',' ∉ "/".data := by decide
    simp only [decimalFormatters, String.data_append, List.mem_append, not_or]
    exact ⟨⟨⟨h1, h2⟩, h4⟩, h3⟩
  · intro n; exact repr_comma_free n
  · intro i
    have h1 := sign_comma_free (i < 0)
    have h2 := repr_comma_free i.natAbs
    simp only [decimalFormatters, String.data_append, List.mem_append, not_or]
    exact ⟨h1, h2⟩
  · intro a
    have h4 : ',' ∉ ".".data := by decide
    simp only [decimalFormatters, String.data_append, List.mem_append, not_or]
    exact ⟨⟨⟨⟨⟨⟨repr_comma_free _, h4⟩, repr_comma_free _⟩, h4⟩, repr_comma_free _⟩, h4⟩,
      repr_comma_free _⟩

set_option maxRecDepth 100000 in
theorem csvFields_header : csvFields WriteCsvHeader =
    ["time_start", "time_end", "scenario_id", "ue_total", "attackers", "src_ip", "dst_ip",
      "src_port", "dst_port", "protocol", "packet_size", "flow_duration", "total_bytes_fwd",
      "total_bytes_bwd", "total_pkts_fwd", "total_pkts_bwd", "pkts_per_sec", "bytes_per_sec",
      "flow_pkts_per_sec", "flow_bytes_per_sec", "jitter_ms", "delay_ms", "label_binary",
      "label_intensity"] := by decide

theorem flowRow_scenario_id (gen : Generator) (s : State) (current : FlowMap) (k : FlowKey)
    (v : FlowSnapshot) : (flowRow gen s current k v).scenario_id = s.g_scenarioId := rfl

theorem rowValues_comma_free (F : Formatters) (hF : F.CommaFree) (r : Row)
    (htag : ',' ∉ r.scenario_id.data) : ∀ f ∈ rowValues F r, ',' ∉ f.data := by
  obtain ⟨hd, hu, hi, ha⟩ := hF
  intro f hf
  simp only [rowValues, List.mem_cons, List.mem_singleton, List.not_mem_nil, or_false] at hf
  rcases hf with h | h | h | h | h | h | h | h | h | h | h | h | h | h | h | h | h | h | h | h |
    h | h | h | h <;> subst h <;>
      (first | exact htag | exact hd _ | exact hu _ | exact hi _ | exact ha _)

theorem run_nil (gen : Generator) (cfg : Config) : run gen cfg [] = mainInit cfg := rfl

theorem FlowKey.lt_iff_lex (a b : FlowKey) :
    a.lt b = true ↔
      toLex (a.src, toLex (a.dst, toLex (a.srcPort, toLex (a.dstPort, a.protocol))))
        < toLex (b.src, toLex (b.dst, toLex (b.srcPort, toLex (b.dstPort, b.protocol)))) := by
  rw [FlowKey.lt_iff]
  simp only [Prod.Lex.lt_iff, ofLex_toLex, EmbeddingLike.apply_eq_iff_eq]

theorem FlowKey.ext_iff_fields (a b : FlowKey) :
    a = b ↔ a.src = b.src ∧ a.dst = b.dst ∧ a.srcPort = b.srcPort ∧ a.dstPort = b.dstPort ∧
      a.protocol = b.protocol := by
  obtain ⟨a1, a2, a3, a4, a5⟩ := a
  obtain ⟨b1, b2, b3, b4, b5⟩ := b
  simp

theorem attackBinary_nr_eq_simple (attackers : List Nat) (k : FlowKey) (rate : ℚ)
    (h : (k.src &&& 0xFF) ∉ attackers) :
    attackBinary .nr attackers k rate = attackBinary .simple attackers k rate := by
  simp [attackBinary, h]

theorem revKey_revKey (k : FlowKey) : revKey (revKey k) = k := rfl

theorem add64_comm (a b : Nat) : add64 a b = add64 b a := by
  unfold add64
  rw [Nat.add_comm]

theorem flowRow_mirror (gen gen' : Generator) (s : State) (current : FlowMap) (k : FlowKey)
    (v w : FlowSnapshot) (hv : mapFind current k = some v)
    (hw : mapFind current (revKey k) = some w) :
    (flowRow gen' s current (revKey k) w).total_pkts_fwd
      = (flowRow gen s current k v).total_pkts_bwd ∧
    (flowRow gen' s current (revKey k) w).total_pkts_bwd
      = (flowRow gen s current k v).total_pkts_fwd ∧
    (flowRow gen' s current (revKey k) w).total_bytes_fwd
      = (flowRow gen s current k v).total_bytes_bwd ∧
    (flowRow gen' s current (revKey k) w).total_bytes_bwd
      = (flowRow gen s current k v).total_bytes_fwd ∧
    (flowRow gen' s current (revKey k) w).pkts_per_sec
      = (flowRow gen s current k v).pkts_per_sec ∧
    (flowRow gen' s current (revKey k) w).bytes_per_sec
      = (flowRow gen s current k v).bytes_per_sec ∧
    (flowRow gen' s current (revKey k) w).packet_size
      = (flowRow gen s current k v).packet_size ∧
    (flowRow gen' s current (revKey k) w).delay_ms
      = (flowRow gen s current k v).delay_ms ∧
    (flowRow gen' s current (revKey k) w).jitter_ms
      = (flowRow gen s current k v).jitter_ms := by
  have h1 : lookupOrZero current (revKey k) = w := lookupOrZero_of_some hw
  have h2 : lookupOrZero current k = v := lookupOrZero_of_some hv
  simp only [flowRow, flowDeltas, revKey_revKey, h1, h2]
  refine ⟨trivial, trivial, trivial, trivial, ?_, ?_, ?_, ?_, ?_⟩
  · rw [add64_comm]
  · rw [add64_comm]
  · rw [add64_comm (add64 (sub64 w.txPackets _) _), add64_comm (add64 (sub64 w.txBytes _) _)]
  · rw [add64_comm (sub64 w.rxPackets _), add_comm w.delaySum,
      add_comm (lookupOrZero s.g_prev (revKey k)).delaySum]
  · rw [add64_comm (sub64 w.rxPackets _), add_comm w.jitterSum,
      add_comm (lookupOrZero s.g_prev (revKey k)).jitterSum]

theorem dataRows_append_data (out : List Line) (rows : List Row) :
    dataRows (out ++ rows.map Line.data) = dataRows out ++ rows := by
  unfold dataRows
  rw [List.filterMap_append, List.filterMap_map]
  congr 1
  induction rows with
  | nil => rfl
  | cons r rest ih => rw [List.filterMap_cons]; exact congrArg (List.cons r) ih

theorem filter_fst_of_nodup (k : FlowKey) (v : FlowSnapshot) :
    ∀ m : FlowMap, (m.map Prod.fst).Nodup → (k, v) ∈ m →
      m.filter (fun kv => decide (kv.1 = k)) = [(k, v)] := by
  intro m
  induction m with
  | nil => intro _ h; simp at h
  | cons x rest ih =>
    intro hnd hmem
    rw [List.map_cons, List.nodup_cons] at hnd
    rcases List.mem_cons.1 hmem with h | h
    · subst h
      have hrest : rest.filter (fun kv => decide (kv.1 = k)) = [] := by
        rw [List.filter_eq_nil_iff]
        intro y hy
        have : y.1 ≠ k := fun e => hnd.1 (List.mem_map.2 ⟨y, hy, e⟩)
        simpa using this
      simp [List.filter_cons, hrest]
    · have hx : x.1 ≠ k := fun e => hnd.1 (List.mem_map.2 ⟨(k, v), h, e.symm⟩)
      rw [List.filter_cons, if_neg (by simpa using hx)]
      exact ih hnd.2 h

theorem tickRows_filter_key (gen : Generator) (s : State) (stats : Poll) (k : FlowKey)
    (v : FlowSnapshot) (h : mapFind (buildCurrent stats) k = some v) :
    (tickRows gen s stats).filter (fun r => decide (r.key = k))
      = [flowRow gen s (buildCurrent stats) k v] := by
  unfold tickRows
  rw [List.filter_map]
  have hf : ((fun r : Row => decide (r.key = k)) ∘
      fun kv : FlowKey × FlowSnapshot => flowRow gen s (buildCurrent stats) kv.1 kv.2)
      = fun kv => decide (kv.1 = k) := rfl
  rw [hf, filter_fst_of_nodup k v _ (keys_nodup_of_sorted (keysSorted_buildCurrent stats))
    (mem_of_mapFind h)]
  rfl

theorem rowsOfKey_SampleAndWrite (gen : Generator) (s : State) (stats : Poll) (k : FlowKey)
    (v : FlowSnapshot) (h : mapFind (buildCurrent stats) k = some v) :
    rowsOfKey (SampleAndWrite gen s stats).g_out k
      = rowsOfKey s.g_out k ++ [flowRow gen s (buildCurrent stats) k v] := by
  show rowsOfKey (s.g_out ++ (tickRows gen s stats).map Line.data) k = _
  unfold rowsOfKey
  rw [dataRows_append_data, List.filter_append, tickRows_filter_key gen s stats k v h]

theorem fwd_total_step (a b a' b' : Nat) :
    (add64 (sub64 a a') (sub64 b b') + (a' + b')) % 2 ^ 64 = (a + b) % 2 ^ 64 := by
  unfold add64 sub64 U64
  omega

theorem telescope_foldl (gen : Generator) (k : FlowKey) (tot : Row → Nat)
    (fa fb : FlowSnapshot → Nat)
    (hstep : ∀ (s : State) (current : FlowMap) (v : FlowSnapshot),
      (tot (flowRow gen s current k v)
          + (fa (lookupOrZero s.g_prev k) + fb (lookupOrZero s.g_prev k))) % 2 ^ 64
        = (fa v + fb v) % 2 ^ 64)
    (polls : List Poll) :
    ∀ s : State, (∀ p ∈ polls, mapFind (buildCurrent p) k ≠ none) →
      (((rowsOfKey (polls.foldl (SampleAndWrite gen) s).g_out k).map tot).sum
          + (fa (lookupOrZero s.g_prev k) + fb (lookupOrZero s.g_prev k))) % 2 ^ 64
        = (((rowsOfKey s.g_out k).map tot).sum
          + (fa (lookupOrZero (polls.foldl (SampleAndWrite gen) s).g_prev k)
            + fb (lookupOrZero (polls.foldl (SampleAndWrite gen) s).g_prev k))) % 2 ^ 64 := by
  induction polls with
  | nil => intro s _; rfl
  | cons p ps ih =>
    intro s hall
    obtain ⟨v, hv⟩ := Option.ne_none_iff_exists'.1 (hall p (List.mem_cons_self _ _))
    have h1 := ih (SampleAndWrite gen s p) (fun q hq => hall q (List.mem_cons_of_mem _ hq))
    have hprev : lookupOrZero (SampleAndWrite gen s p).g_prev k = v :=
      lookupOrZero_of_some hv
    rw [hprev, rowsOfKey_SampleAndWrite gen s p k v hv, List.map_append, List.sum_append,
      List.map_singleton, List.sum_singleton] at h1
    have h2 := hstep s (buildCurrent p) v
    rw [List.foldl_cons]
    omega

theorem rowsOfKey_length_foldl (gen : Generator) (k : FlowKey) (polls : List Poll) :
    ∀ s : State, (∀ p ∈ polls, mapFind (buildCurrent p) k ≠ none) →
      (rowsOfKey (polls.foldl (SampleAndWrite gen) s).g_out k).length
        = (rowsOfKey s.g_out k).length + polls.length := by
  induction polls with
  | nil => intro s _; rfl
  | cons p ps ih =>
    intro s hall
    obtain ⟨v, hv⟩ := Option.ne_none_iff_exists'.1 (hall p (List.mem_cons_self _ _))
    rw [List.foldl_cons, ih (SampleAndWrite gen s p)
      (fun q hq => hall q (List.mem_cons_of_mem _ hq)),
      rowsOfKey_SampleAndWrite gen s p k v hv, List.length_append, List.length_cons,
      List.length_cons, List.length_nil]
    omega

theorem run_prev_last (gen : Generator) (cfg : Config) (polls : List Poll) (last : Poll) :
    (run gen cfg (polls ++ [last])).g_prev = buildCurrent last := by
  rw [run_append]
  rfl

theorem clearLostMap_mapInsert (k : FlowKey) (v : FlowSnapshot) (m : FlowMap) :
    clearLostMap (mapInsert k v m) = mapInsert k (clearLost v) (clearLostMap m) := by
  induction m with
  | nil => rfl
  | cons x rest ih =>
    obtain ⟨k0, v0⟩ := x
    show clearLostMap (mapInsert k v ((k0, v0) :: rest))
      = mapInsert k (clearLost v) ((k0, clearLost v0) :: clearLostMap rest)
    unfold mapInsert
    by_cases h1 : k.lt k0 = true
    · rw [if_pos h1, if_pos h1]; rfl
    · rw [if_neg h1, if_neg h1]
      by_cases h2 : k0.lt k = true
      · rw [if_pos h2, if_pos h2]
        show (k0, clearLost v0) :: clearLostMap (mapInsert k v rest) = _
        rw [ih]
      · rw [if_neg h2, if_neg h2]; rfl

theorem mapFind_clearLostMap (m : FlowMap) (k : FlowKey) :
    mapFind (clearLostMap m) k = (mapFind m k).map clearLost := by
  induction m with
  | nil => rfl
  | cons x rest ih =>
    obtain ⟨k0, v0⟩ := x
    show mapFind ((k0, clearLost v0) :: clearLostMap rest) k = _
    unfold mapFind
    by_cases h : (!k.lt k0 && !k0.lt k) = true
    · rw [if_pos h, if_pos h]; rfl
    · rw [if_neg h, if_neg h]; exact ih

theorem lookupOrZero_clearLostMap (m : FlowMap) (k : FlowKey) :
    lookupOrZero (clearLostMap m) k = clearLost (lookupOrZero m k) := by
  unfold lookupOrZero
  rw [mapFind_clearLostMap]
  cases mapFind m k <;> rfl

theorem clearLost_lookup_congr {m m' : FlowMap} (h : clearLostMap m = clearLostMap m')
    (k : FlowKey) : clearLost (lookupOrZero m k) = clearLost (lookupOrZero m' k) := by
  rw [← lookupOrZero_clearLostMap, ← lookupOrZero_clearLostMap, h]

theorem clearLost_fields {a b : FlowSnapshot} (h : clearLost a = clearLost b) :
    a.txPackets = b.txPackets ∧ a.rxPackets = b.rxPackets ∧ a.txBytes = b.txBytes ∧
    a.rxBytes = b.rxBytes ∧ a.delaySum = b.delaySum ∧ a.jitterSum = b.jitterSum := by
  have h1 : (clearLost a).txPackets = (clearLost b).txPackets := by rw [h]
  have h2 : (clearLost a).rxPackets = (clearLost b).rxPackets := by rw [h]
  have h3 : (clearLost a).txBytes = (clearLost b).txBytes := by rw [h]
  have h4 : (clearLost a).rxBytes = (clearLost b).rxBytes := by rw [h]
  have h5 : (clearLost a).delaySum = (clearLost b).delaySum := by rw [h]
  have h6 : (clearLost a).jitterSum = (clearLost b).jitterSum := by rw [h]
  exact ⟨h1, h2, h3, h4, h5, h6⟩

theorem flowRow_lost_congr (gen : Generator) (s s' : State) (current current' : FlowMap)
    (k : FlowKey) (v v' : FlowSnapshot)
    (hprev : clearLostMap s.g_prev = clearLostMap s'.g_prev)
    (hcur : clearLostMap current = clearLostMap current')
    (hv : clearLost v = clearLost v')
    (h1 : s.g_windowStart = s'.g_windowStart) (h2 : s.g_windowSize = s'.g_windowSize)
    (h3 : s.g_scenarioId = s'.g_scenarioId) (h4 : s.g_ueTotal = s'.g_ueTotal)
    (h5 : s.g_attackers = s'.g_attackers) :
    flowRow gen s current k v = flowRow gen s' current' k v' := by
  obtain ⟨a1, a2, a3, a4, a5, a6⟩ := clearLost_fields hv
  obtain ⟨b1, b2, b3, b4, b5, b6⟩ := clearLost_fields (clearLost_lookup_congr hcur (revKey k))
  obtain ⟨c1, c2, c3, c4, c5, c6⟩ := clearLost_fields (clearLost_lookup_congr hprev k)
  obtain ⟨d1, d2, d3, d4, d5, d6⟩ := clearLost_fields (clearLost_lookup_congr hprev (revKey k))
  simp only [flowRow, flowDeltas, a1, a2, a3, a4, a5, a6, b1, b2, b3, b4, b5, b6, c1, c2, c3,
    c4, c5, c6, d1, d2, d3, d4, d5, d6, h1, h2, h3, h4, h5]

theorem tickRows_eq_of_clearLostMap (gen : Generator) (s s' : State) (current current' : FlowMap)
    (hprev : clearLostMap s.g_prev = clearLostMap s'.g_prev)
    (hcur : clearLostMap current = clearLostMap current')
    (h1 : s.g_windowStart = s'.g_windowStart) (h2 : s.g_windowSize = s'.g_windowSize)
    (h3 : s.g_scenarioId = s'.g_scenarioId) (h4 : s.g_ueTotal = s'.g_ueTotal)
    (h5 : s.g_attackers = s'.g_attackers) :
    current.map (fun kv => flowRow gen s current kv.1 kv.2)
      = current'.map (fun kv => flowRow gen s' current' kv.1 kv.2) := by
  have e1 : current.map (fun kv => flowRow gen s current kv.1 kv.2)
      = (clearLostMap current).map (fun kv => flowRow gen s current kv.1 kv.2) := by
    unfold clearLostMap
    rw [List.map_map]
    apply List.map_congr_left
    intro kv _
    exact flowRow_lost_congr gen s s current current kv.1 kv.2 (clearLost kv.2) rfl rfl rfl
      rfl rfl rfl rfl rfl
  have e2 : current'.map (fun kv => flowRow gen s' current' kv.1 kv.2)
      = (clearLostMap current').map (fun kv => flowRow gen s current kv.1 kv.2) := by
    unfold clearLostMap
    rw [List.map_map]
    apply List.map_congr_left
    intro kv _
    exact (flowRow_lost_congr gen s s' current current' kv.1 (clearLost kv.2) kv.2 hprev hcur
      rfl h1 h2 h3 h4 h5).symm
  rw [e1, e2, hcur]

theorem clearLostMap_foldl_congr (stats stats' : Poll)
    (h : List.Forall₂ (fun st st' : FlowStats => st' = { st with lostPackets := st'.lostPackets })
      stats stats') :
    ∀ acc acc' : FlowMap, clearLostMap acc = clearLostMap acc' →
      clearLostMap (stats.foldl (fun current st => mapInsert (keyOf st) (snapOf st) current) acc)
        = clearLostMap
          (stats'.foldl (fun current st => mapInsert (keyOf st) (snapOf st) current) acc') := by
  induction h with
  | nil => intro acc acc' hacc; exact hacc
  | cons hst _ ih =>
    intro acc acc' hacc
    rw [List.foldl_cons, List.foldl_cons]
    apply ih
    rw [clearLostMap_mapInsert, clearLostMap_mapInsert, hacc, hst]
    rfl

theorem lostEquiv_SampleAndWrite (gen : Generator) (s s' : State) (stats stats' : Poll)
    (hs : LostEquiv s s')
    (h : List.Forall₂ (fun st st' : FlowStats => st' = { st with lostPackets := st'.lostPackets })
      stats stats') :
    tickRows gen s stats = tickRows gen s' stats' ∧
    LostEquiv (SampleAndWrite gen s stats) (SampleAndWrite gen s' stats') := by
  obtain ⟨h0, hprev, h1, h2, h3, h4, h5⟩ := hs
  have hcur : clearLostMap (buildCurrent stats) = clearLostMap (buildCurrent stats') :=
    clearLostMap_foldl_congr stats stats' h [] [] rfl
  have hrows : tickRows gen s stats = tickRows gen s' stats' :=
    tickRows_eq_of_clearLostMap gen s s' _ _ hprev hcur h1 h2 h3 h4 h5
  refine ⟨hrows, ?_, hcur, ?_, h2, h3, h4, h5⟩
  · show s.g_out ++ (tickRows gen s stats).map Line.data
      = s'.g_out ++ (tickRows gen s' stats').map Line.data
    rw [h0, hrows]
  · show s.g_windowStart + s.g_windowSize = s'.g_windowStart + s'.g_windowSize
    rw [h1, h2]

theorem lostEquiv_foldl (gen : Generator) (polls polls' : List Poll)
    (h : List.Forall₂
      (List.Forall₂ (fun st st' : FlowStats => st' = { st with lostPackets := st'.lostPackets }))
      polls polls') :
    ∀ s s' : State, LostEquiv s s' →
      LostEquiv (polls.foldl (SampleAndWrite gen) s) (polls'.foldl (SampleAndWrite gen) s') := by
  induction h with
  | nil => intro s s' hs; exact hs
  | cons hp _ ih =>
    intro s s' hs
    rw [List.foldl_cons, List.foldl_cons]
    exact ih _ _ (lostEquiv_SampleAndWrite gen s s' _ _ hs hp).2

theorem lostEquiv_refl (s : State) : LostEquiv s s := ⟨rfl, rfl, rfl, rfl, rfl, rfl, rfl⟩

theorem tickRowsRounded_exact (gen : Generator) (s : State) (stats : Poll) :
    tickRowsRounded (fun x y => x + y) gen s stats = tickRows gen s stats := by
  unfold tickRowsRounded
  conv_rhs => rw [← List.map_id (tickRows gen s stats)]
  apply List.map_congr_left
  intro r hr
  obtain ⟨k, v, _, rfl⟩ := mem_tickRows.1 hr
  rfl

theorem SampleAndWriteRounded_exact (gen : Generator) (s : State) (stats : Poll) :
    SampleAndWriteRounded (fun x y => x + y) gen s stats = SampleAndWrite gen s stats := by
  unfold SampleAndWriteRounded SampleAndWrite
  rw [tickRowsRounded_exact]

theorem runRounded_exact (gen : Generator) (cfg : Config) (polls : List Poll) :
    runRounded (fun x y => x + y) gen cfg polls = run gen cfg polls := by
  unfold runRounded run
  congr 1
  funext s stats
  exact SampleAndWriteRounded_exact gen s stats

theorem mem_tickRowsRounded {add : ℚ → ℚ → ℚ} {gen : Generator} {s : State} {stats : Poll}
    {r : Row} (hr : r ∈ tickRowsRounded add gen s stats) :
    r.time_start = s.g_windowStart ∧ r.time_end = add s.g_windowStart s.g_windowSize ∧
    r.flow_duration = s.g_windowSize := by
  obtain ⟨r0, hr0, rfl⟩ := List.mem_map.1 hr
  obtain ⟨k, v, _, rfl⟩ := mem_tickRows.1 hr0
  exact ⟨rfl, rfl, rfl⟩

theorem foldl_rounded_windowSize (add : ℚ → ℚ → ℚ) (gen : Generator) (polls : List Poll) :
    ∀ s : State,
      (polls.foldl (SampleAndWriteRounded add gen) s).g_windowSize = s.g_windowSize := by
  induction polls with
  | nil => intro s; rfl
  | cons p ps ih => intro s; rw [List.foldl_cons, ih]; rfl

theorem foldl_rounded_windowStart (add : ℚ → ℚ → ℚ) (gen : Generator) (polls : List Poll) :
    ∀ s : State,
      (polls.foldl (SampleAndWriteRounded add gen) s).g_windowStart
        = (fun t => add t s.g_windowSize)^[polls.length] s.g_windowStart := by
  induction polls with
  | nil => intro s; rfl
  | cons p ps ih =>
    intro s
    rw [List.foldl_cons, ih, List.length_cons, Function.iterate_succ_apply]
    rfl

theorem runRounded_windowSize (add : ℚ → ℚ → ℚ) (gen : Generator) (cfg : Config)
    (polls : List Poll) : (runRounded add gen cfg polls).g_windowSize = cfg.window :=
  foldl_rounded_windowSize add gen polls (mainInit cfg)

theorem runRounded_windowStart (add : ℚ → ℚ → ℚ) (gen : Generator) (cfg : Config)
    (polls : List Poll) :
    (runRounded add gen cfg polls).g_windowStart
      = (fun t => add t cfg.window)^[polls.length] 0 :=
  foldl_rounded_windowStart add gen polls (mainInit cfg)

theorem runRounded_append (add : ℚ → ℚ → ℚ) (gen : Generator) (cfg : Config)
    (polls : List Poll) (stats : Poll) :
    runRounded add gen cfg (polls ++ [stats])
      = SampleAndWriteRounded add gen (runRounded add gen cfg polls) stats := by
  unfold runRounded
  rw [List.foldl_append]
  rfl

theorem iterate_add_of_exact (add : ℚ → ℚ → ℚ) (W : ℚ) (n : Nat)
    (h : ∀ i : Nat, i < n → add (i * W) W = (i + 1) * W) :
    ∀ m : Nat, m ≤ n → (fun t => add t W)^[m] 0 = m * W := by
  intro m
  induction m with
  | zero => intro _; simp
  | succ m ih =>
    intro hm
    rw [Function.iterate_succ_apply', ih (Nat.le_of_succ_le hm), h m hm]
    push_cast
    rfl

/-- The threshold rule of `attackBinary` where the attacker test of `SampleAndWrite` does not
fire (the nr generator has no such test; the simple generator tests the lowest octet of the
source address): `label_binary = 1` if and only if `flow_pkts_per_sec > 5000`, strictly;
5000 forward packets with `W = 1` give the rate 5000 and the label 0, 50001 forward packets with
`W = 10` give the rate 5000.1 and the label 1. -/
theorem label_threshold_of_octet_test (gen : Generator) (s : State) (stats : Poll) (r : Row)
    (hr : r ∈ tickRows gen s stats)
    (hsrc : gen = .simple → (r.src_ip &&& 0xFF) ∉ s.g_attackers) :
    (r.label_binary = 1 ↔ r.flow_pkts_per_sec > 5000) ∧
    (r.label_binary = 0 ↔ r.flow_pkts_per_sec ≤ 5000) ∧
    (s.g_windowSize = 1 → r.total_pkts_fwd = 5000 →
      r.flow_pkts_per_sec = 5000 ∧ r.label_binary = 0) ∧
    (s.g_windowSize = 10 → r.total_pkts_fwd = 50001 →
      r.flow_pkts_per_sec = 50001 / 10 ∧ r.label_binary = 1) := by
  obtain ⟨k, v, _, rfl⟩ := mem_tickRows.1 hr
  have hiff := attackBinary_of_not_attacker gen s.g_attackers k
    (flowRow gen s (buildCurrent stats) k v).flow_pkts_per_sec hsrc
  have h1 : (flowRow gen s (buildCurrent stats) k v).label_binary = 1 ↔
      (flowRow gen s (buildCurrent stats) k v).flow_pkts_per_sec > 5000 := by
    rw [flowRow_label_binary, ← hiff]
    by_cases hb : attackBinary gen s.g_attackers k
        (flowRow gen s (buildCurrent stats) k v).flow_pkts_per_sec = true <;> simp [hb]
  have h0 : (flowRow gen s (buildCurrent stats) k v).label_binary = 0 ↔
      (flowRow gen s (buildCurrent stats) k v).flow_pkts_per_sec ≤ 5000 := by
    rw [← not_lt, ← gt_iff_lt, ← hiff, flowRow_label_binary]
    by_cases hb : attackBinary gen s.g_attackers k
        (flowRow gen s (buildCurrent stats) k v).flow_pkts_per_sec = true <;> simp [hb]
  refine ⟨h1, h0, ?_, ?_⟩
  · intro hW ht
    have hrate : (flowRow gen s (buildCurrent stats) k v).flow_pkts_per_sec = 5000 := by
      rw [flowRow_flow_pkts_per_sec, ht, hW]; norm_num
    exact ⟨hrate, h0.2 (le_of_eq hrate)⟩
  · intro hW ht
    have hrate : (flowRow gen s (buildCurrent stats) k v).flow_pkts_per_sec = 50001 / 10 := by
      rw [flowRow_flow_pkts_per_sec, ht, hW]; norm_num
    refine ⟨hrate, h1.2 ?_⟩
    rw [hrate]; norm_num

theorem log2Floor_spec (fuel : Nat) :
    ∀ n : Nat, 1 ≤ n → n ≤ fuel →
      2 ^ log2Floor fuel n ≤ n ∧ n < 2 ^ (log2Floor fuel n + 1) := by
  induction fuel with
  | zero => intro n h1 h2; omega
  | succ fuel ih =>
    intro n h1 h2
    unfold log2Floor
    by_cases h : n < 2
    · rw [if_pos h]
      have : n = 1 := by omega
      subst this
      decide
    · rw [if_neg h]
      obtain ⟨ha, hb⟩ := ih (n / 2) (by omega) (by omega)
      rw [pow_succ, pow_succ]
      rw [pow_succ] at hb
      constructor <;> omega

/-! ## The claims -/

/-- C1, amended: for every tick and every entry `(k, v)` of the current snapshot map whose key
is absent from the previous registry, the four forward deltas are the raw counters of `v`, and
the row written for `k` reports the 64-bit sums `(txPackets + rxPackets) mod 2^64` and
`(txBytes + rxBytes) mod 2^64`, which are the plain sums whenever these fit in 64 bits. -/
theorem C1_zero_baseline (gen : Generator) (s : State) (stats : Poll) (k : FlowKey)
    (v : FlowSnapshot) (hk : (k, v) ∈ buildCurrent stats) (habs : mapFind s.g_prev k = none) :
    flowRow gen s (buildCurrent stats) k v ∈ tickRows gen s stats ∧
    (flowDeltas s.g_prev (buildCurrent stats) k v).dTxPktsF = v.txPackets ∧
    (flowDeltas s.g_prev (buildCurrent stats) k v).dRxPktsF = v.rxPackets ∧
    (flowDeltas s.g_prev (buildCurrent stats) k v).dTxBytesF = v.txBytes ∧
    (flowDeltas s.g_prev (buildCurrent stats) k v).dRxBytesF = v.rxBytes ∧
    (flowRow gen s (buildCurrent stats) k v).total_pkts_fwd
      = (v.txPackets + v.rxPackets) % 2 ^ 64 ∧
    (flowRow gen s (buildCurrent stats) k v).total_bytes_fwd
      = (v.txBytes + v.rxBytes) % 2 ^ 64 ∧
    (v.txPackets + v.rxPackets < 2 ^ 64 →
      (flowRow gen s (buildCurrent stats) k v).total_pkts_fwd = v.txPackets + v.rxPackets) ∧
    (v.txBytes + v.rxBytes < 2 ^ 64 →
      (flowRow gen s (buildCurrent stats) k v).total_bytes_fwd = v.txBytes + v.rxBytes) := by
  obtain ⟨h1, h2, h3, h4, _⟩ := wf_buildCurrent stats (k, v) hk
  have hz := lookupOrZero_of_none habs
  have d1 : (flowDeltas s.g_prev (buildCurrent stats) k v).dTxPktsF = v.txPackets := by
    simp only [flowDeltas, hz]; exact sub64_zero h1
  have d2 : (flowDeltas s.g_prev (buildCurrent stats) k v).dRxPktsF = v.rxPackets := by
    simp only [flowDeltas, hz]; exact sub64_zero h2
  have d3 : (flowDeltas s.g_prev (buildCurrent stats) k v).dTxBytesF = v.txBytes := by
    simp only [flowDeltas, hz]; exact sub64_zero h3
  have d4 : (flowDeltas s.g_prev (buildCurrent stats) k v).dRxBytesF = v.rxBytes := by
    simp only [flowDeltas, hz]; exact sub64_zero h4
  have t1 : (flowRow gen s (buildCurrent stats) k v).total_pkts_fwd
      = (v.txPackets + v.rxPackets) % 2 ^ 64 := by
    show add64 _ _ = _
    rw [d1, d2]; rfl
  have t2 : (flowRow gen s (buildCurrent stats) k v).total_bytes_fwd
      = (v.txBytes + v.rxBytes) % 2 ^ 64 := by
    show add64 _ _ = _
    rw [d3, d4]; rfl
  refine ⟨mem_tickRows.2 ⟨k, v, hk, rfl⟩, d1, d2, d3, d4, t1, t2, ?_, ?_⟩
  · intro h; rw [t1]; exact Nat.mod_eq_of_lt h
  · intro h; rw [t2]; exact Nat.mod_eq_of_lt h

/-- C1 at a concrete input: at the first tick of a default run the flow of `upStats 10 8 500
400` is new, its forward deltas are its counters and its row reports 18 packets and 900
bytes. -/
theorem C1_zero_baseline_witness :
    ((upKey, snapOf (upStats 10 8 500 400)) ∈ buildCurrent [upStats 10 8 500 400] ∧
      mapFind (mainInit {}).g_prev upKey = none) ∧
    (flowDeltas (mainInit {}).g_prev (buildCurrent [upStats 10 8 500 400]) upKey
        (snapOf (upStats 10 8 500 400))).dTxPktsF = (snapOf (upStats 10 8 500 400)).txPackets ∧
    (flowRow .nr (mainInit {}) (buildCurrent [upStats 10 8 500 400]) upKey
        (snapOf (upStats 10 8 500 400))).total_pkts_fwd = 10 + 8 ∧
    (flowRow .nr (mainInit {}) (buildCurrent [upStats 10 8 500 400]) upKey
        (snapOf (upStats 10 8 500 400))).total_bytes_fwd = 500 + 400 :=
  have h := C1_zero_baseline .nr (mainInit {}) [upStats 10 8 500 400] upKey
    (snapOf (upStats 10 8 500 400)) (by decide) (by decide)
  ⟨⟨by decide, by decide⟩, h.2.1, h.2.2.2.2.2.2.2.1 (by decide),
    h.2.2.2.2.2.2.2.2 (by decide)⟩

/-- C1 as stated fails when the sum of the counters does not fit in 64 bits: the flow of
`hugePoll` is new at the first tick, and its row reports `total_bytes_fwd = 0`, not
`txBytes + rxBytes = 2 ^ 64`. -/
theorem C1_counterexample :
    (upKey, hugeSnap) ∈ buildCurrent hugePoll ∧
    mapFind (mainInit {}).g_prev upKey = none ∧
    (flowRow .nr (mainInit {}) (buildCurrent hugePoll) upKey hugeSnap).total_bytes_fwd = 0 ∧
    (flowRow .nr (mainInit {}) (buildCurrent hugePoll) upKey hugeSnap).total_bytes_fwd
      ≠ hugeSnap.txBytes + hugeSnap.rxBytes := by
  decide

/-- C2: for an entry `(k, v)` of the current snapshot map, (forward) if `k` has the snapshot `p`
in the previous registry and the four packet and byte counters of `v` are at least those of
`p`, each forward delta is the exact integer difference current - previous and is not
negative; (backward) if the reverse key has the snapshot `vb` in the current map and `pb` in
the previous registry with counters of `vb` at least those of `pb`, the same holds for each
backward delta. -/
theorem C2_monotonic_deltas (s : State) (stats : Poll) (k : FlowKey) (v : FlowSnapshot)
    (hk : (k, v) ∈ buildCurrent stats) :
    (∀ p : FlowSnapshot, mapFind s.g_prev k = some p →
      p.txPackets ≤ v.txPackets → p.rxPackets ≤ v.rxPackets →
      p.txBytes ≤ v.txBytes → p.rxBytes ≤ v.rxBytes →
      (((flowDeltas s.g_prev (buildCurrent stats) k v).dTxPktsF : ℤ)
          = (v.txPackets : ℤ) - (p.txPackets : ℤ) ∧
        ((flowDeltas s.g_prev (buildCurrent stats) k v).dRxPktsF : ℤ)
          = (v.rxPackets : ℤ) - (p.rxPackets : ℤ) ∧
        ((flowDeltas s.g_prev (buildCurrent stats) k v).dTxBytesF : ℤ)
          = (v.txBytes : ℤ) - (p.txBytes : ℤ) ∧
        ((flowDeltas s.g_prev (buildCurrent stats) k v).dRxBytesF : ℤ)
          = (v.rxBytes : ℤ) - (p.rxBytes : ℤ)) ∧
      (0 ≤ (v.txPackets : ℤ) - (p.txPackets : ℤ) ∧ 0 ≤ (v.rxPackets : ℤ) - (p.rxPackets : ℤ) ∧
        0 ≤ (v.txBytes : ℤ) - (p.txBytes : ℤ) ∧ 0 ≤ (v.rxBytes : ℤ) - (p.rxBytes : ℤ))) ∧
    (∀ vb pb : FlowSnapshot, mapFind (buildCurrent stats) (revKey k) = some vb →
      mapFind s.g_prev (revKey k) = some pb →
      pb.txPackets ≤ vb.txPackets → pb.rxPackets ≤ vb.rxPackets →
      pb.txBytes ≤ vb.txBytes → pb.rxBytes ≤ vb.rxBytes →
      (((flowDeltas s.g_prev (buildCurrent stats) k v).dTxPktsB : ℤ)
          = (vb.txPackets : ℤ) - (pb.txPackets : ℤ) ∧
        ((flowDeltas s.g_prev (buildCurrent stats) k v).dRxPktsB : ℤ)
          = (vb.rxPackets : ℤ) - (pb.rxPackets : ℤ) ∧
        ((flowDeltas s.g_prev (buildCurrent stats) k v).dTxBytesB : ℤ)
          = (vb.txBytes : ℤ) - (pb.txBytes : ℤ) ∧
        ((flowDeltas s.g_prev (buildCurrent stats) k v).dRxBytesB : ℤ)
          = (vb.rxBytes : ℤ) - (pb.rxBytes : ℤ)) ∧
      (0 ≤ (vb.txPackets : ℤ) - (pb.txPackets : ℤ) ∧
        0 ≤ (vb.rxPackets : ℤ) - (pb.rxPackets : ℤ) ∧
        0 ≤ (vb.txBytes : ℤ) - (pb.txBytes : ℤ) ∧ 0 ≤ (vb.rxBytes : ℤ) - (pb.rxBytes : ℤ))) := by
  have key : ∀ a b : Nat, b ≤ a → a < U64 → ((sub64 a b : Nat) : ℤ) = (a : ℤ) - (b : ℤ) := by
    intro a b hba ha
    rw [sub64_of_le hba ha]; omega
  constructor
  · intro p hp h1 h2 h3 h4
    obtain ⟨w1, w2, w3, w4, _⟩ := wf_buildCurrent stats (k, v) hk
    have hz := lookupOrZero_of_some hp
    refine ⟨⟨?_, ?_, ?_, ?_⟩, by omega, by omega, by omega, by omega⟩
    · simp only [flowDeltas, hz]; exact key _ _ h1 w1
    · simp only [flowDeltas, hz]; exact key _ _ h2 w2
    · simp only [flowDeltas, hz]; exact key _ _ h3 w3
    · simp only [flowDeltas, hz]; exact key _ _ h4 w4
  · intro vb pb hvb hpb h1 h2 h3 h4
    obtain ⟨w1, w2, w3, w4, _⟩ := wf_buildCurrent stats (revKey k, vb) (mem_of_mapFind hvb)
    have hz := lookupOrZero_of_some hpb
    have hc := lookupOrZero_of_some hvb
    refine ⟨⟨?_, ?_, ?_, ?_⟩, by omega, by omega, by omega, by omega⟩
    · simp only [flowDeltas, hz, hc]; exact key _ _ h1 w1
    · simp only [flowDeltas, hz, hc]; exact key _ _ h2 w2
    · simp only [flowDeltas, hz, hc]; exact key _ _ h3 w3
    · simp only [flowDeltas, hz, hc]; exact key _ _ h4 w4

/-- C2 at a concrete input: the second poll of the pair scenario raises the forward transmit
counter from 10 to 12 and the backward one from 3 to 4: the deltas are 2 and 1. -/
theorem C2_monotonic_deltas_witness :
    (upKey, snapOf (upStats 12 10 600 500)) ∈ buildCurrent pairPoll2 ∧
    mapFind (afterPair .nr).g_prev upKey = some (snapOf (upStats 10 8 500 400)) ∧
    mapFind (buildCurrent pairPoll2) (revKey upKey) = some (snapOf (downStats 4 4 150 150)) ∧
    mapFind (afterPair .nr).g_prev (revKey upKey) = some (snapOf (downStats 3 3 100 100)) ∧
    ((flowDeltas (afterPair .nr).g_prev (buildCurrent pairPoll2) upKey
        (snapOf (upStats 12 10 600 500))).dTxPktsF : ℤ) = 12 - 10 ∧
    ((flowDeltas (afterPair .nr).g_prev (buildCurrent pairPoll2) upKey
        (snapOf (upStats 12 10 600 500))).dTxPktsB : ℤ) = 4 - 3 :=
  have h := C2_monotonic_deltas (afterPair .nr) pairPoll2 upKey
    (snapOf (upStats 12 10 600 500)) (by decide)
  ⟨by decide, by decide, by decide, by decide,
    (h.1 (snapOf (upStats 10 8 500 400)) (by decide) (by decide) (by decide) (by decide)
      (by decide)).1.1,
    (h.2 (snapOf (downStats 4 4 150 150)) (snapOf (downStats 3 3 100 100)) (by decide)
      (by decide) (by decide) (by decide) (by decide) (by decide)).1.1⟩

/-- C3, amended: the deltas are `uint64_t` values and are never negative. If a forward (or
backward) counter of an entry of the current snapshot map is smaller than in the previous
registry, its delta is the wrapped value `2^64 - (previous - current)`; it is not clamped: the
totals are the 64-bit sums of the deltas as computed, the rates are these totals divided by the
window size, and for a positive window size no rate is negative. -/
theorem C3_wrapped_deltas (gen : Generator) (s : State) (stats : Poll) (k : FlowKey)
    (v : FlowSnapshot) (hk : (k, v) ∈ buildCurrent stats) (hW : 0 < s.g_windowSize) :
    (∀ p : FlowSnapshot, mapFind s.g_prev k = some p → p.WF →
      (v.txPackets < p.txPackets →
        (flowDeltas s.g_prev (buildCurrent stats) k v).dTxPktsF
          = 2 ^ 64 - (p.txPackets - v.txPackets)) ∧
      (v.rxPackets < p.rxPackets →
        (flowDeltas s.g_prev (buildCurrent stats) k v).dRxPktsF
          = 2 ^ 64 - (p.rxPackets - v.rxPackets)) ∧
      (v.txBytes < p.txBytes →
        (flowDeltas s.g_prev (buildCurrent stats) k v).dTxBytesF
          = 2 ^ 64 - (p.txBytes - v.txBytes)) ∧
      (v.rxBytes < p.rxBytes →
        (flowDeltas s.g_prev (buildCurrent stats) k v).dRxBytesF
          = 2 ^ 64 - (p.rxBytes - v.rxBytes))) ∧
    (∀ pb : FlowSnapshot, mapFind s.g_prev (revKey k) = some pb → pb.WF →
      ((lookupOrZero (buildCurrent stats) (revKey k)).txPackets < pb.txPackets →
        (flowDeltas s.g_prev (buildCurrent stats) k v).dTxPktsB
          = 2 ^ 64 - (pb.txPackets - (lookupOrZero (buildCurrent stats) (revKey k)).txPackets)) ∧
      ((lookupOrZero (buildCurrent stats) (revKey k)).rxPackets < pb.rxPackets →
        (flowDeltas s.g_prev (buildCurrent stats) k v).dRxPktsB
          = 2 ^ 64 - (pb.rxPackets - (lookupOrZero (buildCurrent stats) (revKey k)).rxPackets)) ∧
      ((lookupOrZero (buildCurrent stats) (revKey k)).txBytes < pb.txBytes →
        (flowDeltas s.g_prev (buildCurrent stats) k v).dTxBytesB
          = 2 ^ 64 - (pb.txBytes - (lookupOrZero (buildCurrent stats) (revKey k)).txBytes)) ∧
      ((lookupOrZero (buildCurrent stats) (revKey k)).rxBytes < pb.rxBytes →
        (flowDeltas s.g_prev (buildCurrent stats) k v).dRxBytesB
          = 2 ^ 64 - (pb.rxBytes - (lookupOrZero (buildCurrent stats) (revKey k)).rxBytes))) ∧
    (flowRow gen s (buildCurrent stats) k v).total_pkts_fwd
      = ((flowDeltas s.g_prev (buildCurrent stats) k v).dTxPktsF
          + (flowDeltas s.g_prev (buildCurrent stats) k v).dRxPktsF) % 2 ^ 64 ∧
    (flowRow gen s (buildCurrent stats) k v).total_bytes_fwd
      = ((flowDeltas s.g_prev (buildCurrent stats) k v).dTxBytesF
          + (flowDeltas s.g_prev (buildCurrent stats) k v).dRxBytesF) % 2 ^ 64 ∧
    (flowRow gen s (buildCurrent stats) k v).total_pkts_bwd
      = ((flowDeltas s.g_prev (buildCurrent stats) k v).dTxPktsB
          + (flowDeltas s.g_prev (buildCurrent stats) k v).dRxPktsB) % 2 ^ 64 ∧
    (flowRow gen s (buildCurrent stats) k v).total_bytes_bwd
      = ((flowDeltas s.g_prev (buildCurrent stats) k v).dTxBytesB
          + (flowDeltas s.g_prev (buildCurrent stats) k v).dRxBytesB) % 2 ^ 64 ∧
    (flowRow gen s (buildCurrent stats) k v).flow_pkts_per_sec
      = ((flowRow gen s (buildCurrent stats) k v).total_pkts_fwd : ℚ) / s.g_windowSize ∧
    (flowRow gen s (buildCurrent stats) k v).flow_bytes_per_sec
      = ((flowRow gen s (buildCurrent stats) k v).total_bytes_fwd : ℚ) / s.g_windowSize ∧
    (flowRow gen s (buildCurrent stats) k v).pkts_per_sec
      = ((((flowRow gen s (buildCurrent stats) k v).total_pkts_fwd
          + (flowRow gen s (buildCurrent stats) k v).total_pkts_bwd) % 2 ^ 64 : Nat) : ℚ)
        / s.g_windowSize ∧
    (flowRow gen s (buildCurrent stats) k v).bytes_per_sec
      = ((((flowRow gen s (buildCurrent stats) k v).total_bytes_fwd
          + (flowRow gen s (buildCurrent stats) k v).total_bytes_bwd) % 2 ^ 64 : Nat) : ℚ)
        / s.g_windowSize ∧
    0 ≤ (flowRow gen s (buildCurrent stats) k v).flow_pkts_per_sec ∧
    0 ≤ (flowRow gen s (buildCurrent stats) k v).flow_bytes_per_sec ∧
    0 ≤ (flowRow gen s (buildCurrent stats) k v).pkts_per_sec ∧
    0 ≤ (flowRow gen s (buildCurrent stats) k v).bytes_per_sec := by
  have wv := wf_buildCurrent stats (k, v) hk
  refine ⟨?_, ?_, rfl, rfl, rfl, rfl, rfl, rfl, rfl, rfl, ?_, ?_, ?_, ?_⟩
  · intro p hp hwf
    have hz := lookupOrZero_of_some hp
    obtain ⟨w1, w2, w3, w4, _⟩ := hwf
    refine ⟨?_, ?_, ?_, ?_⟩ <;> intro h <;> simp only [flowDeltas, hz]
    · exact sub64_of_lt h w1
    · exact sub64_of_lt h w2
    · exact sub64_of_lt h w3
    · exact sub64_of_lt h w4
  · intro pb hpb hwf
    have hz := lookupOrZero_of_some hpb
    obtain ⟨w1, w2, w3, w4, _⟩ := hwf
    refine ⟨?_, ?_, ?_, ?_⟩ <;> intro h <;> simp only [flowDeltas, hz]
    · exact sub64_of_lt h w1
    · exact sub64_of_lt h w2
    · exact sub64_of_lt h w3
    · exact sub64_of_lt h w4
  · rw [flowRow_flow_pkts_per_sec]; exact nat_div_nonneg _ hW
  · rw [flowRow_flow_bytes_per_sec]; exact nat_div_nonneg _ hW
  · rw [flowRow_pkts_per_sec]; exact nat_div_nonneg _ hW
  · rw [flowRow_bytes_per_sec]; exact nat_div_nonneg _ hW

/-- C3 at a concrete input: in the regress scenario the transmit packet counter falls from 10 to
5 and the delta is `2^64 - 5`. -/
theorem C3_wrapped_deltas_witness :
    ((upKey, snapOf (upStats 5 8 500 400)) ∈ buildCurrent regressPoll ∧
      (0 : ℚ) < (afterUp .nr).g_windowSize ∧
      mapFind (afterUp .nr).g_prev upKey = some (snapOf (upStats 10 8 500 400)) ∧
      (snapOf (upStats 10 8 500 400)).WF ∧
      (snapOf (upStats 5 8 500 400)).txPackets < (snapOf (upStats 10 8 500 400)).txPackets) ∧
    (flowDeltas (afterUp .nr).g_prev (buildCurrent regressPoll) upKey
      (snapOf (upStats 5 8 500 400))).dTxPktsF
        = 2 ^ 64 - ((snapOf (upStats 10 8 500 400)).txPackets
            - (snapOf (upStats 5 8 500 400)).txPackets) ∧
    0 ≤ (flowRow .nr (afterUp .nr) (buildCurrent regressPoll) upKey
      (snapOf (upStats 5 8 500 400))).flow_pkts_per_sec :=
  have hW : (0 : ℚ) < (afterUp .nr).g_windowSize := by
    show (0 : ℚ) < 1
    exact one_pos
  have h := C3_wrapped_deltas .nr (afterUp .nr) regressPoll upKey
    (snapOf (upStats 5 8 500 400)) (by decide) hW
  ⟨⟨by decide, hW, by decide, snapOf_WF _, by decide⟩,
    (h.1 (snapOf (upStats 10 8 500 400)) (by decide) (snapOf_WF _)).1 (by decide),
    h.2.2.2.2.2.2.2.2.2.2.1⟩

/-- C3 as stated fails: in the regress scenario the transmit packet counter of the flow is 5
after 10, and the delta is `2^64 - 5`, not `5 - 10`; the total and the rates derived from it are
positive, not negative. -/
theorem C3_counterexample :
    mapFind (afterUp .nr).g_prev upKey = some (snapOf (upStats 10 8 500 400)) ∧
    (upKey, snapOf (upStats 5 8 500 400)) ∈ buildCurrent regressPoll ∧
    (flowDeltas (afterUp .nr).g_prev (buildCurrent regressPoll) upKey
      (snapOf (upStats 5 8 500 400))).dTxPktsF = 18446744073709551611 ∧
    ((flowDeltas (afterUp .nr).g_prev (buildCurrent regressPoll) upKey
      (snapOf (upStats 5 8 500 400))).dTxPktsF : ℤ) ≠ 5 - 10 ∧
    (flowRow .nr (afterUp .nr) (buildCurrent regressPoll) upKey
      (snapOf (upStats 5 8 500 400))).total_pkts_fwd = 18446744073709551611 ∧
    (flowRow .nr (afterUp .nr) (buildCurrent regressPoll) upKey
      (snapOf (upStats 5 8 500 400))).flow_pkts_per_sec = 18446744073709551611 ∧
    (flowRow .nr (afterUp .nr) (buildCurrent regressPoll) upKey
      (snapOf (upStats 5 8 500 400))).pkts_per_sec = 18446744073709551611 ∧
    ¬ (flowRow .nr (afterUp .nr) (buildCurrent regressPoll) upKey
      (snapOf (upStats 5 8 500 400))).flow_pkts_per_sec < 0 := by
  have hd : (flowDeltas (afterUp .nr).g_prev (buildCurrent regressPoll) upKey
      (snapOf (upStats 5 8 500 400))).dTxPktsF = 18446744073709551611 := by decide
  have ht : (flowRow .nr (afterUp .nr) (buildCurrent regressPoll) upKey
      (snapOf (upStats 5 8 500 400))).total_pkts_fwd = 18446744073709551611 := by decide
  have hb : (flowRow .nr (afterUp .nr) (buildCurrent regressPoll) upKey
      (snapOf (upStats 5 8 500 400))).total_pkts_bwd = 0 := by decide
  have hW : (afterUp .nr).g_windowSize = 1 := rfl
  have hf : (flowRow .nr (afterUp .nr) (buildCurrent regressPoll) upKey
      (snapOf (upStats 5 8 500 400))).flow_pkts_per_sec = 18446744073709551611 := by
    rw [flowRow_flow_pkts_per_sec, ht, hW]; norm_num
  have hp : (flowRow .nr (afterUp .nr) (buildCurrent regressPoll) upKey
      (snapOf (upStats 5 8 500 400))).pkts_per_sec = 18446744073709551611 := by
    rw [flowRow_pkts_per_sec, ht, hb, hW]; norm_num
  refine ⟨by decide, by decide, hd, ?_, ht, hf, hp, ?_⟩
  · rw [hd]; norm_num
  · rw [hf]; norm_num

/-- C4, amended: no key is suppressed. For every window in which a key `k` and its reverse key
are both keys of the current snapshot map and differ, `SampleAndWrite` writes exactly one row
for `k` and exactly one row for the reverse key, two rows for the pair. -/
theorem C4_one_row_per_key (gen : Generator) (s : State) (stats : Poll) (k : FlowKey)
    (hk : k ∈ (buildCurrent stats).map Prod.fst)
    (hr : revKey k ∈ (buildCurrent stats).map Prod.fst) (hne : k ≠ revKey k) :
    (tickRows gen s stats).countP (fun r => decide (r.key = k)) = 1 ∧
    (tickRows gen s stats).countP (fun r => decide (r.key = revKey k)) = 1 ∧
    (tickRows gen s stats).countP
      (fun r => decide (r.key = k) || decide (r.key = revKey k)) = 2 := by
  have hnd := keys_nodup_of_sorted (keysSorted_buildCurrent stats)
  have c1 : ((tickRows gen s stats).map Row.key).count k = 1 := by
    rw [tickRows_keys]; exact List.count_eq_one_of_mem hnd hk
  have c2 : ((tickRows gen s stats).map Row.key).count (revKey k) = 1 := by
    rw [tickRows_keys]; exact List.count_eq_one_of_mem hnd hr
  refine ⟨?_, ?_, ?_⟩
  · rw [countP_key_eq, c1]
  · rw [countP_key_eq, c2]
  · rw [countP_key_pair _ hne, c1, c2]

/-- C4 at a concrete input: in the pair scenario both directions are keys of the current map at
the first tick, and two rows are written for the pair. -/
theorem C4_one_row_per_key_witness :
    (upKey ∈ (buildCurrent pairPoll).map Prod.fst ∧
      revKey upKey ∈ (buildCurrent pairPoll).map Prod.fst ∧ upKey ≠ revKey upKey) ∧
    (tickRows .simple (mainInit {}) pairPoll).countP
      (fun r => decide (r.key = upKey) || decide (r.key = revKey upKey)) = 2 :=
  ⟨⟨by decide, by decide, by decide⟩,
    (C4_one_row_per_key .simple (mainInit {}) pairPoll upKey (by decide) (by decide)
      (by decide)).2.2⟩

/-- C4 as stated fails: in the pair scenario the key and its reverse key are both in the
current map, they differ, and the tick writes a row for each of them (in key order), not for
exactly one of the two. -/
theorem C4_counterexample :
    upKey ∈ (buildCurrent pairPoll).map Prod.fst ∧
    revKey upKey ∈ (buildCurrent pairPoll).map Prod.fst ∧
    upKey ≠ revKey upKey ∧
    (tickRows .nr (mainInit {}) pairPoll).map Row.key = [upKey, revKey upKey] ∧
    (tickRows .simple (mainInit {}) pairPoll).map Row.key = [upKey, revKey upKey] ∧
    ¬ ((tickRows .nr (mainInit {}) pairPoll).countP
        (fun r => decide (r.key = upKey) || decide (r.key = revKey upKey)) = 1) := by
  decide

/-- C5, amended: for every entry `(k, v)` of the current snapshot map whose reverse key is
absent from the current snapshot map and from the previous registry, the row written for `k`
reports `total_pkts_bwd = 0` and `total_bytes_bwd = 0`. -/
theorem C5_missing_reverse (gen : Generator) (s : State) (stats : Poll) (k : FlowKey)
    (v : FlowSnapshot) (hk : (k, v) ∈ buildCurrent stats)
    (hcur : mapFind (buildCurrent stats) (revKey k) = none)
    (hprev : mapFind s.g_prev (revKey k) = none) :
    flowRow gen s (buildCurrent stats) k v ∈ tickRows gen s stats ∧
    (flowRow gen s (buildCurrent stats) k v).total_pkts_bwd = 0 ∧
    (flowRow gen s (buildCurrent stats) k v).total_bytes_bwd = 0 := by
  have hc := lookupOrZero_of_none hcur
  have hp := lookupOrZero_of_none hprev
  refine ⟨mem_tickRows.2 ⟨k, v, hk, rfl⟩, ?_, ?_⟩
  · rw [flowRow_total_pkts_bwd]
    simp only [flowDeltas, hc, hp]
    decide
  · rw [flowRow_total_bytes_bwd]
    simp only [flowDeltas, hc, hp]
    decide

/-- C5 at a concrete input: at the first tick of a default run that observes the
client-to-server flow only, its row reports no backward traffic. -/
theorem C5_missing_reverse_witness :
    ((upKey, snapOf (upStats 10 8 500 400)) ∈ buildCurrent [upStats 10 8 500 400] ∧
      mapFind (buildCurrent [upStats 10 8 500 400]) (revKey upKey) = none ∧
      mapFind (mainInit {}).g_prev (revKey upKey) = none) ∧
    (flowRow .nr (mainInit {}) (buildCurrent [upStats 10 8 500 400]) upKey
      (snapOf (upStats 10 8 500 400))).total_pkts_bwd = 0 ∧
    (flowRow .nr (mainInit {}) (buildCurrent [upStats 10 8 500 400]) upKey
      (snapOf (upStats 10 8 500 400))).total_bytes_bwd = 0 :=
  ⟨⟨by decide, by decide, by decide⟩,
    (C5_missing_reverse .nr (mainInit {}) [upStats 10 8 500 400] upKey
      (snapOf (upStats 10 8 500 400)) (by decide) (by decide) (by decide)).2⟩

/-- C5 as stated fails: after a tick that registered both directions, a poll without the
server-to-client flow gives the client-to-server row `total_pkts_bwd = 2^64 - 6` and
`total_bytes_bwd = 2^64 - 200`, not zero. -/
theorem C5_counterexample :
    (upKey, snapOf (upStats 20 18 900 800)) ∈ buildCurrent vanishPoll ∧
    mapFind (buildCurrent vanishPoll) (revKey upKey) = none ∧
    mapFind (afterPair .nr).g_prev (revKey upKey) = some (snapOf (downStats 3 3 100 100)) ∧
    (flowRow .nr (afterPair .nr) (buildCurrent vanishPoll) upKey
      (snapOf (upStats 20 18 900 800))).total_pkts_bwd = 18446744073709551610 ∧
    (flowRow .nr (afterPair .nr) (buildCurrent vanishPoll) upKey
      (snapOf (upStats 20 18 900 800))).total_bytes_bwd = 18446744073709551416 ∧
    (flowRow .nr (afterPair .nr) (buildCurrent vanishPoll) upKey
      (snapOf (upStats 20 18 900 800))).total_pkts_bwd ≠ 0 ∧
    (flowRow .nr (afterPair .nr) (buildCurrent vanishPoll) upKey
      (snapOf (upStats 20 18 900 800))).total_bytes_bwd ≠ 0 := by
  decide

/-- C6, amended: for every row, with `cF, cB` the current and `pF, pB` the previous snapshots of
the row's key and of its reverse key (an absent snapshot counting as zero),
`total_pkts_fwd + total_pkts_bwd` is congruent modulo `2^64` to
`(cF.tx - pF.tx) + (cF.rx - pF.rx) + (cB.tx - pB.tx) + (cB.rx - pB.rx)`, and is equal to it when
no packet counter is below its previous value and the forward and the backward sum of deltas
are each below `2^64`; the same holds for the byte counters. -/
theorem C6_conservation (gen : Generator) (s : State) (stats : Poll) (k : FlowKey)
    (v : FlowSnapshot) (hk : (k, v) ∈ buildCurrent stats) :
    flowRow gen s (buildCurrent stats) k v ∈ tickRows gen s stats ∧
    ((((flowRow gen s (buildCurrent stats) k v).total_pkts_fwd
        + (flowRow gen s (buildCurrent stats) k v).total_pkts_bwd : Nat) : ℤ) % 2 ^ 64
      = (((v.txPackets : ℤ) - (lookupOrZero s.g_prev k).txPackets)
          + ((v.rxPackets : ℤ) - (lookupOrZero s.g_prev k).rxPackets)
          + (((lookupOrZero (buildCurrent stats) (revKey k)).txPackets : ℤ)
              - (lookupOrZero s.g_prev (revKey k)).txPackets)
          + (((lookupOrZero (buildCurrent stats) (revKey k)).rxPackets : ℤ)
              - (lookupOrZero s.g_prev (revKey k)).rxPackets)) % 2 ^ 64) ∧
    ((((flowRow gen s (buildCurrent stats) k v).total_bytes_fwd
        + (flowRow gen s (buildCurrent stats) k v).total_bytes_bwd : Nat) : ℤ) % 2 ^ 64
      = (((v.txBytes : ℤ) - (lookupOrZero s.g_prev k).txBytes)
          + ((v.rxBytes : ℤ) - (lookupOrZero s.g_prev k).rxBytes)
          + (((lookupOrZero (buildCurrent stats) (revKey k)).txBytes : ℤ)
              - (lookupOrZero s.g_prev (revKey k)).txBytes)
          + (((lookupOrZero (buildCurrent stats) (revKey k)).rxBytes : ℤ)
              - (lookupOrZero s.g_prev (revKey k)).rxBytes)) % 2 ^ 64) ∧
    ((lookupOrZero s.g_prev k).txPackets ≤ v.txPackets →
      (lookupOrZero s.g_prev k).rxPackets ≤ v.rxPackets →
      (lookupOrZero s.g_prev (revKey k)).txPackets
        ≤ (lookupOrZero (buildCurrent stats) (revKey k)).txPackets →
      (lookupOrZero s.g_prev (revKey k)).rxPackets
        ≤ (lookupOrZero (buildCurrent stats) (revKey k)).rxPackets →
      (v.txPackets - (lookupOrZero s.g_prev k).txPackets)
        + (v.rxPackets - (lookupOrZero s.g_prev k).rxPackets) < 2 ^ 64 →
      ((lookupOrZero (buildCurrent stats) (revKey k)).txPackets
          - (lookupOrZero s.g_prev (revKey k)).txPackets)
        + ((lookupOrZero (buildCurrent stats) (revKey k)).rxPackets
          - (lookupOrZero s.g_prev (revKey k)).rxPackets) < 2 ^ 64 →
      (((flowRow gen s (buildCurrent stats) k v).total_pkts_fwd
        + (flowRow gen s (buildCurrent stats) k v).total_pkts_bwd : Nat) : ℤ)
      = ((v.txPackets : ℤ) - (lookupOrZero s.g_prev k).txPackets)
          + ((v.rxPackets : ℤ) - (lookupOrZero s.g_prev k).rxPackets)
          + (((lookupOrZero (buildCurrent stats) (revKey k)).txPackets : ℤ)
              - (lookupOrZero s.g_prev (revKey k)).txPackets)
          + (((lookupOrZero (buildCurrent stats) (revKey k)).rxPackets : ℤ)
              - (lookupOrZero s.g_prev (revKey k)).rxPackets)) ∧
    ((lookupOrZero s.g_prev k).txBytes ≤ v.txBytes →
      (lookupOrZero s.g_prev k).rxBytes ≤ v.rxBytes →
      (lookupOrZero s.g_prev (revKey k)).txBytes
        ≤ (lookupOrZero (buildCurrent stats) (revKey k)).txBytes →
      (lookupOrZero s.g_prev (revKey k)).rxBytes
        ≤ (lookupOrZero (buildCurrent stats) (revKey k)).rxBytes →
      (v.txBytes - (lookupOrZero s.g_prev k).txBytes)
        + (v.rxBytes - (lookupOrZero s.g_prev k).rxBytes) < 2 ^ 64 →
      ((lookupOrZero (buildCurrent stats) (revKey k)).txBytes
          - (lookupOrZero s.g_prev (revKey k)).txBytes)
        + ((lookupOrZero (buildCurrent stats) (revKey k)).rxBytes
          - (lookupOrZero s.g_prev (revKey k)).rxBytes) < 2 ^ 64 →
      (((flowRow gen s (buildCurrent stats) k v).total_bytes_fwd
        + (flowRow gen s (buildCurrent stats) k v).total_bytes_bwd : Nat) : ℤ)
      = ((v.txBytes : ℤ) - (lookupOrZero s.g_prev k).txBytes)
          + ((v.rxBytes : ℤ) - (lookupOrZero s.g_prev k).rxBytes)
          + (((lookupOrZero (buildCurrent stats) (revKey k)).txBytes : ℤ)
              - (lookupOrZero s.g_prev (revKey k)).txBytes)
          + (((lookupOrZero (buildCurrent stats) (revKey k)).rxBytes : ℤ)
              - (lookupOrZero s.g_prev (revKey k)).rxBytes)) := by
  obtain ⟨w1, w2, w3, w4, _⟩ := wf_buildCurrent stats (k, v) hk
  obtain ⟨b1, b2, b3, b4, _⟩ := lookupOrZero_buildCurrent_WF stats (revKey k)
  refine ⟨mem_tickRows.2 ⟨k, v, hk, rfl⟩, ?_, ?_, ?_, ?_⟩
  · exact total_modEq _ _ _ _ _ _ _ _
  · exact total_modEq _ _ _ _ _ _ _ _
  · intro h1 h2 h3 h4 hf hg
    exact total_exact _ _ _ _ _ _ _ _ w1 w2 b1 b2 h1 h2 h3 h4 hf hg
  · intro h1 h2 h3 h4 hf hg
    exact total_exact _ _ _ _ _ _ _ _ w3 w4 b3 b4 h1 h2 h3 h4 hf hg

/-- C6 at a concrete input: in the pair scenario every counter grows between the two polls, and
the client-to-server row of the second tick reports `4 + 2` packets, the sum of the four
packet deltas. -/
theorem C6_conservation_witness :
    (upKey, snapOf (upStats 12 10 600 500)) ∈ buildCurrent pairPoll2 ∧
    (((flowRow .nr (afterPair .nr) (buildCurrent pairPoll2) upKey
          (snapOf (upStats 12 10 600 500))).total_pkts_fwd
        + (flowRow .nr (afterPair .nr) (buildCurrent pairPoll2) upKey
          (snapOf (upStats 12 10 600 500))).total_pkts_bwd : Nat) : ℤ)
      = (((snapOf (upStats 12 10 600 500)).txPackets : ℤ)
            - (lookupOrZero (afterPair .nr).g_prev upKey).txPackets)
          + (((snapOf (upStats 12 10 600 500)).rxPackets : ℤ)
            - (lookupOrZero (afterPair .nr).g_prev upKey).rxPackets)
          + (((lookupOrZero (buildCurrent pairPoll2) (revKey upKey)).txPackets : ℤ)
              - (lookupOrZero (afterPair .nr).g_prev (revKey upKey)).txPackets)
          + (((lookupOrZero (buildCurrent pairPoll2) (revKey upKey)).rxPackets : ℤ)
              - (lookupOrZero (afterPair .nr).g_prev (revKey upKey)).rxPackets) :=
  ⟨by decide,
    (C6_conservation .nr (afterPair .nr) pairPoll2 upKey (snapOf (upStats 12 10 600 500))
      (by decide)).2.2.2.1 (by decide) (by decide) (by decide) (by decide) (by decide)
      (by decide)⟩

/-- C6 as stated fails: after a tick that registered both directions, a poll without the
server-to-client flow gives the client-to-server row `total_pkts_fwd = 20` and
`total_pkts_bwd = 2^64 - 6`, whose sum is not `(20 - 10) + (18 - 8) + (0 - 3) + (0 - 3)`. -/
theorem C6_counterexample :
    (upKey, snapOf (upStats 20 18 900 800)) ∈ buildCurrent vanishPoll ∧
    lookupOrZero (afterPair .nr).g_prev upKey = snapOf (upStats 10 8 500 400) ∧
    lookupOrZero (buildCurrent vanishPoll) (revKey upKey) = {} ∧
    lookupOrZero (afterPair .nr).g_prev (revKey upKey) = snapOf (downStats 3 3 100 100) ∧
    (flowRow .nr (afterPair .nr) (buildCurrent vanishPoll) upKey
      (snapOf (upStats 20 18 900 800))).total_pkts_fwd = 20 ∧
    (flowRow .nr (afterPair .nr) (buildCurrent vanishPoll) upKey
      (snapOf (upStats 20 18 900 800))).total_pkts_bwd = 18446744073709551610 ∧
    (((flowRow .nr (afterPair .nr) (buildCurrent vanishPoll) upKey
          (snapOf (upStats 20 18 900 800))).total_pkts_fwd
        + (flowRow .nr (afterPair .nr) (buildCurrent vanishPoll) upKey
          (snapOf (upStats 20 18 900 800))).total_pkts_bwd : Nat) : ℤ)
      ≠ ((20 : ℤ) - 10) + ((18 : ℤ) - 8) + ((0 : ℤ) - 3) + ((0 : ℤ) - 3) := by
  decide

/-- C7, amended: for every row and window size `W > 0`,
`pkts_per_sec = ((total_pkts_fwd + total_pkts_bwd) mod 2^64) / W` and
`bytes_per_sec = ((total_bytes_fwd + total_bytes_bwd) mod 2^64) / W` (the sums are 64-bit sums;
they are the plain sums of the two columns whenever these are below `2^64`), and the flow rates
use the forward direction only: `flow_pkts_per_sec = total_pkts_fwd / W` and
`flow_bytes_per_sec = total_bytes_fwd / W`. With `W = 1`, 120 forward and 80 backward packets,
`pkts_per_sec = 200` and `flow_pkts_per_sec = 120`. -/
theorem C7_rate_formulas (gen : Generator) (s : State) (stats : Poll) (r : Row)
    (hr : r ∈ tickRows gen s stats) (hW : 0 < s.g_windowSize) :
    r.flow_duration = s.g_windowSize ∧
    r.pkts_per_sec
      = (((r.total_pkts_fwd + r.total_pkts_bwd) % 2 ^ 64 : Nat) : ℚ) / s.g_windowSize ∧
    r.bytes_per_sec
      = (((r.total_bytes_fwd + r.total_bytes_bwd) % 2 ^ 64 : Nat) : ℚ) / s.g_windowSize ∧
    r.flow_pkts_per_sec = (r.total_pkts_fwd : ℚ) / s.g_windowSize ∧
    r.flow_bytes_per_sec = (r.total_bytes_fwd : ℚ) / s.g_windowSize ∧
    (r.total_pkts_fwd + r.total_pkts_bwd < 2 ^ 64 →
      r.pkts_per_sec = ((r.total_pkts_fwd : ℚ) + (r.total_pkts_bwd : ℚ)) / s.g_windowSize) ∧
    (r.total_bytes_fwd + r.total_bytes_bwd < 2 ^ 64 →
      r.bytes_per_sec
        = ((r.total_bytes_fwd : ℚ) + (r.total_bytes_bwd : ℚ)) / s.g_windowSize) ∧
    (s.g_windowSize = 1 → r.total_pkts_fwd = 120 → r.total_pkts_bwd = 80 →
      r.pkts_per_sec = 200 ∧ r.flow_pkts_per_sec = 120) := by
  obtain ⟨k, v, _, rfl⟩ := mem_tickRows.1 hr
  have _hpos := hW
  refine ⟨rfl, rfl, rfl, rfl, rfl, ?_, ?_, ?_⟩
  · intro h
    rw [flowRow_pkts_per_sec, Nat.mod_eq_of_lt h, Nat.cast_add]
  · intro h
    rw [flowRow_bytes_per_sec, Nat.mod_eq_of_lt h, Nat.cast_add]
  · intro h1 hf hb
    rw [flowRow_pkts_per_sec, flowRow_flow_pkts_per_sec, hf, hb, h1]
    norm_num

/-- C7 at a concrete input: at the first tick of a default run (`W = 1`) on `ratePoll`, the
client-to-server row counts 120 forward and 80 backward packets, and its rates are 200 and
120. -/
theorem C7_rate_formulas_witness :
    (flowRow .nr (mainInit {}) (buildCurrent ratePoll) upKey
        (snapOf (upStats 100 20 60000 12000)) ∈ tickRows .nr (mainInit {}) ratePoll ∧
      (0 : ℚ) < (mainInit {}).g_windowSize ∧ (mainInit {}).g_windowSize = 1 ∧
      (flowRow .nr (mainInit {}) (buildCurrent ratePoll) upKey
        (snapOf (upStats 100 20 60000 12000))).total_pkts_fwd = 120 ∧
      (flowRow .nr (mainInit {}) (buildCurrent ratePoll) upKey
        (snapOf (upStats 100 20 60000 12000))).total_pkts_bwd = 80) ∧
    (flowRow .nr (mainInit {}) (buildCurrent ratePoll) upKey
      (snapOf (upStats 100 20 60000 12000))).pkts_per_sec = 200 ∧
    (flowRow .nr (mainInit {}) (buildCurrent ratePoll) upKey
      (snapOf (upStats 100 20 60000 12000))).flow_pkts_per_sec = 120 :=
  have hmem : flowRow .nr (mainInit {}) (buildCurrent ratePoll) upKey
      (snapOf (upStats 100 20 60000 12000)) ∈ tickRows .nr (mainInit {}) ratePoll :=
    mem_tickRows.2 ⟨upKey, _, by decide, rfl⟩
  have hW : (0 : ℚ) < (mainInit {}).g_windowSize := by
    show (0 : ℚ) < 1
    exact one_pos
  ⟨⟨hmem, hW, rfl, by decide, by decide⟩,
    (C7_rate_formulas .nr (mainInit {}) ratePoll _ hmem hW).2.2.2.2.2.2.2 rfl (by decide)
      (by decide)⟩

/-- C7 as stated fails: after a tick that registered both directions, a poll without the
server-to-client flow gives the client-to-server row `total_pkts_fwd = 20`,
`total_pkts_bwd = 2^64 - 6` and `pkts_per_sec = 14` with `W = 1`, which is not
`(total_pkts_fwd + total_pkts_bwd) / W`. -/
theorem C7_counterexample :
    flowRow .nr (afterPair .nr) (buildCurrent vanishPoll) upKey
      (snapOf (upStats 20 18 900 800)) ∈ tickRows .nr (afterPair .nr) vanishPoll ∧
    (afterPair .nr).g_windowSize = 1 ∧
    (flowRow .nr (afterPair .nr) (buildCurrent vanishPoll) upKey
      (snapOf (upStats 20 18 900 800))).total_pkts_fwd = 20 ∧
    (flowRow .nr (afterPair .nr) (buildCurrent vanishPoll) upKey
      (snapOf (upStats 20 18 900 800))).total_pkts_bwd = 18446744073709551610 ∧
    (flowRow .nr (afterPair .nr) (buildCurrent vanishPoll) upKey
      (snapOf (upStats 20 18 900 800))).pkts_per_sec = 14 ∧
    (flowRow .nr (afterPair .nr) (buildCurrent vanishPoll) upKey
      (snapOf (upStats 20 18 900 800))).pkts_per_sec
      ≠ (((flowRow .nr (afterPair .nr) (buildCurrent vanishPoll) upKey
            (snapOf (upStats 20 18 900 800))).total_pkts_fwd : ℚ)
          + ((flowRow .nr (afterPair .nr) (buildCurrent vanishPoll) upKey
            (snapOf (upStats 20 18 900 800))).total_pkts_bwd : ℚ))
        / (afterPair .nr).g_windowSize := by
  have hf : (flowRow .nr (afterPair .nr) (buildCurrent vanishPoll) upKey
      (snapOf (upStats 20 18 900 800))).total_pkts_fwd = 20 := by decide
  have hb : (flowRow .nr (afterPair .nr) (buildCurrent vanishPoll) upKey
      (snapOf (upStats 20 18 900 800))).total_pkts_bwd = 18446744073709551610 := by decide
  have hW : (afterPair .nr).g_windowSize = 1 := rfl
  have hp : (flowRow .nr (afterPair .nr) (buildCurrent vanishPoll) upKey
      (snapOf (upStats 20 18 900 800))).pkts_per_sec = 14 := by
    rw [flowRow_pkts_per_sec, hf, hb, hW]; norm_num
  refine ⟨mem_tickRows.2 ⟨upKey, _, by decide, rfl⟩, hW, hf, hb, hp, ?_⟩
  rw [hp, hf, hb, hW]; norm_num

/-- C8, the code at the failing input: in a default run of the simple generator (25 nodes,
attacks enabled, `W = 1`) the attacker set is `{20, .., 24}`. Node 19 is not in it; its flow of
5000 forward packets in the first window has `flow_pkts_per_sec = 5000`, not above the
threshold, and is written with `label_binary = 1` where the claim says 0, because the lowest
octet of its address 10.1.1.20 is 20 (the defect of C9). The nr generator writes the same flow
with `label_binary = 0`, and so does the simple generator for the same flow sent by node 1. -/
theorem C8_benign_source_at_threshold :
    (mainInit {}).g_attackers = [20, 21, 22, 23, 24] ∧
    19 ∉ (mainInit {}).g_attackers ∧
    (nodeAddress 19 &&& 0xFF = 20 ∧ 20 ∈ (mainInit {}).g_attackers) ∧
    ((tickRows .simple (mainInit {}) [boundaryStats 19]).map Row.src_ip = [nodeAddress 19] ∧
      (tickRows .simple (mainInit {}) [boundaryStats 19]).map Row.total_pkts_fwd = [5000] ∧
      (tickRows .simple (mainInit {}) [boundaryStats 19]).map Row.flow_pkts_per_sec = [5000] ∧
      (tickRows .simple (mainInit {}) [boundaryStats 19]).map Row.label_binary = [1]) ∧
    ((tickRows .nr (mainInit {}) [boundaryStats 19]).map Row.flow_pkts_per_sec = [5000] ∧
      (tickRows .nr (mainInit {}) [boundaryStats 19]).map Row.label_binary = [0]) ∧
    (1 ∉ (mainInit {}).g_attackers ∧
      (tickRows .simple (mainInit {}) [boundaryStats 1]).map Row.src_ip = [nodeAddress 1] ∧
      (tickRows .simple (mainInit {}) [boundaryStats 1]).map Row.flow_pkts_per_sec = [5000] ∧
      (tickRows .simple (mainInit {}) [boundaryStats 1]).map Row.label_binary = [0]) := by
  have hrows : ∀ gen i, tickRows gen (mainInit {}) [boundaryStats i]
      = [flowRow gen (mainInit {}) (buildCurrent [boundaryStats i]) (keyOf (boundaryStats i))
          (snapOf (boundaryStats i))] := fun _ _ => rfl
  have hmem : ∀ gen i, flowRow gen (mainInit {}) (buildCurrent [boundaryStats i])
      (keyOf (boundaryStats i)) (snapOf (boundaryStats i))
        ∈ tickRows gen (mainInit {}) [boundaryStats i] := by
    intro gen i
    rw [hrows]
    exact List.mem_singleton.2 rfl
  have hW : (mainInit {}).g_windowSize = 1 := rfl
  have htot : ∀ gen i, (flowRow gen (mainInit {}) (buildCurrent [boundaryStats i])
      (keyOf (boundaryStats i)) (snapOf (boundaryStats i))).total_pkts_fwd = 5000 := by
    intro gen i
    rw [flowRow_total_pkts_fwd]
    show (sub64 (2500 % U64) 0 + sub64 (2500 % U64) 0) % 2 ^ 64 = 5000
    decide
  have hrate : ∀ gen i, (flowRow gen (mainInit {}) (buildCurrent [boundaryStats i])
      (keyOf (boundaryStats i)) (snapOf (boundaryStats i))).flow_pkts_per_sec = 5000 := by
    intro gen i
    rw [flowRow_flow_pkts_per_sec, htot, hW]; norm_num
  have hzero : ∀ gen i, (gen = .simple → (nodeAddress i &&& 0xFF) ∉ (mainInit {}).g_attackers) →
      (flowRow gen (mainInit {}) (buildCurrent [boundaryStats i])
        (keyOf (boundaryStats i)) (snapOf (boundaryStats i))).label_binary = 0 := by
    intro gen i hsrc
    exact ((label_threshold_of_octet_test gen (mainInit {}) [boundaryStats i] _ (hmem gen i)
      hsrc).2.1).2 (le_of_eq (hrate gen i))
  have hone : (flowRow .simple (mainInit {}) (buildCurrent [boundaryStats 19])
      (keyOf (boundaryStats 19)) (snapOf (boundaryStats 19))).label_binary = 1 := by
    rw [flowRow_label_binary, attackBinary_simple _ _ _ (by rw [hrate]),
      if_pos (by decide)]
  refine ⟨by decide, by decide, ⟨by decide, by decide⟩, ⟨by decide, ?_, ?_, ?_⟩, ⟨?_, ?_⟩,
    ⟨by decide, by decide, ?_, ?_⟩⟩
  · rw [hrows, List.map_cons, htot]; rfl
  · rw [hrows, List.map_cons, hrate]; rfl
  · rw [hrows, List.map_cons, hone]; rfl
  · rw [hrows, List.map_cons, hrate]; rfl
  · rw [hrows, List.map_cons, hzero .nr 19 (fun h => Generator.noConfusion h)]; rfl
  · rw [hrows, List.map_cons, hrate]; rfl
  · rw [hrows, List.map_cons, hzero .simple 1 (fun _ => by decide)]; rfl

/-- C9, the code at the failing input: in a default run of the simple generator (25 nodes,
attacks enabled) the attacker set is `{20, .., 24}` and the lowest octet of the address of node
`i` is `i + 1`. The flow of the attacker on node 24 (10.1.1.25), at 20 packets per second, is
written with `label_binary = 0`, and the flow of the benign node 19 (10.1.1.20), at the same
rate, is written with `label_binary = 1`. -/
theorem C9_node_id_off_by_one :
    (mainInit {}).g_attackers = [20, 21, 22, 23, 24] ∧
    (∀ i, i < 255 → nodeAddress i &&& 0xFF = i + 1) ∧
    (24 ∈ (mainInit {}).g_attackers ∧
      (tickRows .simple (mainInit {}) [nodeStats 24]).map Row.src_ip = [nodeAddress 24] ∧
      (tickRows .simple (mainInit {}) [nodeStats 24]).map Row.flow_pkts_per_sec = [20] ∧
      (tickRows .simple (mainInit {}) [nodeStats 24]).map Row.label_binary = [0]) ∧
    (19 ∉ (mainInit {}).g_attackers ∧
      (tickRows .simple (mainInit {}) [nodeStats 19]).map Row.src_ip = [nodeAddress 19] ∧
      (tickRows .simple (mainInit {}) [nodeStats 19]).map Row.flow_pkts_per_sec = [20] ∧
      (tickRows .simple (mainInit {}) [nodeStats 19]).map Row.label_binary = [1]) := by
  have hrows : ∀ i, tickRows .simple (mainInit {}) [nodeStats i]
      = [flowRow .simple (mainInit {}) (buildCurrent [nodeStats i]) (keyOf (nodeStats i))
          (snapOf (nodeStats i))] := fun _ => rfl
  have hW : (mainInit {}).g_windowSize = 1 := rfl
  have hrate : ∀ i, (flowRow .simple (mainInit {}) (buildCurrent [nodeStats i])
      (keyOf (nodeStats i)) (snapOf (nodeStats i))).flow_pkts_per_sec = 20 := by
    intro i
    have ht : (flowRow .simple (mainInit {}) (buildCurrent [nodeStats i])
        (keyOf (nodeStats i)) (snapOf (nodeStats i))).total_pkts_fwd = 20 := by
      rw [flowRow_total_pkts_fwd]
      show (sub64 (10 % U64) 0 + sub64 (10 % U64) 0) % 2 ^ 64 = 20
      decide
    rw [flowRow_flow_pkts_per_sec, ht, hW]; norm_num
  have hlabel : ∀ i, (flowRow .simple (mainInit {}) (buildCurrent [nodeStats i])
      (keyOf (nodeStats i)) (snapOf (nodeStats i))).label_binary
        = if (nodeAddress i &&& 0xFF) ∈ (mainInit {}).g_attackers then 1 else 0 := by
    intro i
    rw [flowRow_label_binary, attackBinary_simple _ _ _ (by rw [hrate i]; norm_num)]
    by_cases h : (nodeAddress i &&& 0xFF) ∈ (mainInit {}).g_attackers
    · rw [if_pos h]; simp only [decide_eq_true_eq]; exact if_pos h
    · rw [if_neg h]; simp only [decide_eq_true_eq]; exact if_neg h
  refine ⟨by decide, nodeAddress_low_octet, ⟨by decide, by decide, ?_, ?_⟩,
    ⟨by decide, by decide, ?_, ?_⟩⟩
  · rw [hrows, List.map_cons, hrate]; rfl
  · rw [hrows, List.map_cons, hlabel]; decide
  · rw [hrows, List.map_cons, hrate]; rfl
  · rw [hrows, List.map_cons, hlabel]; decide

/-- C10, amended: every row flagged as an attack has `label_intensity = 3`, in particular every
row of the simple generator whose source is in the attacker set, whatever the measured rate and
whatever the configured attacker interval: runs that differ only in that interval write the
same rows. `IntensityToLabel` maps an interval to 3 if it is at most 200 microseconds, to 2 if
it is at most 500 microseconds and to 1 otherwise, but `SampleAndWrite` does not apply it. -/
theorem C10_intensity_of_attacker_rows (gen : Generator) (cfg : Config) (polls : List Poll)
    (stats : Poll) (t : Time) (r : Row)
    (hr : r ∈ tickRows gen (run gen cfg polls) stats) :
    (gen = .simple → (r.src_ip &&& 0xFF) ∈ (run gen cfg polls).g_attackers →
      r.label_binary = 1 ∧ r.label_intensity = 3) ∧
    (r.label_binary = 1 → r.label_intensity = 3) ∧
    tickRows gen (run gen { cfg with attackInterval := t } polls) stats
      = tickRows gen (run gen cfg polls) stats ∧
    (t.GetSeconds * 1000000 ≤ 200 → IntensityToLabel t = 3) ∧
    (200 < t.GetSeconds * 1000000 → t.GetSeconds * 1000000 ≤ 500 → IntensityToLabel t = 2) ∧
    (500 < t.GetSeconds * 1000000 → IntensityToLabel t = 1) := by
  obtain ⟨k, v, _, rfl⟩ := mem_tickRows.1 hr
  have hint : ∀ s : State, (flowRow gen s (buildCurrent stats) k v).label_binary = 1 →
      (flowRow gen s (buildCurrent stats) k v).label_intensity = 3 :=
    fun s => label_intensity_of_label_binary gen s _ k v
  refine ⟨?_, hint _, by rw [run_attackInterval], ?_, ?_, ?_⟩
  · intro hgen hatt
    have hb : (flowRow gen (run gen cfg polls) (buildCurrent stats) k v).label_binary = 1 := by
      subst hgen
      have hk : (k.src &&& 0xFF) ∈ (run Generator.simple cfg polls).g_attackers := hatt
      rw [flowRow_label_binary]
      simp [attackBinary, hk]
    exact ⟨hb, hint _ hb⟩
  · intro h; simp [IntensityToLabel, h]
  · intro h1 h2; simp [IntensityToLabel, not_le.2 h1, h2]
  · intro h
    have h1 : ¬ t.GetSeconds * 1000000 ≤ 200 := not_le.2 (lt_trans (by norm_num) h)
    simp [IntensityToLabel, not_le.2 h, h1]

/-- C10 at a concrete input: with attackers configured at one packet per millisecond (class 1),
the row of a flow whose source has lowest octet 21, an attacker id, is flagged and has
intensity 3. -/
theorem C10_intensity_of_attacker_rows_witness :
    (flowRow .simple (run .simple slowAttackCfg []) (buildCurrent [nodeStats 20])
        (keyOf (nodeStats 20)) (snapOf (nodeStats 20))
          ∈ tickRows .simple (run .simple slowAttackCfg []) [nodeStats 20] ∧
      ((keyOf (nodeStats 20)).src &&& 0xFF) ∈ (run .simple slowAttackCfg []).g_attackers) ∧
    (flowRow .simple (run .simple slowAttackCfg []) (buildCurrent [nodeStats 20])
      (keyOf (nodeStats 20)) (snapOf (nodeStats 20))).label_binary = 1 ∧
    (flowRow .simple (run .simple slowAttackCfg []) (buildCurrent [nodeStats 20])
      (keyOf (nodeStats 20)) (snapOf (nodeStats 20))).label_intensity = 3 :=
  have hmem : flowRow .simple (run .simple slowAttackCfg []) (buildCurrent [nodeStats 20])
      (keyOf (nodeStats 20)) (snapOf (nodeStats 20))
        ∈ tickRows .simple (run .simple slowAttackCfg []) [nodeStats 20] :=
    mem_tickRows.2 ⟨_, _, by decide, rfl⟩
  have hatt : ((keyOf (nodeStats 20)).src &&& 0xFF)
      ∈ (run .simple slowAttackCfg []).g_attackers := by decide
  ⟨⟨hmem, hatt⟩,
    (C10_intensity_of_attacker_rows .simple slowAttackCfg [] [nodeStats 20]
      slowAttackCfg.attackInterval _ hmem).1 rfl hatt⟩

/-- C10 as stated fails: with attackers configured at one packet per millisecond the class of
the interval is 1, and the row of a flow whose source is in the attacker set (lowest octet 21),
flagged for that reason at 20 packets per second, has `label_intensity = 3`. -/
theorem C10_counterexample :
    IntensityToLabel slowAttackCfg.attackInterval = 1 ∧
    ((keyOf (nodeStats 20)).src &&& 0xFF) ∈ (run .simple slowAttackCfg []).g_attackers ∧
    (tickRows .simple (run .simple slowAttackCfg []) [nodeStats 20]).map Row.flow_pkts_per_sec
      = [20] ∧
    (tickRows .simple (run .simple slowAttackCfg []) [nodeStats 20]).map Row.label_binary
      = [1] ∧
    (tickRows .simple (run .simple slowAttackCfg []) [nodeStats 20]).map Row.label_intensity
      = [3] ∧
    (tickRows .simple (run .simple slowAttackCfg []) [nodeStats 20]).map Row.label_intensity
      ≠ [IntensityToLabel slowAttackCfg.attackInterval] := by
  have hI : IntensityToLabel slowAttackCfg.attackInterval = 1 := by
    simp [IntensityToLabel, Time.GetSeconds, slowAttackCfg]
    norm_num
  have hrows : tickRows .simple (run .simple slowAttackCfg []) [nodeStats 20]
      = [flowRow .simple (run .simple slowAttackCfg []) (buildCurrent [nodeStats 20])
          (keyOf (nodeStats 20)) (snapOf (nodeStats 20))] := rfl
  have hatt : ((keyOf (nodeStats 20)).src &&& 0xFF)
      ∈ (run .simple slowAttackCfg []).g_attackers := by decide
  have ht : (flowRow .simple (run .simple slowAttackCfg []) (buildCurrent [nodeStats 20])
      (keyOf (nodeStats 20)) (snapOf (nodeStats 20))).total_pkts_fwd = 20 := by decide
  have hW : (run .simple slowAttackCfg []).g_windowSize = 1 := rfl
  have hrate : (flowRow .simple (run .simple slowAttackCfg []) (buildCurrent [nodeStats 20])
      (keyOf (nodeStats 20)) (snapOf (nodeStats 20))).flow_pkts_per_sec = 20 := by
    rw [flowRow_flow_pkts_per_sec, ht, hW]; norm_num
  have hb : (flowRow .simple (run .simple slowAttackCfg []) (buildCurrent [nodeStats 20])
      (keyOf (nodeStats 20)) (snapOf (nodeStats 20))).label_binary = 1 := by
    rw [flowRow_label_binary]
    simp [attackBinary, hatt]
  have hi := label_intensity_of_label_binary _ _ _ _ _ hb
  refine ⟨hI, hatt, ?_, ?_, ?_, ?_⟩
  · rw [hrows, List.map_cons, hrate]; rfl
  · rw [hrows, List.map_cons, hb]; rfl
  · rw [hrows, List.map_cons, hi]; rfl
  · rw [hrows, List.map_cons, hi, hI]; decide

/-- C11: for every emitted row, `label_intensity = 0` if and only if `label_binary = 0` (and
the labels are `0, 0` or `1, 3`); a row whose rate `flow_pkts_per_sec` exceeds 5000 is flagged
with `label_intensity = 3` whatever the rate is, also when its source is not in the attacker
set. -/
theorem C11_intensity_zero_and_rate_rule (gen : Generator) (s : State) (stats : Poll) (r : Row)
    (hr : r ∈ tickRows gen s stats) :
    (r.label_intensity = 0 ↔ r.label_binary = 0) ∧
    ((r.label_binary = 0 ∧ r.label_intensity = 0) ∨
      (r.label_binary = 1 ∧ r.label_intensity = 3)) ∧
    (r.flow_pkts_per_sec > 5000 → r.label_binary = 1 ∧ r.label_intensity = 3) ∧
    ((gen = .simple → (r.src_ip &&& 0xFF) ∉ s.g_attackers) →
      (r.label_intensity = 3 ↔ r.flow_pkts_per_sec > 5000)) := by
  obtain ⟨k, v, _, rfl⟩ := mem_tickRows.1 hr
  rw [flowRow_label_binary, flowRow_label_intensity]
  by_cases hb : attackBinary gen s.g_attackers k
      (flowRow gen s (buildCurrent stats) k v).flow_pkts_per_sec = true
  · rw [if_pos hb, if_pos hb]
    refine ⟨by decide, Or.inr ⟨rfl, rfl⟩, fun _ => ⟨rfl, rfl⟩, ?_⟩
    intro hsrc
    have hiff := attackBinary_of_not_attacker gen s.g_attackers k
      (flowRow gen s (buildCurrent stats) k v).flow_pkts_per_sec hsrc
    exact ⟨fun _ => hiff.1 hb, fun _ => rfl⟩
  · rw [if_neg hb, if_neg hb]
    have hrate : ¬ (flowRow gen s (buildCurrent stats) k v).flow_pkts_per_sec > 5000 := by
      intro h
      apply hb
      cases gen with
      | nr => simp [attackBinary, h]
      | simple => simp [attackBinary, h]
    refine ⟨by decide, Or.inl ⟨rfl, rfl⟩, fun h => absurd h hrate, ?_⟩
    intro _
    exact ⟨fun h => absurd h (by decide), fun h => absurd h hrate⟩

/-- C11 at a concrete input: with the simple generator, the client on node 1 (lowest octet 2,
not an attacker id) that sends 6000 packets in a window of one second is flagged by the rate
alone, with intensity 3. -/
theorem C11_intensity_zero_and_rate_rule_witness :
    (flowRow .simple (mainInit {}) (buildCurrent fastPoll) upKey
        (snapOf (upStats 6000 0 3072000 0)) ∈ tickRows .simple (mainInit {}) fastPoll ∧
      (upKey.src &&& 0xFF) ∉ (mainInit {}).g_attackers ∧
      (flowRow .simple (mainInit {}) (buildCurrent fastPoll) upKey
        (snapOf (upStats 6000 0 3072000 0))).flow_pkts_per_sec > 5000) ∧
    (flowRow .simple (mainInit {}) (buildCurrent fastPoll) upKey
      (snapOf (upStats 6000 0 3072000 0))).label_binary = 1 ∧
    (flowRow .simple (mainInit {}) (buildCurrent fastPoll) upKey
      (snapOf (upStats 6000 0 3072000 0))).label_intensity = 3 :=
  have hmem : flowRow .simple (mainInit {}) (buildCurrent fastPoll) upKey
      (snapOf (upStats 6000 0 3072000 0)) ∈ tickRows .simple (mainInit {}) fastPoll :=
    mem_tickRows.2 ⟨upKey, _, by decide, rfl⟩
  have ht : (flowRow .simple (mainInit {}) (buildCurrent fastPoll) upKey
      (snapOf (upStats 6000 0 3072000 0))).total_pkts_fwd = 6000 := by decide
  have hW : (mainInit {}).g_windowSize = 1 := rfl
  have hrate : (flowRow .simple (mainInit {}) (buildCurrent fastPoll) upKey
      (snapOf (upStats 6000 0 3072000 0))).flow_pkts_per_sec > 5000 := by
    rw [flowRow_flow_pkts_per_sec, ht, hW]; norm_num
  ⟨⟨hmem, by decide, hrate⟩,
    (C11_intensity_zero_and_rate_rule .simple (mainInit {}) fastPoll _ hmem).2.2.1 hrate⟩

/-- C12, amended: for every row, with `dRxAll = (dRx(fwd) + dRx(bwd)) mod 2^64`, the 64-bit sum
of the two 64-bit receive deltas, and `dDelay = (fwd.delaySum_cur + bwd.delaySum_cur) -
(fwd.delaySum_prev + bwd.delaySum_prev)` (an absent snapshot counting as zero),
`delay_ms = 1000 * dDelay / dRxAll` if `dRxAll > 0` and `delay_ms = 0` otherwise, and
`jitter_ms` is the same with the jitter sums. `dRxAll` is the plain sum of the differences
current - previous of the two receive counters when neither is below its previous value and the
sum is below `2^64`. -/
theorem C12_delay_jitter (gen : Generator) (s : State) (stats : Poll) (k : FlowKey)
    (v : FlowSnapshot) (hk : (k, v) ∈ buildCurrent stats) :
    flowRow gen s (buildCurrent stats) k v ∈ tickRows gen s stats ∧
    (flowRow gen s (buildCurrent stats) k v).delay_ms
      = (if ((flowDeltas s.g_prev (buildCurrent stats) k v).dRxPktsF
            + (flowDeltas s.g_prev (buildCurrent stats) k v).dRxPktsB) % 2 ^ 64 > 0 then
          1000 * ((v.delaySum + (lookupOrZero (buildCurrent stats) (revKey k)).delaySum)
              - ((lookupOrZero s.g_prev k).delaySum
                + (lookupOrZero s.g_prev (revKey k)).delaySum))
            / ((((flowDeltas s.g_prev (buildCurrent stats) k v).dRxPktsF
                + (flowDeltas s.g_prev (buildCurrent stats) k v).dRxPktsB) % 2 ^ 64 : Nat) : ℚ)
        else 0) ∧
    (flowRow gen s (buildCurrent stats) k v).jitter_ms
      = (if ((flowDeltas s.g_prev (buildCurrent stats) k v).dRxPktsF
            + (flowDeltas s.g_prev (buildCurrent stats) k v).dRxPktsB) % 2 ^ 64 > 0 then
          1000 * ((v.jitterSum + (lookupOrZero (buildCurrent stats) (revKey k)).jitterSum)
              - ((lookupOrZero s.g_prev k).jitterSum
                + (lookupOrZero s.g_prev (revKey k)).jitterSum))
            / ((((flowDeltas s.g_prev (buildCurrent stats) k v).dRxPktsF
                + (flowDeltas s.g_prev (buildCurrent stats) k v).dRxPktsB) % 2 ^ 64 : Nat) : ℚ)
        else 0) ∧
    (((flowDeltas s.g_prev (buildCurrent stats) k v).dRxPktsF
        + (flowDeltas s.g_prev (buildCurrent stats) k v).dRxPktsB) % 2 ^ 64 = 0 →
      (flowRow gen s (buildCurrent stats) k v).delay_ms = 0 ∧
      (flowRow gen s (buildCurrent stats) k v).jitter_ms = 0) ∧
    ((lookupOrZero s.g_prev k).rxPackets ≤ v.rxPackets →
      (lookupOrZero s.g_prev (revKey k)).rxPackets
        ≤ (lookupOrZero (buildCurrent stats) (revKey k)).rxPackets →
      (v.rxPackets - (lookupOrZero s.g_prev k).rxPackets)
        + ((lookupOrZero (buildCurrent stats) (revKey k)).rxPackets
          - (lookupOrZero s.g_prev (revKey k)).rxPackets) < 2 ^ 64 →
      ((flowDeltas s.g_prev (buildCurrent stats) k v).dRxPktsF
        + (flowDeltas s.g_prev (buildCurrent stats) k v).dRxPktsB) % 2 ^ 64
      = (v.rxPackets - (lookupOrZero s.g_prev k).rxPackets)
        + ((lookupOrZero (buildCurrent stats) (revKey k)).rxPackets
          - (lookupOrZero s.g_prev (revKey k)).rxPackets)) := by
  obtain ⟨_, w2, _, _, _⟩ := wf_buildCurrent stats (k, v) hk
  obtain ⟨_, b2, _, _, _⟩ := lookupOrZero_buildCurrent_WF stats (revKey k)
  refine ⟨mem_tickRows.2 ⟨k, v, hk, rfl⟩, rfl, rfl, ?_, ?_⟩
  · intro h0
    rw [flowRow_delay_ms, flowRow_jitter_ms, h0]
    exact ⟨if_neg (lt_irrefl 0), if_neg (lt_irrefl 0)⟩
  · intro h1 h2 hs
    exact rx_sum_exact _ _ _ _ w2 b2 h1 h2 hs

/-- C12 at a concrete input: in the second tick on `timedPoll2` after `timedPoll`, the
client-to-server row has 4 + 2 received packets and a delay sum grown by 14 seconds, so
`delay_ms = 1000 * 14 / 6`. -/
theorem C12_delay_jitter_witness :
    (upKey, snapOf (timedStats true 14 12 26 13)) ∈ buildCurrent timedPoll2 ∧
    ((flowDeltas (afterTimed .nr).g_prev (buildCurrent timedPoll2) upKey
          (snapOf (timedStats true 14 12 26 13))).dRxPktsF
        + (flowDeltas (afterTimed .nr).g_prev (buildCurrent timedPoll2) upKey
          (snapOf (timedStats true 14 12 26 13))).dRxPktsB) % 2 ^ 64 = (12 - 8) + (5 - 3) ∧
    (flowRow .nr (afterTimed .nr) (buildCurrent timedPoll2) upKey
      (snapOf (timedStats true 14 12 26 13))).delay_ms = 1000 * 14 / 6 := by
  have h := C12_delay_jitter .nr (afterTimed .nr) timedPoll2 upKey
    (snapOf (timedStats true 14 12 26 13)) (by decide)
  have hsum := h.2.2.2.2 (by decide) (by decide) (by decide)
  have hrx : ((flowDeltas (afterTimed .nr).g_prev (buildCurrent timedPoll2) upKey
        (snapOf (timedStats true 14 12 26 13))).dRxPktsF
      + (flowDeltas (afterTimed .nr).g_prev (buildCurrent timedPoll2) upKey
        (snapOf (timedStats true 14 12 26 13))).dRxPktsB) % 2 ^ 64 = 6 := by decide
  have h1 : (snapOf (timedStats true 14 12 26 13)).delaySum = 26 := rfl
  have h2 : (lookupOrZero (buildCurrent timedPoll2) (revKey upKey)).delaySum = 10 := rfl
  have h3 : (lookupOrZero (afterTimed .nr).g_prev upKey).delaySum = 16 := rfl
  have h4 : (lookupOrZero (afterTimed .nr).g_prev (revKey upKey)).delaySum = 6 := rfl
  refine ⟨by decide, hsum.trans (by decide), ?_⟩
  rw [h.2.1, hrx, h1, h2, h3, h4]
  norm_num

/-- C12 as stated fails: after a reset of the monitor both receive counters are below their
previous values (1 after 8, 1 after 3), the two receive deltas are `2^64 - 7` and `2^64 - 2`,
and the row has `delay_ms = -18000 / (2^64 - 9)`. This is neither `0`, the value for the sum
`(1 - 8) + (1 - 3)` of the differences, which is not positive, nor
`1000 * dDelay / (dRx(fwd) + dRx(bwd))` for the sum of the two deltas as computed. -/
theorem C12_counterexample :
    (upKey, snapOf (timedStats true 2 1 2 1)) ∈ buildCurrent resetPoll ∧
    (flowDeltas (afterTimed .nr).g_prev (buildCurrent resetPoll) upKey
      (snapOf (timedStats true 2 1 2 1))).dRxPktsF = 18446744073709551609 ∧
    (flowDeltas (afterTimed .nr).g_prev (buildCurrent resetPoll) upKey
      (snapOf (timedStats true 2 1 2 1))).dRxPktsB = 18446744073709551614 ∧
    ((snapOf (timedStats true 2 1 2 1)).delaySum
        + (lookupOrZero (buildCurrent resetPoll) (revKey upKey)).delaySum)
      - ((lookupOrZero (afterTimed .nr).g_prev upKey).delaySum
        + (lookupOrZero (afterTimed .nr).g_prev (revKey upKey)).delaySum) = -18 ∧
    (flowRow .nr (afterTimed .nr) (buildCurrent resetPoll) upKey
      (snapOf (timedStats true 2 1 2 1))).delay_ms = -18000 / 18446744073709551607 ∧
    ¬ ((0 : ℤ) < ((1 : ℤ) - 8) + ((1 : ℤ) - 3)) ∧
    (flowRow .nr (afterTimed .nr) (buildCurrent resetPoll) upKey
      (snapOf (timedStats true 2 1 2 1))).delay_ms ≠ 0 ∧
    (flowRow .nr (afterTimed .nr) (buildCurrent resetPoll) upKey
      (snapOf (timedStats true 2 1 2 1))).delay_ms
      ≠ 1000 * (-18)
        / ((((flowDeltas (afterTimed .nr).g_prev (buildCurrent resetPoll) upKey
              (snapOf (timedStats true 2 1 2 1))).dRxPktsF
            + (flowDeltas (afterTimed .nr).g_prev (buildCurrent resetPoll) upKey
              (snapOf (timedStats true 2 1 2 1))).dRxPktsB : Nat) : ℚ)) := by
  have hF : (flowDeltas (afterTimed .nr).g_prev (buildCurrent resetPoll) upKey
      (snapOf (timedStats true 2 1 2 1))).dRxPktsF = 18446744073709551609 := by decide
  have hB : (flowDeltas (afterTimed .nr).g_prev (buildCurrent resetPoll) upKey
      (snapOf (timedStats true 2 1 2 1))).dRxPktsB = 18446744073709551614 := by decide
  have h1 : (snapOf (timedStats true 2 1 2 1)).delaySum = 2 := rfl
  have h2 : (lookupOrZero (buildCurrent resetPoll) (revKey upKey)).delaySum = 2 := rfl
  have h3 : (lookupOrZero (afterTimed .nr).g_prev upKey).delaySum = 16 := rfl
  have h4 : (lookupOrZero (afterTimed .nr).g_prev (revKey upKey)).delaySum = 6 := rfl
  have hd : (flowRow .nr (afterTimed .nr) (buildCurrent resetPoll) upKey
      (snapOf (timedStats true 2 1 2 1))).delay_ms = -18000 / 18446744073709551607 := by
    rw [flowRow_delay_ms, hF, hB, h1, h2, h3, h4]
    norm_num
  refine ⟨by decide, hF, hB, ?_, hd, by decide, ?_, ?_⟩
  · rw [h1, h2, h3, h4]; norm_num
  · rw [hd]; norm_num
  · rw [hd, hF, hB]; norm_num

/-- C13, amended: for every row, with `pktsAll = (total_pkts_fwd + total_pkts_bwd) mod 2^64`
and `bytesAll = (total_bytes_fwd + total_bytes_bwd) mod 2^64` (64-bit sums, the plain sums of
the two columns whenever these are below `2^64`), `packet_size = bytesAll / pktsAll` if
`pktsAll > 0` and `packet_size = 0` otherwise. -/
theorem C13_packet_size (gen : Generator) (s : State) (stats : Poll) (r : Row)
    (hr : r ∈ tickRows gen s stats) :
    r.packet_size
      = (if (r.total_pkts_fwd + r.total_pkts_bwd) % 2 ^ 64 > 0 then
          (((r.total_bytes_fwd + r.total_bytes_bwd) % 2 ^ 64 : Nat) : ℚ)
            / (((r.total_pkts_fwd + r.total_pkts_bwd) % 2 ^ 64 : Nat) : ℚ)
        else 0) ∧
    ((r.total_pkts_fwd + r.total_pkts_bwd) % 2 ^ 64 = 0 → r.packet_size = 0) ∧
    (r.total_pkts_fwd + r.total_pkts_bwd = 0 → r.packet_size = 0) ∧
    (r.total_pkts_fwd + r.total_pkts_bwd < 2 ^ 64 →
      r.total_bytes_fwd + r.total_bytes_bwd < 2 ^ 64 →
      0 < r.total_pkts_fwd + r.total_pkts_bwd →
      r.packet_size = ((r.total_bytes_fwd : ℚ) + (r.total_bytes_bwd : ℚ))
        / ((r.total_pkts_fwd : ℚ) + (r.total_pkts_bwd : ℚ))) := by
  obtain ⟨k, v, _, rfl⟩ := mem_tickRows.1 hr
  refine ⟨rfl, ?_, ?_, ?_⟩
  · intro h0
    rw [flowRow_packet_size, h0]
    exact if_neg (lt_irrefl 0)
  · intro h0
    rw [flowRow_packet_size, h0]
    exact if_neg (by decide)
  · intro hp hb hpos
    rw [flowRow_packet_size, Nat.mod_eq_of_lt hp, Nat.mod_eq_of_lt hb, if_pos hpos,
      Nat.cast_add, Nat.cast_add]

/-- C13 at a concrete input: at the first tick on `ratePoll` the client-to-server row counts
`72000 + 8000` bytes in `120 + 80` packets, so `packet_size = 400`. -/
theorem C13_packet_size_witness :
    (flowRow .nr (mainInit {}) (buildCurrent ratePoll) upKey
        (snapOf (upStats 100 20 60000 12000)) ∈ tickRows .nr (mainInit {}) ratePoll ∧
      (flowRow .nr (mainInit {}) (buildCurrent ratePoll) upKey
        (snapOf (upStats 100 20 60000 12000))).total_pkts_fwd = 120 ∧
      (flowRow .nr (mainInit {}) (buildCurrent ratePoll) upKey
        (snapOf (upStats 100 20 60000 12000))).total_pkts_bwd = 80 ∧
      (flowRow .nr (mainInit {}) (buildCurrent ratePoll) upKey
        (snapOf (upStats 100 20 60000 12000))).total_bytes_fwd = 72000 ∧
      (flowRow .nr (mainInit {}) (buildCurrent ratePoll) upKey
        (snapOf (upStats 100 20 60000 12000))).total_bytes_bwd = 8000) ∧
    (flowRow .nr (mainInit {}) (buildCurrent ratePoll) upKey
      (snapOf (upStats 100 20 60000 12000))).packet_size = 400 := by
  have hmem : flowRow .nr (mainInit {}) (buildCurrent ratePoll) upKey
      (snapOf (upStats 100 20 60000 12000)) ∈ tickRows .nr (mainInit {}) ratePoll :=
    mem_tickRows.2 ⟨upKey, _, by decide, rfl⟩
  have h1 : (flowRow .nr (mainInit {}) (buildCurrent ratePoll) upKey
      (snapOf (upStats 100 20 60000 12000))).total_pkts_fwd = 120 := by decide
  have h2 : (flowRow .nr (mainInit {}) (buildCurrent ratePoll) upKey
      (snapOf (upStats 100 20 60000 12000))).total_pkts_bwd = 80 := by decide
  have h3 : (flowRow .nr (mainInit {}) (buildCurrent ratePoll) upKey
      (snapOf (upStats 100 20 60000 12000))).total_bytes_fwd = 72000 := by decide
  have h4 : (flowRow .nr (mainInit {}) (buildCurrent ratePoll) upKey
      (snapOf (upStats 100 20 60000 12000))).total_bytes_bwd = 8000 := by decide
  have h := (C13_packet_size .nr (mainInit {}) ratePoll _ hmem).2.2.2 (by decide) (by decide)
    (by decide)
  refine ⟨⟨hmem, h1, h2, h3, h4⟩, ?_⟩
  rw [h, h1, h2, h3, h4]; norm_num

/-- C13 as stated fails: after a tick that registered both directions, a poll without the
server-to-client flow gives the client-to-server row 20 and `2^64 - 6` packets, 800 and
`2^64 - 200` bytes and `packet_size = 600 / 14`, which is not the quotient of the sums of the
columns. -/
theorem C13_counterexample :
    flowRow .nr (afterPair .nr) (buildCurrent vanishPoll) upKey
      (snapOf (upStats 20 18 900 800)) ∈ tickRows .nr (afterPair .nr) vanishPoll ∧
    (flowRow .nr (afterPair .nr) (buildCurrent vanishPoll) upKey
      (snapOf (upStats 20 18 900 800))).total_pkts_fwd = 20 ∧
    (flowRow .nr (afterPair .nr) (buildCurrent vanishPoll) upKey
      (snapOf (upStats 20 18 900 800))).total_pkts_bwd = 18446744073709551610 ∧
    (flowRow .nr (afterPair .nr) (buildCurrent vanishPoll) upKey
      (snapOf (upStats 20 18 900 800))).total_bytes_fwd = 800 ∧
    (flowRow .nr (afterPair .nr) (buildCurrent vanishPoll) upKey
      (snapOf (upStats 20 18 900 800))).total_bytes_bwd = 18446744073709551416 ∧
    (flowRow .nr (afterPair .nr) (buildCurrent vanishPoll) upKey
      (snapOf (upStats 20 18 900 800))).packet_size = 600 / 14 ∧
    0 < (flowRow .nr (afterPair .nr) (buildCurrent vanishPoll) upKey
        (snapOf (upStats 20 18 900 800))).total_pkts_fwd
      + (flowRow .nr (afterPair .nr) (buildCurrent vanishPoll) upKey
        (snapOf (upStats 20 18 900 800))).total_pkts_bwd ∧
    (flowRow .nr (afterPair .nr) (buildCurrent vanishPoll) upKey
      (snapOf (upStats 20 18 900 800))).packet_size
      ≠ (((flowRow .nr (afterPair .nr) (buildCurrent vanishPoll) upKey
            (snapOf (upStats 20 18 900 800))).total_bytes_fwd : ℚ)
          + ((flowRow .nr (afterPair .nr) (buildCurrent vanishPoll) upKey
            (snapOf (upStats 20 18 900 800))).total_bytes_bwd : ℚ))
        / (((flowRow .nr (afterPair .nr) (buildCurrent vanishPoll) upKey
            (snapOf (upStats 20 18 900 800))).total_pkts_fwd : ℚ)
          + ((flowRow .nr (afterPair .nr) (buildCurrent vanishPoll) upKey
            (snapOf (upStats 20 18 900 800))).total_pkts_bwd : ℚ)) := by
  have h1 : (flowRow .nr (afterPair .nr) (buildCurrent vanishPoll) upKey
      (snapOf (upStats 20 18 900 800))).total_pkts_fwd = 20 := by decide
  have h2 : (flowRow .nr (afterPair .nr) (buildCurrent vanishPoll) upKey
      (snapOf (upStats 20 18 900 800))).total_pkts_bwd = 18446744073709551610 := by decide
  have h3 : (flowRow .nr (afterPair .nr) (buildCurrent vanishPoll) upKey
      (snapOf (upStats 20 18 900 800))).total_bytes_fwd = 800 := by decide
  have h4 : (flowRow .nr (afterPair .nr) (buildCurrent vanishPoll) upKey
      (snapOf (upStats 20 18 900 800))).total_bytes_bwd = 18446744073709551416 := by decide
  have hp : (flowRow .nr (afterPair .nr) (buildCurrent vanishPoll) upKey
      (snapOf (upStats 20 18 900 800))).packet_size = 600 / 14 := by
    rw [flowRow_packet_size, h1, h2, h3, h4]; norm_num
  refine ⟨mem_tickRows.2 ⟨upKey, _, by decide, rfl⟩, h1, h2, h3, h4, hp, ?_, ?_⟩
  · rw [h1, h2]; decide
  · rw [hp, h1, h2, h3, h4]; norm_num

/-- C14, amended: in a run of two ticks with `W = 1` in which the only observed flow A (source
not in the attacker set, A not its own reverse, no reverse flow observed) has sent 10 packets
and 500 bytes cumulatively at tick 1 and 12 packets and 600 bytes at tick 2, with receive
counters that do not decrease and do not exceed the transmit counters, the only row of tick 2
is the row of A, with `total_pkts_fwd = 2 + (rxPackets2 - rxPackets1)`,
`total_bytes_fwd = 100 + (rxBytes2 - rxBytes1)`, `total_pkts_bwd = 0`, `total_bytes_bwd = 0` and
`label_binary = 0`; the totals are 2 and 100 when the receive counters of A are the same at
the two ticks. -/
theorem C14_two_window_scenario (gen : Generator) (cfg : Config) (a1 a2 : FlowStats)
    (hW : cfg.window = 1) (hkey : keyOf a2 = keyOf a1) (hrev : revKey (keyOf a1) ≠ keyOf a1)
    (htx1 : a1.txPackets = 10) (htb1 : a1.txBytes = 500)
    (htx2 : a2.txPackets = 12) (htb2 : a2.txBytes = 600)
    (hrx : a1.rxPackets ≤ a2.rxPackets) (hrxtx : a2.rxPackets ≤ a2.txPackets)
    (hrb : a1.rxBytes ≤ a2.rxBytes) (hrbtb : a2.rxBytes ≤ a2.txBytes)
    (hsrc : gen = .simple → (a1.sourceAddress &&& 0xFF) ∉ mainAttackers cfg) :
    tickRows gen (run gen cfg [[a1]]) [a2]
      = [flowRow gen (run gen cfg [[a1]]) (buildCurrent [a2]) (keyOf a2) (snapOf a2)] ∧
    (flowRow gen (run gen cfg [[a1]]) (buildCurrent [a2]) (keyOf a2) (snapOf a2)).total_pkts_fwd
      = 2 + (a2.rxPackets - a1.rxPackets) ∧
    (flowRow gen (run gen cfg [[a1]]) (buildCurrent [a2]) (keyOf a2) (snapOf a2)).total_bytes_fwd
      = 100 + (a2.rxBytes - a1.rxBytes) ∧
    (flowRow gen (run gen cfg [[a1]]) (buildCurrent [a2]) (keyOf a2) (snapOf a2)).total_pkts_bwd
      = 0 ∧
    (flowRow gen (run gen cfg [[a1]]) (buildCurrent [a2]) (keyOf a2) (snapOf a2)).total_bytes_bwd
      = 0 ∧
    (flowRow gen (run gen cfg [[a1]]) (buildCurrent [a2]) (keyOf a2) (snapOf a2)).label_binary
      = 0 ∧
    (a2.rxPackets = a1.rxPackets →
      (flowRow gen (run gen cfg [[a1]]) (buildCurrent [a2]) (keyOf a2)
        (snapOf a2)).total_pkts_fwd = 2) ∧
    (a2.rxBytes = a1.rxBytes →
      (flowRow gen (run gen cfg [[a1]]) (buildCurrent [a2]) (keyOf a2)
        (snapOf a2)).total_bytes_fwd = 100) := by
  have hrev2 : revKey (keyOf a2) ≠ keyOf a2 := by rw [hkey]; exact hrev
  have hpF : lookupOrZero (run gen cfg [[a1]]).g_prev (keyOf a2) = snapOf a1 := by
    rw [run_singleton_prev, hkey]
    exact lookupOrZero_of_some (mapFind_singleton_self _ _)
  have hpB : lookupOrZero (run gen cfg [[a1]]).g_prev (revKey (keyOf a2)) = {} := by
    rw [run_singleton_prev, hkey]
    exact lookupOrZero_of_none (mapFind_singleton_ne _ hrev)
  have hcB : lookupOrZero (buildCurrent [a2]) (revKey (keyOf a2)) = {} := by
    rw [buildCurrent_singleton]
    exact lookupOrZero_of_none (mapFind_singleton_ne _ hrev2)
  have hpf : (flowRow gen (run gen cfg [[a1]]) (buildCurrent [a2]) (keyOf a2)
      (snapOf a2)).total_pkts_fwd = 2 + (a2.rxPackets - a1.rxPackets) := by
    rw [flowRow_total_pkts_fwd]
    simp only [flowDeltas, hpF]
    simp only [snapOf, sub64, U64, htx1, htx2]
    omega
  have hbf : (flowRow gen (run gen cfg [[a1]]) (buildCurrent [a2]) (keyOf a2)
      (snapOf a2)).total_bytes_fwd = 100 + (a2.rxBytes - a1.rxBytes) := by
    rw [flowRow_total_bytes_fwd]
    simp only [flowDeltas, hpF]
    simp only [snapOf, sub64, U64, htb1, htb2]
    omega
  have hpb : (flowRow gen (run gen cfg [[a1]]) (buildCurrent [a2]) (keyOf a2)
      (snapOf a2)).total_pkts_bwd = 0 := by
    rw [flowRow_total_pkts_bwd]
    simp only [flowDeltas, hpB, hcB]
    decide
  have hbb : (flowRow gen (run gen cfg [[a1]]) (buildCurrent [a2]) (keyOf a2)
      (snapOf a2)).total_bytes_bwd = 0 := by
    rw [flowRow_total_bytes_bwd]
    simp only [flowDeltas, hpB, hcB]
    decide
  have hWs : (run gen cfg [[a1]]).g_windowSize = 1 := hW
  have hrate : (flowRow gen (run gen cfg [[a1]]) (buildCurrent [a2]) (keyOf a2)
      (snapOf a2)).flow_pkts_per_sec ≤ 5000 := by
    rw [flowRow_flow_pkts_per_sec, hpf, hWs, div_one]
    have hle : 2 + (a2.rxPackets - a1.rxPackets) ≤ 5000 := by omega
    exact_mod_cast hle
  have hsrc2 : gen = .simple → ((keyOf a2).src &&& 0xFF) ∉ (run gen cfg [[a1]]).g_attackers := by
    intro hg
    rw [hkey]
    exact hsrc hg
  have hlab : (flowRow gen (run gen cfg [[a1]]) (buildCurrent [a2]) (keyOf a2)
      (snapOf a2)).label_binary = 0 := by
    rw [flowRow_label_binary]
    have hiff := attackBinary_of_not_attacker gen (run gen cfg [[a1]]).g_attackers (keyOf a2)
      (flowRow gen (run gen cfg [[a1]]) (buildCurrent [a2]) (keyOf a2)
        (snapOf a2)).flow_pkts_per_sec hsrc2
    have hb : ¬ attackBinary gen (run gen cfg [[a1]]).g_attackers (keyOf a2)
        (flowRow gen (run gen cfg [[a1]]) (buildCurrent [a2]) (keyOf a2)
          (snapOf a2)).flow_pkts_per_sec = true :=
      fun h => absurd (hiff.1 h) (not_lt.2 hrate)
    rw [if_neg hb]
  refine ⟨rfl, hpf, hbf, hpb, hbb, hlab, ?_, ?_⟩
  · intro h; rw [hpf, h]; omega
  · intro h; rw [hbf, h]; omega

/-- C14 at a concrete input: the flow has sent 10 packets and 500 bytes at tick 1, 12 packets
and 600 bytes at tick 2, and its receive counters are 8 packets and 400 bytes at both ticks;
the row of tick 2 reports 2 packets and 100 bytes. -/
theorem C14_two_window_scenario_witness :
    ((({} : Config).window = 1 ∧ keyOf (upStats 12 8 600 400) = keyOf (upStats 10 8 500 400) ∧
      revKey (keyOf (upStats 10 8 500 400)) ≠ keyOf (upStats 10 8 500 400)) ∧
      ((upStats 10 8 500 400).sourceAddress &&& 0xFF) ∉ mainAttackers {}) ∧
    tickRows .simple (run .simple {} [[upStats 10 8 500 400]]) [upStats 12 8 600 400]
      = [flowRow .simple (run .simple {} [[upStats 10 8 500 400]])
          (buildCurrent [upStats 12 8 600 400]) (keyOf (upStats 12 8 600 400))
          (snapOf (upStats 12 8 600 400))] ∧
    (flowRow .simple (run .simple {} [[upStats 10 8 500 400]])
      (buildCurrent [upStats 12 8 600 400]) (keyOf (upStats 12 8 600 400))
      (snapOf (upStats 12 8 600 400))).total_pkts_fwd = 2 ∧
    (flowRow .simple (run .simple {} [[upStats 10 8 500 400]])
      (buildCurrent [upStats 12 8 600 400]) (keyOf (upStats 12 8 600 400))
      (snapOf (upStats 12 8 600 400))).total_bytes_fwd = 100 ∧
    (flowRow .simple (run .simple {} [[upStats 10 8 500 400]])
      (buildCurrent [upStats 12 8 600 400]) (keyOf (upStats 12 8 600 400))
      (snapOf (upStats 12 8 600 400))).total_pkts_bwd = 0 ∧
    (flowRow .simple (run .simple {} [[upStats 10 8 500 400]])
      (buildCurrent [upStats 12 8 600 400]) (keyOf (upStats 12 8 600 400))
      (snapOf (upStats 12 8 600 400))).label_binary = 0 :=
  have hsrc : ((upStats 10 8 500 400).sourceAddress &&& 0xFF) ∉ mainAttackers {} := by decide
  have h := C14_two_window_scenario .simple {} (upStats 10 8 500 400) (upStats 12 8 600 400)
    rfl rfl (by decide) rfl rfl rfl rfl (by decide) (by decide) (by decide) (by decide)
    (fun _ => hsrc)
  ⟨⟨⟨rfl, rfl, by decide⟩, hsrc⟩, h.1, h.2.2.2.2.2.2.1 rfl, h.2.2.2.2.2.2.2 rfl, h.2.2.2.1,
    h.2.2.2.2.2.1⟩

/-- C14 as stated fails: flow A has sent 10 packets and 500 bytes at tick 1 and 12 packets and
600 bytes at tick 2, and its receive counters grow from 8 packets and 400 bytes to 10 packets
and 500 bytes (non-decreasing, below the transmit counters); the row of tick 2 reports
`total_pkts_fwd = 4` and `total_bytes_fwd = 200`, not 2 and 100. -/
theorem C14_counterexample :
    (afterUp .nr) = run .nr {} [[upStats 10 8 500 400]] ∧
    (afterUp .nr).g_windowSize = 1 ∧
    (tickRows .nr (afterUp .nr) growPoll).map Row.key = [upKey] ∧
    mapFind (buildCurrent growPoll) (revKey upKey) = none ∧
    mapFind (afterUp .nr).g_prev (revKey upKey) = none ∧
    (tickRows .nr (afterUp .nr) growPoll).map Row.total_pkts_fwd = [4] ∧
    (tickRows .nr (afterUp .nr) growPoll).map Row.total_bytes_fwd = [200] ∧
    (tickRows .nr (afterUp .nr) growPoll).map Row.total_pkts_bwd = [0] ∧
    (tickRows .nr (afterUp .nr) growPoll).map Row.total_pkts_fwd ≠ [2] ∧
    (tickRows .nr (afterUp .nr) growPoll).map Row.total_bytes_fwd ≠ [100] ∧
    (tickRows .simple (afterUp .simple) growPoll).map Row.total_pkts_fwd = [4] ∧
    (tickRows .simple (afterUp .simple) growPoll).map Row.total_bytes_fwd = [200] := by
  refine ⟨rfl, rfl, ?_, ?_, ?_, ?_, ?_, ?_, ?_, ?_, ?_, ?_⟩ <;> decide

/-- C15: when `SampleAndWrite` returns, the registry `g_prev` is the current snapshot map built
from the statistics of that tick, whatever it held before: it is a well-formed map whose value
at a key is the snapshot of the (last) polled flow with that five-tuple, it has an entry for
every polled flow, every entry comes from a polled flow, and a key that is not polled has no
entry. The guarded lookups of the resolver return the value used for the row and leave the map
they read unchanged. Hence the registry is empty before the first tick and, after each tick of
a run, it is the snapshot map of the last poll. -/
theorem C15_registry_invariant (gen : Generator) (s : State) (stats : Poll) :
    (SampleAndWrite gen s stats).g_prev = buildCurrent stats ∧
    KeysSorted (SampleAndWrite gen s stats).g_prev ∧
    (∀ k, mapFind (SampleAndWrite gen s stats).g_prev k
      = (stats.reverse.find? (fun st => decide (keyOf st = k))).map snapOf) ∧
    (∀ st ∈ stats, keyOf st ∈ (SampleAndWrite gen s stats).g_prev.map Prod.fst) ∧
    (∀ k v, (k, v) ∈ (SampleAndWrite gen s stats).g_prev →
      ∃ st ∈ stats, keyOf st = k ∧ snapOf st = v) ∧
    (∀ k, (∀ st ∈ stats, keyOf st ≠ k) →
      mapFind (SampleAndWrite gen s stats).g_prev k = none) ∧
    (∀ (m : FlowMap) (key : FlowKey), guardedLookup m key = (lookupOrZero m key, m)) ∧
    (∀ cfg : Config, (run gen cfg []).g_prev = []) ∧
    (∀ (cfg : Config) (polls : List Poll),
      (run gen cfg (polls ++ [stats])).g_prev = buildCurrent stats) := by
  have hprev : (SampleAndWrite gen s stats).g_prev = buildCurrent stats := rfl
  have hfind := fun k => mapFind_buildCurrent stats k
  have hsome : ∀ k v, mapFind (buildCurrent stats) k = some v →
      ∃ st ∈ stats, keyOf st = k ∧ snapOf st = v := by
    intro k v h
    rw [hfind] at h
    cases hf : stats.reverse.find? (fun st => decide (keyOf st = k)) with
    | none => rw [hf] at h; exact absurd h (by simp)
    | some st =>
      rw [hf] at h
      refine ⟨st, List.mem_reverse.1 (List.mem_of_find?_eq_some hf), ?_, ?_⟩
      · simpa using List.find?_some hf
      · simpa using h
  refine ⟨hprev, ?_, ?_, ?_, ?_, ?_, guardedLookup_eq, fun _ => rfl, ?_⟩
  · rw [hprev]; exact keysSorted_buildCurrent stats
  · intro k; rw [hprev]; exact hfind k
  · intro st hst
    rw [hprev]
    cases hf : stats.reverse.find? (fun st' => decide (keyOf st' = keyOf st)) with
    | none =>
      have := List.find?_eq_none.1 hf st (List.mem_reverse.2 hst)
      simp at this
    | some st' =>
      have hm : mapFind (buildCurrent stats) (keyOf st) = some (snapOf st') := by
        rw [hfind, hf]; rfl
      exact List.mem_map.2 ⟨_, mem_of_mapFind hm, rfl⟩
  · intro k v hkv
    rw [hprev] at hkv
    exact hsome k v (mapFind_of_mem (keysSorted_buildCurrent stats) hkv)
  · intro k hk
    rw [hprev]
    cases hm : mapFind (buildCurrent stats) k with
    | none => rfl
    | some v =>
      obtain ⟨st, hst, hkey, _⟩ := hsome k v hm
      exact absurd hkey (hk st hst)
  · intro cfg polls
    rw [run_append]
    rfl

/-- C16, amended: the window clock is a `double` advanced by `g_windowStart += g_windowSize`.
For an arbitrary addition `add` of two `double` values, every row written by tick `n + 1` of a
run with window size `W` has as `time_start` the result of `n` successive additions of `W`
starting from 0, `time_end = add time_start W` and `flow_duration = W`, and every row of the
next tick has as `time_start` the `time_end` of this tick: windows neither overlap nor leave a
gap. Where the additions up to this tick are exact (`add (i * W) W = (i + 1) * W` for
`i ≤ n`), `time_start = n * W` and `time_end = (n + 1) * W`. -/
theorem C16_window_clock (add : ℚ → ℚ → ℚ) (gen : Generator) (cfg : Config)
    (polls : List Poll) (stats : Poll) (r : Row)
    (hr : r ∈ tickRowsRounded add gen (runRounded add gen cfg polls) stats) :
    r.time_start = (fun t => add t cfg.window)^[polls.length] 0 ∧
    r.time_end = add r.time_start cfg.window ∧
    r.flow_duration = cfg.window ∧
    (∀ (next : Poll) (r' : Row),
      r' ∈ tickRowsRounded add gen (runRounded add gen cfg (polls ++ [stats])) next →
      r'.time_start = r.time_end) ∧
    ((∀ i : Nat, i < polls.length + 1 →
        add ((i : ℚ) * cfg.window) cfg.window = ((i : ℚ) + 1) * cfg.window) →
      r.time_start = (polls.length : ℚ) * cfg.window ∧
      r.time_end = ((polls.length : ℚ) + 1) * cfg.window) := by
  obtain ⟨h1, h2, h3⟩ := mem_tickRowsRounded hr
  have hs := runRounded_windowStart add gen cfg polls
  have hw := runRounded_windowSize add gen cfg polls
  have hstart : r.time_start = (fun t => add t cfg.window)^[polls.length] 0 := by rw [h1, hs]
  have hend : r.time_end = add r.time_start cfg.window := by rw [h2, h1, hw]
  refine ⟨hstart, hend, by rw [h3, hw], ?_, ?_⟩
  · intro next r' hr'
    rw [(mem_tickRowsRounded hr').1, runRounded_append, h2]
    rfl
  · intro hexact
    have hn := iterate_add_of_exact add cfg.window (polls.length + 1) hexact polls.length
      (Nat.le_succ _)
    have hn1 := iterate_add_of_exact add cfg.window (polls.length + 1) hexact
      (polls.length + 1) (Nat.le_refl _)
    rw [Function.iterate_succ_apply'] at hn1
    refine ⟨hstart.trans hn, ?_⟩
    rw [hend, hstart, hn1]
    push_cast
    rfl

/-- C16 at a concrete input: in a default run (`W = 1`) with IEEE 754 addition the two
additions of the first two ticks are exact, and the row of the second tick on `pairPoll2`
covers the window from 1 to 2. -/
theorem C16_window_clock_witness :
    ({ flowRow .nr (runRounded addDouble .nr {} [pairPoll]) (buildCurrent pairPoll2) upKey
          (snapOf (upStats 12 10 600 500)) with time_end := addDouble 1 1 }
        ∈ tickRowsRounded addDouble .nr (runRounded addDouble .nr {} [pairPoll]) pairPoll2 ∧
      (∀ i : Nat, i < [pairPoll].length + 1 →
        addDouble ((i : ℚ) * ({} : Config).window) ({} : Config).window
          = ((i : ℚ) + 1) * ({} : Config).window)) ∧
    ({ flowRow .nr (runRounded addDouble .nr {} [pairPoll]) (buildCurrent pairPoll2) upKey
        (snapOf (upStats 12 10 600 500)) with time_end := addDouble 1 1 } : Row).time_start
      = 1 ∧
    ({ flowRow .nr (runRounded addDouble .nr {} [pairPoll]) (buildCurrent pairPoll2) upKey
        (snapOf (upStats 12 10 600 500)) with time_end := addDouble 1 1 } : Row).time_end
      = 2 := by
  have hmem : ({ flowRow .nr (runRounded addDouble .nr {} [pairPoll]) (buildCurrent pairPoll2)
        upKey (snapOf (upStats 12 10 600 500)) with time_end := addDouble 1 1 } : Row)
      ∈ tickRowsRounded addDouble .nr (runRounded addDouble .nr {} [pairPoll]) pairPoll2 := by
    have h1 : (runRounded addDouble .nr {} [pairPoll]).g_windowStart = 1 := by decide!
    have h2 : (runRounded addDouble .nr {} [pairPoll]).g_windowSize = 1 := rfl
    refine List.mem_map.2 ⟨_, mem_tickRows.2
      ⟨upKey, snapOf (upStats 12 10 600 500), by decide, rfl⟩, ?_⟩
    rw [h1, h2]
  have hexact : ∀ i : Nat, i < [pairPoll].length + 1 →
      addDouble ((i : ℚ) * ({} : Config).window) ({} : Config).window
        = ((i : ℚ) + 1) * ({} : Config).window := by
    intro i hi
    have hi2 : i < 2 := hi
    interval_cases i <;> decide!
  have h := (C16_window_clock addDouble .nr {} [pairPoll] pairPoll2 _ hmem).2.2.2.2 hexact
  have hW : ({} : Config).window = 1 := rfl
  refine ⟨⟨hmem, hexact⟩, ?_, ?_⟩
  · rw [h.1, hW]; norm_num
  · rw [h.2, hW]; norm_num

/-- C16 as stated fails: with IEEE 754 addition and `window` = 0.1 (the `double`
3602879701896397 / 2^55), the ninth tick writes its row with
`time_start = 7205759403792793 / 2^53`, the result of eight additions of 0.1, whereas
`8 * W = 7205759403792794 / 2^53`, which is itself a `double`. -/
theorem C16_counterexample :
    tenthWindowCfg.window = roundDouble (1 / 10) ∧
    (tickRowsRounded addDouble .nr
      (runRounded addDouble .nr tenthWindowCfg (List.replicate 8 growPoll)) growPoll).map
        Row.time_start = [7205759403792793 / 9007199254740992] ∧
    (8 : ℚ) * tenthWindowCfg.window = 7205759403792794 / 9007199254740992 ∧
    roundDouble (8 * tenthWindowCfg.window) = 8 * tenthWindowCfg.window ∧
    ¬ (∀ r ∈ tickRowsRounded addDouble .nr
        (runRounded addDouble .nr tenthWindowCfg (List.replicate 8 growPoll)) growPoll,
      r.time_start = ((List.replicate 8 growPoll).length : ℚ) * tenthWindowCfg.window) := by
  have hrows : (tickRowsRounded addDouble .nr
      (runRounded addDouble .nr tenthWindowCfg (List.replicate 8 growPoll)) growPoll).map
        Row.time_start = [7205759403792793 / 9007199254740992] := by decide!
  refine ⟨by decide!, hrows, by decide!, by decide!, ?_⟩
  intro hall
  have hmem : (7205759403792793 / 9007199254740992 : ℚ) ∈ (tickRowsRounded addDouble .nr
      (runRounded addDouble .nr tenthWindowCfg (List.replicate 8 growPoll)) growPoll).map
        Row.time_start := by rw [hrows]; exact List.mem_singleton.2 rfl
  obtain ⟨r, hr, hrt⟩ := List.mem_map.1 hmem
  have h8 := hall r hr
  rw [hrt] at h8
  revert h8
  decide!

/-- C17, amended: the header line written by `WriteCsvHeader` consists of exactly 24
comma-separated column names, in the order listed in the spec, and every data row written by
`SampleAndWrite` has 24 comma-separated fields, as many as the header, each field being the
value of the column named at the same position as the stream writes it (for formatters that
write no comma and a scenario tag that contains no comma). -/
theorem C17_csv_shape (F : Formatters) (hF : F.CommaFree) (gen : Generator) (s : State)
    (stats : Poll) (r : Row) (hr : r ∈ tickRows gen s stats)
    (htag : ',' ∉ s.g_scenarioId.data) :
    csvFields WriteCsvHeader =
      ["time_start", "time_end", "scenario_id", "ue_total", "attackers", "src_ip", "dst_ip",
        "src_port", "dst_port", "protocol", "packet_size", "flow_duration", "total_bytes_fwd",
        "total_bytes_bwd", "total_pkts_fwd", "total_pkts_bwd", "pkts_per_sec", "bytes_per_sec",
        "flow_pkts_per_sec", "flow_bytes_per_sec", "jitter_ms", "delay_ms", "label_binary",
        "label_intensity"] ∧
    (csvFields WriteCsvHeader).length = 24 ∧
    (csvFields (rowText F r)).length = (csvFields WriteCsvHeader).length ∧
    (csvFields WriteCsvHeader).zip (csvFields (rowText F r)) =
      [("time_start", F.fmtDouble r.time_start), ("time_end", F.fmtDouble r.time_end),
        ("scenario_id", s.g_scenarioId), ("ue_total", F.fmtUnsigned r.ue_total),
        ("attackers", F.fmtUnsigned r.attackers), ("src_ip", F.fmtAddress r.src_ip),
        ("dst_ip", F.fmtAddress r.dst_ip), ("src_port", F.fmtUnsigned r.src_port),
        ("dst_port", F.fmtUnsigned r.dst_port), ("protocol", F.fmtUnsigned r.protocol),
        ("packet_size", F.fmtDouble r.packet_size),
        ("flow_duration", F.fmtDouble r.flow_duration),
        ("total_bytes_fwd", F.fmtUnsigned r.total_bytes_fwd),
        ("total_bytes_bwd", F.fmtUnsigned r.total_bytes_bwd),
        ("total_pkts_fwd", F.fmtUnsigned r.total_pkts_fwd),
        ("total_pkts_bwd", F.fmtUnsigned r.total_pkts_bwd),
        ("pkts_per_sec", F.fmtDouble r.pkts_per_sec),
        ("bytes_per_sec", F.fmtDouble r.bytes_per_sec),
        ("flow_pkts_per_sec", F.fmtDouble r.flow_pkts_per_sec),
        ("flow_bytes_per_sec", F.fmtDouble r.flow_bytes_per_sec),
        ("jitter_ms", F.fmtDouble r.jitter_ms), ("delay_ms", F.fmtDouble r.delay_ms),
        ("label_binary", F.fmtInt (r.label_binary : Int)),
        ("label_intensity", F.fmtInt r.label_intensity)] := by
  obtain ⟨k, v, _, rfl⟩ := mem_tickRows.1 hr
  have hrow := csvFields_rowText F (flowRow gen s (buildCurrent stats) k v)
    (rowValues_comma_free F hF _ htag)
  refine ⟨csvFields_header, ?_, ?_, ?_⟩
  · rw [csvFields_header]; rfl
  · rw [hrow, csvFields_header]; rfl
  · rw [hrow, csvFields_header]; rfl

/-- C17 as stated fails: the header has 24 column names, not 22. -/
theorem C17_counterexample :
    (csvFields WriteCsvHeader).length = 24 ∧ (csvFields WriteCsvHeader).length ≠ 22 := by
  decide

/-- C17 at a concrete input: with the decimal formatters and the default scenario tag, the
client-to-server row of the first tick on `pairPoll` has 24 fields, as many as the header, and
its sixth field is the source address `10.1.1.2`. -/
theorem C17_csv_shape_witness :
    (decimalFormatters.CommaFree ∧
      flowRow .nr (mainInit {}) (buildCurrent pairPoll) upKey (snapOf (upStats 10 8 500 400))
        ∈ tickRows .nr (mainInit {}) pairPoll ∧
      ',' ∉ (mainInit {}).g_scenarioId.data) ∧
    (csvFields (rowText decimalFormatters
      (flowRow .nr (mainInit {}) (buildCurrent pairPoll) upKey
        (snapOf (upStats 10 8 500 400))))).length = 24 ∧
    ((csvFields WriteCsvHeader).zip (csvFields (rowText decimalFormatters
      (flowRow .nr (mainInit {}) (buildCurrent pairPoll) upKey
        (snapOf (upStats 10 8 500 400)))))).get? 5 = some ("src_ip", "10.1.1.2") := by
  have hmem : flowRow .nr (mainInit {}) (buildCurrent pairPoll) upKey
      (snapOf (upStats 10 8 500 400)) ∈ tickRows .nr (mainInit {}) pairPoll :=
    mem_tickRows.2 ⟨upKey, _, by decide, rfl⟩
  have htag : ',' ∉ (mainInit {}).g_scenarioId.data := by decide
  have h := C17_csv_shape decimalFormatters decimalFormatters_commaFree .nr (mainInit {})
    pairPoll _ hmem htag
  have haddr : decimalFormatters.fmtAddress (nodeAddress 1) = "10.1.1.2" := by decide
  refine ⟨⟨decimalFormatters_commaFree, hmem, htag⟩, ?_, ?_⟩
  · rw [h.2.2.1, h.2.1]
  · rw [h.2.2.2]
    exact congrArg (fun x => some ("src_ip", x)) haddr

/-- C19: `FlowKey::operator<` is the lexicographic order on
`(src, dst, srcPort, dstPort, protocol)`. It is irreflexive and transitive, for two keys
exactly one of `a < b`, `b < a` and equality of all five fields holds, and two keys are
equivalent for the map (neither is less than the other, so a lookup of one finds the entry of
the other) if and only if their five fields are equal. -/
theorem C19_flowkey_order :
    (∀ a b : FlowKey, a.lt b = true ↔
      toLex (a.src, toLex (a.dst, toLex (a.srcPort, toLex (a.dstPort, a.protocol))))
        < toLex (b.src, toLex (b.dst, toLex (b.srcPort, toLex (b.dstPort, b.protocol))))) ∧
    (∀ a : FlowKey, a.lt a = false) ∧
    (∀ a b c : FlowKey, a.lt b = true → b.lt c = true → a.lt c = true) ∧
    (∀ a b : FlowKey,
      (a.lt b = true ∧ b.lt a = false ∧ a ≠ b) ∨
      (a.lt b = false ∧ b.lt a = true ∧ a ≠ b) ∨
      (a.lt b = false ∧ b.lt a = false ∧ a = b)) ∧
    (∀ a b : FlowKey, (a.lt b = false ∧ b.lt a = false) ↔
      (a.src = b.src ∧ a.dst = b.dst ∧ a.srcPort = b.srcPort ∧ a.dstPort = b.dstPort ∧
        a.protocol = b.protocol)) ∧
    (∀ (a b : FlowKey) (v : FlowSnapshot), mapFind [(a, v)] b = some v ↔ a = b) ∧
    (∀ (a b : FlowKey) (v w : FlowSnapshot),
      (mapInsert b w (mapInsert a v [])).length = if a = b then 1 else 2) := by
  have hne : ∀ a b : FlowKey, a.lt b = true → a ≠ b := by
    intro a b h hab
    rw [hab, FlowKey.lt_irrefl] at h
    exact Bool.false_ne_true h
  refine ⟨FlowKey.lt_iff_lex, FlowKey.lt_irrefl, fun a b c => FlowKey.lt_trans, ?_, ?_, ?_, ?_⟩
  · intro a b
    cases h1 : a.lt b with
    | true => exact Or.inl ⟨rfl, FlowKey.lt_asymm h1, hne a b h1⟩
    | false =>
      cases h2 : b.lt a with
      | true => exact Or.inr (Or.inl ⟨rfl, rfl, fun h => hne b a h2 h.symm⟩)
      | false => exact Or.inr (Or.inr ⟨rfl, rfl, FlowKey.eq_of_not_lt h1 h2⟩)
  · intro a b
    rw [← FlowKey.ext_iff_fields]
    constructor
    · intro h; exact FlowKey.eq_of_not_lt h.1 h.2
    · intro h; subst h; exact ⟨FlowKey.lt_irrefl a, FlowKey.lt_irrefl a⟩
  · intro a b v
    constructor
    · intro h
      by_contra hab
      rw [mapFind_singleton_ne v (fun h' => hab h'.symm)] at h
      exact absurd h (by simp)
    · intro h; subst h; exact mapFind_singleton_self a v
  · intro a b v w
    by_cases hab : a = b
    · subst hab
      simp [mapInsert, FlowKey.lt_irrefl]
    · rw [if_neg hab]
      cases h1 : b.lt a with
      | true => simp [mapInsert, h1]
      | false =>
        cases h2 : a.lt b with
        | true => simp [mapInsert, h1, h2]
        | false => exact absurd (FlowKey.eq_of_not_lt h2 h1) hab

/-- C20, amended: `main` does not validate the window size: every configuration, also one
with a zero or negative window size, passes start-up, and every tick of the run divides by
`W`, the configured value unchanged (default 1). Hence when the configured window size is
positive, the divisor of `pkts_per_sec`, `bytes_per_sec`, `flow_pkts_per_sec` and
`flow_bytes_per_sec` is strictly positive in every row. -/
theorem C20_window_size (gen : Generator) (cfg : Config) (polls : List Poll) (stats : Poll)
    (r : Row) (hr : r ∈ tickRows gen (run gen cfg polls) stats) :
    mainStartup cfg = some (mainInit cfg) ∧
    (mainInit cfg).g_windowSize = cfg.window ∧
    (run gen cfg polls).g_windowSize = cfg.window ∧
    ({} : Config).window = 1 ∧
    r.flow_duration = cfg.window ∧
    r.pkts_per_sec
      = (((r.total_pkts_fwd + r.total_pkts_bwd) % 2 ^ 64 : Nat) : ℚ) / cfg.window ∧
    r.bytes_per_sec
      = (((r.total_bytes_fwd + r.total_bytes_bwd) % 2 ^ 64 : Nat) : ℚ) / cfg.window ∧
    r.flow_pkts_per_sec = (r.total_pkts_fwd : ℚ) / cfg.window ∧
    r.flow_bytes_per_sec = (r.total_bytes_fwd : ℚ) / cfg.window ∧
    (0 < cfg.window → 0 < r.flow_duration ∧ 0 < (run gen cfg polls).g_windowSize) := by
  obtain ⟨k, v, _, rfl⟩ := mem_tickRows.1 hr
  have hw := run_windowSize gen cfg polls
  refine ⟨rfl, rfl, hw, rfl, ?_, ?_, ?_, ?_, ?_, ?_⟩
  · rw [(flowRow_times _ _ _ _ _).2.2, hw]
  · rw [flowRow_pkts_per_sec, hw]
  · rw [flowRow_bytes_per_sec, hw]
  · rw [flowRow_flow_pkts_per_sec, hw]
  · rw [flowRow_flow_bytes_per_sec, hw]
  · intro hpos
    rw [(flowRow_times _ _ _ _ _).2.2, hw]
    exact ⟨hpos, hpos⟩

/-- C20 at a concrete input: in a default run the rows of the second tick divide by the
window size 1. -/
theorem C20_window_size_witness :
    (flowRow .nr (run .nr {} [pairPoll]) (buildCurrent pairPoll2) upKey
        (snapOf (upStats 12 10 600 500)) ∈ tickRows .nr (run .nr {} [pairPoll]) pairPoll2 ∧
      (0 : ℚ) < ({} : Config).window) ∧
    (flowRow .nr (run .nr {} [pairPoll]) (buildCurrent pairPoll2) upKey
      (snapOf (upStats 12 10 600 500))).flow_duration = 1 ∧
    0 < (flowRow .nr (run .nr {} [pairPoll]) (buildCurrent pairPoll2) upKey
      (snapOf (upStats 12 10 600 500))).flow_duration := by
  have hmem : flowRow .nr (run .nr {} [pairPoll]) (buildCurrent pairPoll2) upKey
      (snapOf (upStats 12 10 600 500)) ∈ tickRows .nr (run .nr {} [pairPoll]) pairPoll2 :=
    mem_tickRows.2 ⟨upKey, _, by decide, rfl⟩
  have hpos : (0 : ℚ) < ({} : Config).window := by
    show (0 : ℚ) < 1
    exact one_pos
  have h := C20_window_size .nr {} [pairPoll] pairPoll2 _ hmem
  exact ⟨⟨hmem, hpos⟩, h.2.2.2.2.1, (h.2.2.2.2.2.2.2.2.2 hpos).1⟩

/-- C20 as stated fails: a configured window size of zero is not rejected at start-up, and
the first tick executes with `g_windowSize = 0`, which is not positive; it leaves the window
clock at zero. -/
theorem C20_counterexample :
    zeroWindowCfg.window = 0 ∧
    mainStartup zeroWindowCfg = some (mainInit zeroWindowCfg) ∧
    mainStartup zeroWindowCfg ≠ none ∧
    (mainInit zeroWindowCfg).g_windowSize = 0 ∧
    ¬ (0 < (mainInit zeroWindowCfg).g_windowSize) ∧
    (SampleAndWrite .nr (mainInit zeroWindowCfg) []).g_windowSize = 0 ∧
    (SampleAndWrite .nr (mainInit zeroWindowCfg) []).g_windowStart = 0 ∧
    (SampleAndWrite .simple (mainInit zeroWindowCfg) []).g_windowSize = 0 := by
  have h0 : (mainInit zeroWindowCfg).g_windowSize = 0 := rfl
  refine ⟨rfl, rfl, by simp [mainStartup], h0, ?_, rfl, ?_, rfl⟩
  · rw [h0]; exact lt_irrefl 0
  · show (0 : ℚ) + 0 = 0
    exact add_zero 0

/-- C21: the two generators are one engine. For the same globals `s` (registry, window size,
window start, scenario id, endpoint count, attacker set) and the same polled statistics, the
rows written by `SampleAndWrite` of `nr_ddos_dataset.cc` and of `simple_ddos_dataset.cc` are
equally many, in the same order, and agree pairwise in the 22 columns other than
`label_binary` and `label_intensity`; they agree in these two columns as well for every row
whose source address has a lowest octet outside the attacker set; and both calls leave the
same registry and the same window start (and window size, scenario id, endpoint count and
attacker set) behind. -/
theorem C21_one_engine (s : State) (stats : Poll) :
    List.Forall₂
      (fun r r' : Row =>
        r.time_start = r'.time_start ∧ r.time_end = r'.time_end ∧
        r.scenario_id = r'.scenario_id ∧ r.ue_total = r'.ue_total ∧
        r.attackers = r'.attackers ∧ r.src_ip = r'.src_ip ∧ r.dst_ip = r'.dst_ip ∧
        r.src_port = r'.src_port ∧ r.dst_port = r'.dst_port ∧ r.protocol = r'.protocol ∧
        r.packet_size = r'.packet_size ∧ r.flow_duration = r'.flow_duration ∧
        r.total_bytes_fwd = r'.total_bytes_fwd ∧ r.total_bytes_bwd = r'.total_bytes_bwd ∧
        r.total_pkts_fwd = r'.total_pkts_fwd ∧ r.total_pkts_bwd = r'.total_pkts_bwd ∧
        r.pkts_per_sec = r'.pkts_per_sec ∧ r.bytes_per_sec = r'.bytes_per_sec ∧
        r.flow_pkts_per_sec = r'.flow_pkts_per_sec ∧
        r.flow_bytes_per_sec = r'.flow_bytes_per_sec ∧
        r.jitter_ms = r'.jitter_ms ∧ r.delay_ms = r'.delay_ms ∧
        ((r.src_ip &&& 0xFF) ∉ s.g_attackers →
          r.label_binary = r'.label_binary ∧ r.label_intensity = r'.label_intensity))
      (tickRows .nr s stats) (tickRows .simple s stats) ∧
    (SampleAndWrite .nr s stats).g_out = s.g_out ++ (tickRows .nr s stats).map Line.data ∧
    (SampleAndWrite .simple s stats).g_out
      = s.g_out ++ (tickRows .simple s stats).map Line.data ∧
    (SampleAndWrite .nr s stats).g_prev = (SampleAndWrite .simple s stats).g_prev ∧
    (SampleAndWrite .nr s stats).g_windowStart
      = (SampleAndWrite .simple s stats).g_windowStart ∧
    (SampleAndWrite .nr s stats).g_windowSize = (SampleAndWrite .simple s stats).g_windowSize ∧
    (SampleAndWrite .nr s stats).g_scenarioId = (SampleAndWrite .simple s stats).g_scenarioId ∧
    (SampleAndWrite .nr s stats).g_ueTotal = (SampleAndWrite .simple s stats).g_ueTotal ∧
    (SampleAndWrite .nr s stats).g_attackers
      = (SampleAndWrite .simple s stats).g_attackers := by
  refine ⟨?_, rfl, rfl, rfl, rfl, rfl, rfl, rfl, rfl⟩
  unfold tickRows
  rw [List.forall₂_map_left_iff, List.forall₂_map_right_iff, List.forall₂_same]
  intro kv _
  refine ⟨rfl, rfl, rfl, rfl, rfl, rfl, rfl, rfl, rfl, rfl, rfl, rfl, rfl, rfl, rfl, rfl, rfl,
    rfl, rfl, rfl, rfl, rfl, ?_⟩
  intro h
  have hb := attackBinary_nr_eq_simple s.g_attackers kv.1
    (flowRow .nr s (buildCurrent stats) kv.1 kv.2).flow_pkts_per_sec h
  constructor
  · rw [flowRow_label_binary, flowRow_label_binary, hb]
    rfl
  · rw [flowRow_label_intensity, flowRow_label_intensity, hb]
    rfl

/-- C21 at a concrete input: on the second poll of the pair scenario both generators write
two rows, for sources 10.1.1.2 and 10.1.1.4 (octets 2 and 4, outside the attacker set
`20 .. 24`), and the first rows carry the same totals, the same rate and the same labels. -/
theorem C21_one_engine_witness :
    (tickRows .nr (afterPair .nr) pairPoll2).length = 2 ∧
    (tickRows .simple (afterPair .nr) pairPoll2).length = 2 ∧
    ((flowRow .nr (afterPair .nr) (buildCurrent pairPoll2) upKey
        (snapOf (upStats 12 10 600 500))).src_ip &&& 0xFF) ∉ (afterPair .nr).g_attackers ∧
    (flowRow .nr (afterPair .nr) (buildCurrent pairPoll2) upKey
        (snapOf (upStats 12 10 600 500))).total_pkts_fwd
      = (flowRow .simple (afterPair .nr) (buildCurrent pairPoll2) upKey
        (snapOf (upStats 12 10 600 500))).total_pkts_fwd ∧
    (flowRow .nr (afterPair .nr) (buildCurrent pairPoll2) upKey
        (snapOf (upStats 12 10 600 500))).pkts_per_sec
      = (flowRow .simple (afterPair .nr) (buildCurrent pairPoll2) upKey
        (snapOf (upStats 12 10 600 500))).pkts_per_sec ∧
    (flowRow .nr (afterPair .nr) (buildCurrent pairPoll2) upKey
        (snapOf (upStats 12 10 600 500))).label_binary
      = (flowRow .simple (afterPair .nr) (buildCurrent pairPoll2) upKey
        (snapOf (upStats 12 10 600 500))).label_binary ∧
    (flowRow .nr (afterPair .nr) (buildCurrent pairPoll2) upKey
        (snapOf (upStats 12 10 600 500))).label_intensity
      = (flowRow .simple (afterPair .nr) (buildCurrent pairPoll2) upKey
        (snapOf (upStats 12 10 600 500))).label_intensity := by
  have h := (C21_one_engine (afterPair .nr) pairPoll2).1
  have e1 : tickRows .nr (afterPair .nr) pairPoll2
      = [flowRow .nr (afterPair .nr) (buildCurrent pairPoll2) upKey
          (snapOf (upStats 12 10 600 500)),
        flowRow .nr (afterPair .nr) (buildCurrent pairPoll2) (revKey upKey)
          (snapOf (downStats 4 4 150 150))] := rfl
  have e2 : tickRows .simple (afterPair .nr) pairPoll2
      = [flowRow .simple (afterPair .nr) (buildCurrent pairPoll2) upKey
          (snapOf (upStats 12 10 600 500)),
        flowRow .simple (afterPair .nr) (buildCurrent pairPoll2) (revKey upKey)
          (snapOf (downStats 4 4 150 150))] := rfl
  have hsrc : ((flowRow .nr (afterPair .nr) (buildCurrent pairPoll2) upKey
      (snapOf (upStats 12 10 600 500))).src_ip &&& 0xFF) ∉ (afterPair .nr).g_attackers := by
    decide
  rw [e1, e2, List.forall₂_cons] at h
  have h1 := h.1
  exact ⟨by rw [e1]; rfl, by rw [e2]; rfl, hsrc, h1.2.2.2.2.2.2.2.2.2.2.2.2.2.2.1,
    h1.2.2.2.2.2.2.2.2.2.2.2.2.2.2.2.2.1, (h1.2.2.2.2.2.2.2.2.2.2.2.2.2.2.2.2.2.2.2.2.2.2 hsrc).1,
    (h1.2.2.2.2.2.2.2.2.2.2.2.2.2.2.2.2.2.2.2.2.2.2 hsrc).2⟩

/-- C22: mirror rows. Whenever one tick writes a row `r` for a key and a row `r'` for the
reverse of that key (both keys are in the current snapshot map), `r'` is `r` with the
directions exchanged: `total_pkts_fwd` and `total_bytes_fwd` of either row are
`total_pkts_bwd` and `total_bytes_bwd` of the other, and `pkts_per_sec`, `bytes_per_sec`,
`packet_size`, `delay_ms` and `jitter_ms` are the same in the two rows. -/
theorem C22_mirror_rows (gen : Generator) (s : State) (stats : Poll) (r r' : Row)
    (hr : r ∈ tickRows gen s stats) (hr' : r' ∈ tickRows gen s stats)
    (hrev : r'.key = revKey r.key) :
    r'.total_pkts_fwd = r.total_pkts_bwd ∧ r'.total_pkts_bwd = r.total_pkts_fwd ∧
    r'.total_bytes_fwd = r.total_bytes_bwd ∧ r'.total_bytes_bwd = r.total_bytes_fwd ∧
    r'.pkts_per_sec = r.pkts_per_sec ∧ r'.bytes_per_sec = r.bytes_per_sec ∧
    r'.packet_size = r.packet_size ∧ r'.delay_ms = r.delay_ms ∧
    r'.jitter_ms = r.jitter_ms := by
  obtain ⟨k, v, hkv, rfl⟩ := mem_tickRows.1 hr
  obtain ⟨k', w, hkw, rfl⟩ := mem_tickRows.1 hr'
  rw [flowRow_key, flowRow_key] at hrev
  subst hrev
  have hs := keysSorted_buildCurrent stats
  exact flowRow_mirror gen gen s (buildCurrent stats) k v w (mapFind_of_mem hs hkv)
    (mapFind_of_mem hs hkw)

/-- C22 at a concrete input: on the second poll of the timed scenario the row of the
server-to-client flow mirrors the row of the client-to-server flow, which counts 8 forward
and 4 backward packets. -/
theorem C22_mirror_rows_witness :
    (flowRow .nr (afterTimed .nr) (buildCurrent timedPoll2) upKey
        (snapOf (timedStats true 14 12 26 13)) ∈ tickRows .nr (afterTimed .nr) timedPoll2 ∧
      flowRow .nr (afterTimed .nr) (buildCurrent timedPoll2) (revKey upKey)
        (snapOf (timedStats false 5 5 10 5)) ∈ tickRows .nr (afterTimed .nr) timedPoll2) ∧
    (flowRow .nr (afterTimed .nr) (buildCurrent timedPoll2) upKey
      (snapOf (timedStats true 14 12 26 13))).total_pkts_fwd = 8 ∧
    (flowRow .nr (afterTimed .nr) (buildCurrent timedPoll2) upKey
      (snapOf (timedStats true 14 12 26 13))).total_pkts_bwd = 4 ∧
    (flowRow .nr (afterTimed .nr) (buildCurrent timedPoll2) (revKey upKey)
      (snapOf (timedStats false 5 5 10 5))).total_pkts_fwd = 4 ∧
    (flowRow .nr (afterTimed .nr) (buildCurrent timedPoll2) (revKey upKey)
      (snapOf (timedStats false 5 5 10 5))).total_pkts_bwd = 8 ∧
    (flowRow .nr (afterTimed .nr) (buildCurrent timedPoll2) (revKey upKey)
      (snapOf (timedStats false 5 5 10 5))).delay_ms
      = (flowRow .nr (afterTimed .nr) (buildCurrent timedPoll2) upKey
        (snapOf (timedStats true 14 12 26 13))).delay_ms :=
  have hr : flowRow .nr (afterTimed .nr) (buildCurrent timedPoll2) upKey
      (snapOf (timedStats true 14 12 26 13)) ∈ tickRows .nr (afterTimed .nr) timedPoll2 :=
    mem_tickRows.2 ⟨upKey, _, by decide, rfl⟩
  have hr' : flowRow .nr (afterTimed .nr) (buildCurrent timedPoll2) (revKey upKey)
      (snapOf (timedStats false 5 5 10 5)) ∈ tickRows .nr (afterTimed .nr) timedPoll2 :=
    mem_tickRows.2 ⟨revKey upKey, _, by decide, rfl⟩
  have h := C22_mirror_rows .nr (afterTimed .nr) timedPoll2 _ _ hr hr' rfl
  have hf : (flowRow .nr (afterTimed .nr) (buildCurrent timedPoll2) upKey
      (snapOf (timedStats true 14 12 26 13))).total_pkts_fwd = 8 := by decide
  have hb : (flowRow .nr (afterTimed .nr) (buildCurrent timedPoll2) upKey
      (snapOf (timedStats true 14 12 26 13))).total_pkts_bwd = 4 := by decide
  ⟨⟨hr, hr'⟩, hf, hb, h.1.trans hb, h.2.1.trans hf, h.2.2.2.2.2.2.2.1⟩

/-- C23: telescoping across windows. In every run of `n ≥ 1` ticks from the empty registry
(here `n - 1` polls followed by a last one) and for every key `k` that is in the current
snapshot map at each of the ticks, the output holds exactly `n` rows for `k`, one per tick, and
the sum of their `total_pkts_fwd` values is congruent modulo `2^64` to
`txPackets + rxPackets` of the snapshot of `k` at tick `n`, the sum of their `total_bytes_fwd`
values to `txBytes + rxBytes` of that snapshot. -/
theorem C23_telescoping (gen : Generator) (cfg : Config) (polls : List Poll) (last : Poll)
    (k : FlowKey) (v : FlowSnapshot)
    (hall : ∀ p ∈ polls, mapFind (buildCurrent p) k ≠ none)
    (hlast : mapFind (buildCurrent last) k = some v) :
    (rowsOfKey (run gen cfg (polls ++ [last])).g_out k).length = polls.length + 1 ∧
    ((rowsOfKey (run gen cfg (polls ++ [last])).g_out k).map Row.total_pkts_fwd).sum % 2 ^ 64
      = (v.txPackets + v.rxPackets) % 2 ^ 64 ∧
    ((rowsOfKey (run gen cfg (polls ++ [last])).g_out k).map Row.total_bytes_fwd).sum % 2 ^ 64
      = (v.txBytes + v.rxBytes) % 2 ^ 64 := by
  have hall' : ∀ p ∈ polls ++ [last], mapFind (buildCurrent p) k ≠ none := by
    intro p hp
    rcases List.mem_append.1 hp with h | h
    · exact hall p h
    · rw [List.mem_singleton.1 h, hlast]
      exact Option.some_ne_none v
  have hfin : lookupOrZero (run gen cfg (polls ++ [last])).g_prev k = v := by
    rw [run_prev_last]
    exact lookupOrZero_of_some hlast
  have h0 : lookupOrZero (mainInit cfg).g_prev k = {} := rfl
  have hout : rowsOfKey (mainInit cfg).g_out k = [] := rfl
  refine ⟨?_, ?_, ?_⟩
  · have h := rowsOfKey_length_foldl gen k (polls ++ [last]) (mainInit cfg) hall'
    rw [hout, List.length_append] at h
    exact h.trans (by simp)
  · have h := telescope_foldl gen k Row.total_pkts_fwd FlowSnapshot.txPackets
      FlowSnapshot.rxPackets (fun s current w => fwd_total_step _ _ _ _) (polls ++ [last])
      (mainInit cfg) hall'
    change (_ + (_ + _)) % 2 ^ 64
      = (_ + ((lookupOrZero (run gen cfg (polls ++ [last])).g_prev k).txPackets
        + (lookupOrZero (run gen cfg (polls ++ [last])).g_prev k).rxPackets)) % 2 ^ 64 at h
    rw [hfin, h0, hout] at h
    have h' : (((rowsOfKey (run gen cfg (polls ++ [last])).g_out k).map Row.total_pkts_fwd).sum
        + (0 + 0)) % 2 ^ 64 = (0 + (v.txPackets + v.rxPackets)) % 2 ^ 64 := h
    omega
  · have h := telescope_foldl gen k Row.total_bytes_fwd FlowSnapshot.txBytes
      FlowSnapshot.rxBytes (fun s current w => fwd_total_step _ _ _ _) (polls ++ [last])
      (mainInit cfg) hall'
    change (_ + (_ + _)) % 2 ^ 64
      = (_ + ((lookupOrZero (run gen cfg (polls ++ [last])).g_prev k).txBytes
        + (lookupOrZero (run gen cfg (polls ++ [last])).g_prev k).rxBytes)) % 2 ^ 64 at h
    rw [hfin, h0, hout] at h
    have h' : (((rowsOfKey (run gen cfg (polls ++ [last])).g_out k).map Row.total_bytes_fwd).sum
        + (0 + 0)) % 2 ^ 64 = (0 + (v.txBytes + v.rxBytes)) % 2 ^ 64 := h
    omega

/-- C23 at a concrete input: the client-to-server flow is polled three times, its transmit
packet counter going from 10 back to 5 and then up to 12. The three rows report 18,
`2^64 - 5` and 9 forward packets, whose sum `2^64 + 22` is congruent to the 12 + 10 packets of
the last snapshot. -/
theorem C23_telescoping_witness :
    ((∀ p ∈ [[upStats 10 8 500 400], regressPoll], mapFind (buildCurrent p) upKey ≠ none) ∧
      mapFind (buildCurrent growPoll) upKey = some (snapOf (upStats 12 10 600 500))) ∧
    (rowsOfKey (run .nr {} ([[upStats 10 8 500 400], regressPoll] ++ [growPoll])).g_out
      upKey).map Row.total_pkts_fwd = [18, 18446744073709551611, 9] ∧
    ((rowsOfKey (run .nr {} ([[upStats 10 8 500 400], regressPoll] ++ [growPoll])).g_out
      upKey).map Row.total_pkts_fwd).sum % 2 ^ 64 = 22 ∧
    ((rowsOfKey (run .nr {} ([[upStats 10 8 500 400], regressPoll] ++ [growPoll])).g_out
      upKey).map Row.total_bytes_fwd).sum % 2 ^ 64 = 1100 :=
  have hall : ∀ p ∈ [[upStats 10 8 500 400], regressPoll],
      mapFind (buildCurrent p) upKey ≠ none := by decide
  have hlast : mapFind (buildCurrent growPoll) upKey
      = some (snapOf (upStats 12 10 600 500)) := rfl
  have h := C23_telescoping .nr {} [[upStats 10 8 500 400], regressPoll] growPoll upKey
    (snapOf (upStats 12 10 600 500)) hall hlast
  ⟨⟨hall, hlast⟩, by decide, h.2.1.trans (by decide), h.2.2.trans (by decide)⟩

/-- C24: `lostPackets` does not influence the output. For any two runs of the same
configuration whose polled statistics are, tick by tick and flow by flow, identical except for
the `lostPackets` counters, the output files are identical after the runs, the next tick
writes exactly the same rows in both runs on any two polls that again differ in `lostPackets`
only, and the window clocks agree. The field is copied into the snapshot (and with the
snapshot into the registry) as a 64-bit value, but no column of a row reads it. -/
theorem C24_lostPackets_noninterference (gen : Generator) (cfg : Config)
    (polls polls' : List Poll)
    (h : List.Forall₂
      (List.Forall₂ (fun st st' : FlowStats => st' = { st with lostPackets := st'.lostPackets }))
      polls polls') :
    (run gen cfg polls).g_out = (run gen cfg polls').g_out ∧
    (∀ stats stats' : Poll,
      List.Forall₂ (fun st st' : FlowStats => st' = { st with lostPackets := st'.lostPackets })
        stats stats' →
      tickRows gen (run gen cfg polls) stats = tickRows gen (run gen cfg polls') stats') ∧
    (run gen cfg polls).g_windowStart = (run gen cfg polls').g_windowStart ∧
    (∀ st : FlowStats, (snapOf st).lostPackets = st.lostPackets % 2 ^ 64) := by
  have hrel : LostEquiv (run gen cfg polls) (run gen cfg polls') :=
    lostEquiv_foldl gen polls polls' h _ _ (lostEquiv_refl (mainInit cfg))
  refine ⟨hrel.1, ?_, hrel.2.2.1, fun _ => rfl⟩
  intro stats stats' hst
  exact (lostEquiv_SampleAndWrite gen _ _ stats stats' hrel hst).1

/-- C24 at a concrete input: the two polls of the pair scenario are run once without and once
with lost packets (2 and then 7 on the client-to-server flow, 1 on the reverse flow). The
registry of the second run holds the counter 7 where the first holds 0, and the two output
files are the same. -/
theorem C24_lostPackets_noninterference_witness :
    List.Forall₂
      (List.Forall₂ (fun st st' : FlowStats => st' = { st with lostPackets := st'.lostPackets }))
      [pairPoll, pairPoll2] [lossyPoll, lossyPoll2] ∧
    (lookupOrZero (run .simple {} [pairPoll, pairPoll2]).g_prev upKey).lostPackets = 0 ∧
    (lookupOrZero (run .simple {} [lossyPoll, lossyPoll2]).g_prev upKey).lostPackets = 7 ∧
    (run .simple {} [pairPoll, pairPoll2]).g_out
      = (run .simple {} [lossyPoll, lossyPoll2]).g_out ∧
    (dataRows (run .simple {} [lossyPoll, lossyPoll2]).g_out).length = 4 :=
  have hrel : List.Forall₂
      (List.Forall₂ (fun st st' : FlowStats => st' = { st with lostPackets := st'.lostPackets }))
      [pairPoll, pairPoll2] [lossyPoll, lossyPoll2] :=
    List.Forall₂.cons (List.Forall₂.cons rfl (List.Forall₂.cons rfl List.Forall₂.nil))
      (List.Forall₂.cons (List.Forall₂.cons rfl (List.Forall₂.cons rfl List.Forall₂.nil))
        List.Forall₂.nil)
  ⟨hrel, by decide, by decide,
    (C24_lostPackets_noninterference .simple {} [pairPoll, pairPoll2] [lossyPoll, lossyPoll2]
      hrel).1, by decide⟩

end FlowEngine
